import Mathlib

/-!
# Host orchestration of the D3Q19 lattice-Boltzmann solver (`sim_main.c`)

`main` and `simulation_main` are host code: they compute a few sizes and flags
from the parameter structs and then issue a sequence of OpenCL calls.  The
embedding below keeps exactly that: every call the host makes is recorded, in
order, with the arguments that identify it (queue, kernel, buffer, index space),
and the status each call reports is an input (`State.status`).  Byte counts of
buffers are not recorded, except for the mapped regions.  The numerical kernels
themselves run on the device and are not part of the host program.
-/

namespace D3Q19

/-! ## Objects named by the host code -/

/-- The two command queues created by `main`. -/
inductive Queue
  | CPU
  | GPU
  deriving DecidableEq, Repr

/-- The kernels of `kernelDat` that `simulation_main` binds or dispatches. -/
inductive Kernel
  | collide_stream
  | boundary_velocity
  | boundary_periodic
  | particle_fluid_forces_linear_stencil
  | sum_particle_fluid_forces
  | reset_particle_fluid_forces
  | particle_particle_forces
  | particle_dynamics
  | update_particle_zones
  deriving DecidableEq, Repr

/-- The device buffers declared through `LIST_OF_CL_MEM` and created in
`simulation_main` (twenty `clCreateBuffer` calls). -/
inductive Mem
  | fA_cl
  | fB_cl
  | u_cl
  | gpf_cl
  | countPoint_cl
  | tau_lb_cl
  | parKin_cl
  | parForce_cl
  | parFluidForce_cl
  | parsZone_cl
  | zoneMembers_cl
  | numParInZone_cl
  | parFluidForceSum_cl
  | threadMembers_cl
  | numParInThread_cl
  | zoneDat_cl
  | intDat_cl
  | flpDat_cl
  | strMap_cl
  | spherePoints_cl
  deriving DecidableEq, Repr

/-- Host arrays and host structs handed to OpenCL calls or to the output
routines. -/
inductive HostArr
  | f_h
  | u_h
  | gpf_h
  | countPoint_h
  | tau_lb_h
  | parKin_h
  | parForce_h
  | parFluidForce_h
  | parFluidForceSum_h
  | threadMembers_h
  | numParInThread_h
  | parsZone_h
  | zoneMembers_h
  | numParInZone_h
  | spherePoints
  | strMap
  | intDat
  | flpDat
  | zoneDat
  deriving DecidableEq, Repr

/-- A value passed to `clSetKernelArg`: a buffer handle or a `cl_int`. -/
inductive ArgVal
  | mem (m : Mem)
  | int (v : Int)
  deriving DecidableEq, Repr

/-- The identifying string passed to `error_check`. -/
inductive Tag
  | clCreateContext
  | clCreateCommandQueue
  | clCreateBuffer_1
  | clCreateBuffer_2
  | clCreateBuffer_3
  | clEnqueueWriteBuffer_1
  | clEnqueueWriteBuffer_2
  | clSetKernelArg_GPU_kernels
  | clEnqueueMapBuffer
  | clEnqueueReadBuffer_Video
  | clEnqueueReadBuffer_Shear_stress
  deriving DecidableEq, Repr

/-- One call made by the host program, with the arguments the source passes.
`clEnqueueNDRangeKernel` records the queue, the kernel, the work dimension, the
global offset, the global size and the local size (`none` for a `NULL`
pointer). -/
inductive Call
  | analyse_platform
  | clCreateContext
  | clCreateCommandQueue (q : Queue)
  | vecadd_test (q : Queue)
  | initialize_data
  | parameter_checking
  | sphere_discretization
  | create_LB_kernels
  | initialize_lattice_fields
  | initialize_particle_fields
  | initialize_particle_zones
  | create_periodic_stream_mapping
  | clCreateBuffer (m : Mem) (host_ptr : Option HostArr)
  | clEnqueueWriteBuffer (q : Queue) (m : Mem) (src : HostArr)
  | clSetKernelArg (k : Kernel) (idx : Nat) (v : ArgVal)
  | clEnqueueNDRangeKernel (q : Queue) (k : Kernel) (work_dim : Nat)
      (offset : Option (List Nat)) (global : List Nat) (loc : Option (List Nat))
  | clFinish (q : Queue)
  | clEnqueueMapBuffer (q : Queue) (m : Mem) (bytes : Nat)
  | host_store (a : HostArr) (i : Nat) (v : Int)
  | clEnqueueUnmapMemObject (q : Queue) (m : Mem) (a : HostArr)
  | clEnqueueReadBuffer (q : Queue) (m : Mem) (dst : HostArr)
  | error_check (err : Int) (tag : Tag)
  | fopen
  | printf_iteration (t : Int)
  | continuous_output (u : HostArr) (parKin : HostArr) (t : Int)
  | compute_shear_stress (u : HostArr) (tau : HostArr) (t : Int)
  | clReleaseCommandQueue (q : Queue)
  deriving DecidableEq, Repr

/-- Why a run stops before `main` returns. -/
inductive Halt
  | exit_failure
  | error_abort (tag : Tag) (err : Int)
  | undefined_behaviour
  deriving DecidableEq, Repr

/-! ## Parameter structs -/

/-- A C array `int v[3]`. -/
structure Int3 where
  a0 : Int
  a1 : Int
  a2 : Int
  deriving DecidableEq, Repr

/-- Element `v[i]` for `i` in `0..2`. -/
def Int3.idx (v : Int3) (i : Nat) : Int :=
  match i with
  | 0 => v.a0
  | 1 => v.a1
  | _ => v.a2

/-- The fields of `int_param_struct` read by `simulation_main`. -/
structure int_param_struct where
  LatticeSize : Int3
  BoundaryConds : Int3
  NumParticles : Int
  TotalSurfPoints : Int
  PointsPerWorkGroup : Int
  NumForceArrays : Int
  MaxIterations : Int
  NumZones : Int3
  deriving DecidableEq, Repr

/-- The fields of `host_param_struct` read by `simulation_main`. -/
structure host_param_struct where
  DomainDecomp : Int3
  ConsolePrintFreq : Int
  RebuildFreq : Int
  VideoFreq : Int
  ShearStressFreq : Int
  TangentialVelBC : Int3
  deriving DecidableEq, Repr

/-- What the host-setup routines hand to `simulation_main`: the two parameter
structs filled by `initialize_data`, the error count returned by
`parameter_checking`, and the pair count returned by
`create_periodic_stream_mapping`. -/
structure Input where
  /-- The integer parameters after `initialize_data`. -/
  intDat : int_param_struct
  /-- The host parameters after `initialize_data`. -/
  hostDat : host_param_struct
  /-- The value returned by `parameter_checking`. -/
  paramErrors : Int
  /-- Modelled from the spec: `create_periodic_stream_mapping` is declared in
  the header but its body is not among the sources; per the contract of the
  stream-map builder the pair count it returns is determined by the lattice
  extents and the per-axis boundary-condition selectors. -/
  create_periodic_stream_mapping : Int3 → Int3 → Int

/-- `CL_SUCCESS`. -/
def CL_SUCCESS : Int := 0

/-- `BC_PERIODIC` of `D3Q19-OpenCL_header.h`. -/
def BC_PERIODIC : Int := 0

/-- `BC_BOUNCE_BACK` of `D3Q19-OpenCL_header.h`. -/
def BC_BOUNCE_BACK : Int := 1

/-- `BC_VELOCITY` of `D3Q19-OpenCL_header.h`. -/
def BC_VELOCITY : Int := 2

/-- Conversion of an `int` value to `size_t` (64 bit, wrapping). -/
def size_t (x : Int) : Nat := (x % (2 : Int) ^ 64).toNat

/-! ## The host program as a state-passing computation -/

/-- What the program depends on besides its input: the number of calls made
so far, and the status reported by the `n`-th call when that call is `c` (an
input: `status n c`). -/
structure State where
  clock : Nat
  status : Nat → Call → Int

/-- The state after `n` more calls. -/
def State.tick (s : State) (n : Nat) : State := { s with clock := s.clock + n }

/-- How a computation ends: with a value and a state, or halted. -/
inductive Outcome (α : Type)
  | ok (a : α) (s : State)
  | halt (h : Halt)

/-- A host computation: from a state, the calls it makes (oldest first) and
its outcome. -/
def Prog (α : Type) : Type := State → List Call × Outcome α

/-- Run a computation from a state. -/
def Prog.run {α : Type} (m : Prog α) (s : State) : List Call × Outcome α := m s

/-- The calls made by a computation started in `s`. -/
def Prog.calls {α : Type} (m : Prog α) (s : State) : List Call := (m.run s).1

/-- The outcome of a computation started in `s`. -/
def Prog.outcome {α : Type} (m : Prog α) (s : State) : Outcome α := (m.run s).2

/-- Return a value without making a call. -/
def Prog.ret {α : Type} (a : α) : Prog α := fun s => ([], Outcome.ok a s)

/-- Put the calls already made in front of the result of a continuation. -/
def after {β : Type} (l : List Call) (r : List Call × Outcome β) : List Call × Outcome β :=
  (l ++ r.1, r.2)

/-- Sequencing: a halted first part stops the program. -/
def Prog.seq {α β : Type} (m : Prog α) (f : α → Prog β) : Prog β := fun s =>
  match m s with
  | (l, Outcome.ok a s1) => after l (f a s1)
  | (l, Outcome.halt h) => (l, Outcome.halt h)

instance : Monad Prog where
  pure := Prog.ret
  bind := Prog.seq

/-- Stop the program. -/
def halt {α : Type} (h : Halt) : Prog α := fun _ => ([], Outcome.halt h)

/-- Make one call; its result is the status the environment reports for it. -/
def emit (c : Call) : Prog Int := fun s =>
  ([c], Outcome.ok (s.status s.clock c) (s.tick 1))

/-- Make a run of host-side calls whose results are not used. -/
def emits : List Call → Prog Unit
  | [] => pure ()
  | c :: cs => do
    let _ ← emit c
    emits cs

/-- Modelled from the spec: `error_check` is declared in the header but its
body is not among the sources.  Per the error-handling design a non-success
status is fatal: it is reported under the given tag and the process aborts; a
success status lets the program continue. -/
def error_check (err : Int) (tag : Tag) : Prog Unit := do
  let _ ← emit (Call.error_check err tag)
  if err ≠ CL_SUCCESS then halt (Halt.error_abort tag err)

/-- The C expression `a % b` on `int`: undefined for `b = 0`, otherwise the
remainder of truncated division. -/
def c_mod (a b : Int) : Prog Int :=
  if b = 0 then halt Halt.undefined_behaviour else pure (Int.tmod a b)

/-- `clSetKernelArg(k, idx, ..., &v)`. -/
def clSetKernelArg (k : Kernel) (idx : Nat) (v : ArgVal) : Prog Int :=
  emit (Call.clSetKernelArg k idx v)

/-- `clEnqueueNDRangeKernel(q, k, work_dim, offset, global, local, 0, NULL, NULL)`. -/
def clEnqueueNDRangeKernel (q : Queue) (k : Kernel) (work_dim : Nat)
    (offset : Option (List Nat)) (global : List Nat) (loc : Option (List Nat)) : Prog Int :=
  emit (Call.clEnqueueNDRangeKernel q k work_dim offset global loc)

/-- `clFinish(q)`. -/
def clFinish (q : Queue) : Prog Int := emit (Call.clFinish q)

/-- `clCreateBuffer(...)`: the result is the status written to `errcode_ret`. -/
def clCreateBuffer (m : Mem) (host_ptr : Option HostArr) : Prog Int :=
  emit (Call.clCreateBuffer m host_ptr)

/-- `clEnqueueWriteBuffer(*GPU_QueuePtr, m, CL_TRUE, ..., src, ...)`. -/
def clEnqueueWriteBuffer (m : Mem) (src : HostArr) : Prog Int :=
  emit (Call.clEnqueueWriteBuffer Queue.GPU m src)

/-- `clEnqueueReadBuffer(*GPU_QueuePtr, m, CL_TRUE, ..., dst, ...)`. -/
def clEnqueueReadBuffer (m : Mem) (dst : HostArr) : Prog Int :=
  emit (Call.clEnqueueReadBuffer Queue.GPU m dst)

/-! ## `simulation_main`: set-up -/

/-- The section CREATE BUFFERS.  Every `clCreateBuffer` call is handed the same
`&err_cl` and writes its own status there; `error_check` reads `err_cl` once
per group. -/
def create_buffers : Prog Unit := do
  -- Lattice fields
  let mut err_cl := CL_SUCCESS
  err_cl ← clCreateBuffer Mem.fA_cl none
  err_cl ← clCreateBuffer Mem.fB_cl none
  err_cl ← clCreateBuffer Mem.u_cl none
  err_cl ← clCreateBuffer Mem.gpf_cl none
  err_cl ← clCreateBuffer Mem.countPoint_cl none
  err_cl ← clCreateBuffer Mem.tau_lb_cl none
  error_check err_cl Tag.clCreateBuffer_1
  -- Particle arrays
  err_cl := CL_SUCCESS
  err_cl ← clCreateBuffer Mem.parKin_cl (some HostArr.parKin_h)
  err_cl ← clCreateBuffer Mem.parForce_cl (some HostArr.parForce_h)
  err_cl ← clCreateBuffer Mem.parFluidForce_cl (some HostArr.parFluidForce_h)
  err_cl ← clCreateBuffer Mem.parsZone_cl (some HostArr.parsZone_h)
  err_cl ← clCreateBuffer Mem.zoneMembers_cl (some HostArr.zoneMembers_h)
  err_cl ← clCreateBuffer Mem.numParInZone_cl (some HostArr.numParInZone_h)
  err_cl ← clCreateBuffer Mem.parFluidForceSum_cl none
  error_check err_cl Tag.clCreateBuffer_2
  -- Read-only buffers
  err_cl := CL_SUCCESS
  err_cl ← clCreateBuffer Mem.threadMembers_cl (some HostArr.threadMembers_h)
  err_cl ← clCreateBuffer Mem.numParInThread_cl (some HostArr.numParInThread_h)
  err_cl ← clCreateBuffer Mem.zoneDat_cl (some HostArr.zoneDat)
  err_cl ← clCreateBuffer Mem.intDat_cl none
  err_cl ← clCreateBuffer Mem.flpDat_cl none
  err_cl ← clCreateBuffer Mem.strMap_cl none
  err_cl ← clCreateBuffer Mem.spherePoints_cl none
  error_check err_cl Tag.clCreateBuffer_3

/-- The section WRITE BUFFERS: the statuses of a group are or-ed into
`err_cl` before `error_check` reads it. -/
def write_buffers : Prog Unit := do
  let mut err_cl := CL_SUCCESS
  err_cl ← clEnqueueWriteBuffer Mem.fA_cl HostArr.f_h
  err_cl := Int.lor err_cl (← clEnqueueWriteBuffer Mem.fB_cl HostArr.f_h)
  err_cl := Int.lor err_cl (← clEnqueueWriteBuffer Mem.u_cl HostArr.u_h)
  err_cl := Int.lor err_cl (← clEnqueueWriteBuffer Mem.gpf_cl HostArr.gpf_h)
  err_cl := Int.lor err_cl (← clEnqueueWriteBuffer Mem.countPoint_cl HostArr.countPoint_h)
  err_cl := Int.lor err_cl (← clEnqueueWriteBuffer Mem.tau_lb_cl HostArr.tau_lb_h)
  error_check err_cl Tag.clEnqueueWriteBuffer_1
  err_cl := CL_SUCCESS
  err_cl := Int.lor err_cl (← clEnqueueWriteBuffer Mem.parFluidForceSum_cl HostArr.parFluidForceSum_h)
  err_cl := Int.lor err_cl (← clEnqueueWriteBuffer Mem.spherePoints_cl HostArr.spherePoints)
  err_cl := Int.lor err_cl (← clEnqueueWriteBuffer Mem.strMap_cl HostArr.strMap)
  err_cl := Int.lor err_cl (← clEnqueueWriteBuffer Mem.intDat_cl HostArr.intDat)
  err_cl := Int.lor err_cl (← clEnqueueWriteBuffer Mem.flpDat_cl HostArr.flpDat)
  error_check err_cl Tag.clEnqueueWriteBuffer_2

/-- The variables assigned by the work-size loop of KERNEL RANGE SETTINGS. -/
structure KernelRange where
  global_work_size : List Nat
  velBC_work_size : List Nat
  wallAxis : Int
  velBoundary : Int
  deriving DecidableEq, Repr

/-- One iteration `dim` of the work-size loop. -/
def kernel_range_dim (intDat : int_param_struct) (r : KernelRange) (dim : Nat) : KernelRange :=
  let g := r.global_work_size.set dim (size_t (intDat.LatticeSize.idx dim - 2))
  if intDat.BoundaryConds.idx dim = 1 then
    { global_work_size := g
      velBC_work_size := r.velBC_work_size.set dim 2
      wallAxis := dim
      velBoundary := 1 }
  else
    { global_work_size := g
      velBC_work_size := r.velBC_work_size.set dim (size_t (intDat.LatticeSize.idx dim - 2))
      wallAxis := r.wallAxis
      velBoundary := r.velBoundary }

/-- The work-size loop `for (int dim=0; dim<3; dim++)`, started from
`wallAxis = 0`, `velBoundary = 0`. -/
def kernel_range_settings (intDat : int_param_struct) : KernelRange :=
  [0, 1, 2].foldl (kernel_range_dim intDat)
    { global_work_size := [0, 0, 0], velBC_work_size := [0, 0, 0], wallAxis := 0, velBoundary := 0 }

/-- The locals of `simulation_main` that the timestep loop reads. -/
structure Locals where
  usingParticles : Int
  global_work_size : List Nat
  velBC_work_size : List Nat
  wallAxis : Int
  velBoundary : Int
  periodic_work_size : Nat
  numParThreads : Nat
  numSurfPoints : Nat
  pointWorkSize : Nat
  totalNumZones : Nat
  deriving DecidableEq, Repr

/-- The values `simulation_main` computes for these locals before the loop. -/
def locals (inp : Input) : Locals :=
  let r := kernel_range_settings inp.intDat
  { usingParticles := if inp.intDat.NumParticles > 0 then 1 else 0
    global_work_size := r.global_work_size
    velBC_work_size := r.velBC_work_size
    wallAxis := r.wallAxis
    velBoundary := r.velBoundary
    periodic_work_size :=
      size_t (inp.create_periodic_stream_mapping inp.intDat.LatticeSize inp.intDat.BoundaryConds)
    numParThreads :=
      size_t (inp.hostDat.DomainDecomp.a0 * inp.hostDat.DomainDecomp.a1 * inp.hostDat.DomainDecomp.a2)
    numSurfPoints := size_t (if inp.intDat.NumParticles > 0 then inp.intDat.TotalSurfPoints else 32)
    pointWorkSize := size_t inp.intDat.PointsPerWorkGroup
    totalNumZones :=
      size_t (inp.intDat.NumZones.a0 * inp.intDat.NumZones.a1 * inp.intDat.NumZones.a2) }

/-- `lattice_work_offset`: global ids start at 1 because of the buffer layer. -/
def lattice_work_offset : List Nat := [1, 1, 1]

/-- `calcRho`. -/
def calcRho : Int := 1

/-- `tanCalcRho`. -/
def tanCalcRho : Int := 0

/-- Or the statuses of a list of `clSetKernelArg` calls into `err_cl`. -/
def set_args (k : Kernel) : List (Nat × ArgVal) → Int → Prog Int
  | [], err_cl => pure err_cl
  | (i, v) :: rest, err_cl => do
    let e ← clSetKernelArg k i v
    set_args k rest (Int.lor err_cl e)

/-- The section FIXED KERNEL ARGS. -/
def fixed_kernel_args (L : Locals) : Prog Unit := do
  let mut err_cl := CL_SUCCESS
  err_cl ← set_args Kernel.collide_stream
    [(2, ArgVal.mem Mem.gpf_cl), (3, ArgVal.mem Mem.u_cl), (4, ArgVal.mem Mem.tau_lb_cl),
     (5, ArgVal.mem Mem.countPoint_cl), (6, ArgVal.mem Mem.intDat_cl),
     (7, ArgVal.mem Mem.flpDat_cl)] err_cl
  err_cl ← set_args Kernel.boundary_velocity
    [(1, ArgVal.mem Mem.intDat_cl), (2, ArgVal.mem Mem.flpDat_cl), (3, ArgVal.int L.wallAxis),
     (4, ArgVal.int calcRho)] err_cl
  err_cl ← set_args Kernel.boundary_periodic
    [(1, ArgVal.mem Mem.intDat_cl), (2, ArgVal.mem Mem.strMap_cl)] err_cl
  err_cl ← set_args Kernel.particle_fluid_forces_linear_stencil
    [(0, ArgVal.mem Mem.intDat_cl), (1, ArgVal.mem Mem.flpDat_cl), (2, ArgVal.mem Mem.gpf_cl),
     (3, ArgVal.mem Mem.u_cl), (4, ArgVal.mem Mem.parKin_cl),
     (5, ArgVal.mem Mem.parFluidForce_cl), (6, ArgVal.mem Mem.parFluidForceSum_cl),
     (7, ArgVal.mem Mem.spherePoints_cl), (8, ArgVal.mem Mem.countPoint_cl)] err_cl
  err_cl ← set_args Kernel.sum_particle_fluid_forces
    [(0, ArgVal.mem Mem.intDat_cl), (1, ArgVal.mem Mem.flpDat_cl), (2, ArgVal.mem Mem.gpf_cl)]
    err_cl
  err_cl ← set_args Kernel.reset_particle_fluid_forces
    [(0, ArgVal.mem Mem.intDat_cl), (1, ArgVal.mem Mem.flpDat_cl), (2, ArgVal.mem Mem.gpf_cl)]
    err_cl
  err_cl ← set_args Kernel.particle_particle_forces
    [(0, ArgVal.mem Mem.intDat_cl), (1, ArgVal.mem Mem.flpDat_cl), (2, ArgVal.mem Mem.parKin_cl),
     (3, ArgVal.mem Mem.parForce_cl), (4, ArgVal.mem Mem.zoneDat_cl),
     (5, ArgVal.mem Mem.parsZone_cl), (6, ArgVal.mem Mem.threadMembers_cl),
     (7, ArgVal.mem Mem.numParInThread_cl), (8, ArgVal.mem Mem.zoneMembers_cl),
     (9, ArgVal.mem Mem.numParInZone_cl)] err_cl
  err_cl ← set_args Kernel.particle_dynamics
    [(0, ArgVal.mem Mem.intDat_cl), (1, ArgVal.mem Mem.flpDat_cl), (2, ArgVal.mem Mem.parKin_cl),
     (3, ArgVal.mem Mem.parForce_cl), (4, ArgVal.mem Mem.parFluidForce_cl),
     (5, ArgVal.mem Mem.zoneDat_cl), (6, ArgVal.mem Mem.parsZone_cl),
     (7, ArgVal.mem Mem.threadMembers_cl), (8, ArgVal.mem Mem.numParInThread_cl)] err_cl
  err_cl ← set_args Kernel.update_particle_zones
    [(0, ArgVal.mem Mem.intDat_cl), (1, ArgVal.mem Mem.flpDat_cl), (2, ArgVal.mem Mem.parKin_cl),
     (3, ArgVal.mem Mem.zoneDat_cl), (4, ArgVal.mem Mem.threadMembers_cl),
     (5, ArgVal.mem Mem.numParInThread_cl), (6, ArgVal.mem Mem.parsZone_cl),
     (7, ArgVal.mem Mem.zoneMembers_cl), (8, ArgVal.mem Mem.numParInZone_cl)] err_cl
  error_check err_cl Tag.clSetKernelArg_GPU_kernels

/-! ## `simulation_main`: one iteration of the main loop -/

/-- The head of the loop body: `toPrint` and the console line. -/
def print_iteration (hostDat : host_param_struct) (t : Int) : Prog Unit := do
  let r ← c_mod t hostDat.ConsolePrintFreq
  let toPrint : Int := if r = 0 then 1 else 0
  if toPrint ≠ 0 then
    emits [Call.printf_iteration t]

/-- Switch f buffers. -/
def switch_f_buffers (t : Int) : Prog Unit := do
  if Int.tmod t 2 = 0 then
    let _ ← clSetKernelArg Kernel.collide_stream 0 (ArgVal.mem Mem.fA_cl)
    let _ ← clSetKernelArg Kernel.collide_stream 1 (ArgVal.mem Mem.fB_cl)
    let _ ← clSetKernelArg Kernel.boundary_velocity 0 (ArgVal.mem Mem.fB_cl)
    let _ ← clSetKernelArg Kernel.boundary_periodic 0 (ArgVal.mem Mem.fB_cl)
    pure ()
  else
    let _ ← clSetKernelArg Kernel.collide_stream 0 (ArgVal.mem Mem.fB_cl)
    let _ ← clSetKernelArg Kernel.collide_stream 1 (ArgVal.mem Mem.fA_cl)
    let _ ← clSetKernelArg Kernel.boundary_velocity 0 (ArgVal.mem Mem.fA_cl)
    let _ ← clSetKernelArg Kernel.boundary_periodic 0 (ArgVal.mem Mem.fA_cl)
    pure ()

/-- Kernel: LB collide and stream. -/
def collide_and_stream (L : Locals) : Prog Unit := do
  let _ ← clEnqueueNDRangeKernel Queue.GPU Kernel.collide_stream 3
    (some lattice_work_offset) L.global_work_size none
  pure ()

/-- Kernel: Particle update (both queues drained, then the reset of the
particle-fluid force array). -/
def particle_update (L : Locals) : Prog Unit := do
  if L.usingParticles ≠ 0 then
    let _ ← clFinish Queue.CPU
    let _ ← clFinish Queue.GPU
    let _ ← clEnqueueNDRangeKernel Queue.GPU Kernel.reset_particle_fluid_forces 3
      (some lattice_work_offset) L.global_work_size none
    pure ()

/-- Kernel: Periodic stream, followed by the drain of both queues. -/
def periodic_stream (L : Locals) : Prog Unit := do
  let _ ← clEnqueueNDRangeKernel Queue.GPU Kernel.boundary_periodic 1
    none [L.periodic_work_size] none
  let _ ← clFinish Queue.GPU
  let _ ← clFinish Queue.CPU
  pure ()

/-- One iteration `i` of the loop over additional tangential velocity
boundaries.  All three entries of `tanBC_work_size` are assigned before the
dispatch. -/
def tangential_pass (inp : Input) (i : Nat) : Prog Unit := do
  if inp.hostDat.TangentialVelBC.idx i = 1 then
    let tanBC_work_size :=
      (([0, 0, 0].set i 2).set ((i + 1) % 3)
        (size_t (inp.intDat.LatticeSize.idx ((i + 1) % 3) - 2))).set ((i + 2) % 3)
        (size_t (inp.intDat.LatticeSize.idx ((i + 2) % 3) - 2))
    let tanAxis : Int := i
    let _ ← clSetKernelArg Kernel.boundary_velocity 3 (ArgVal.int tanAxis)
    let _ ← clSetKernelArg Kernel.boundary_velocity 4 (ArgVal.int tanCalcRho)
    let _ ← clEnqueueNDRangeKernel Queue.GPU Kernel.boundary_velocity 3
      (some lattice_work_offset) tanBC_work_size none
    pure ()

/-- Kernel: LB velocity boundary. -/
def velocity_boundary (inp : Input) (L : Locals) : Prog Unit := do
  if L.velBoundary ≠ 0 then
    let _ ← clEnqueueNDRangeKernel Queue.GPU Kernel.boundary_velocity 3
      (some lattice_work_offset) L.velBC_work_size none
    tangential_pass inp 0
    tangential_pass inp 1
    tangential_pass inp 2
    let _ ← clSetKernelArg Kernel.boundary_velocity 3 (ArgVal.int L.wallAxis)
    let _ ← clSetKernelArg Kernel.boundary_velocity 4 (ArgVal.int calcRho)
    let _ ← clFinish Queue.GPU
    pure ()

/-- Kernel: Particle-fluid forces, and the sum of the forces acting on the fluid. -/
def particle_fluid_forces (L : Locals) : Prog Unit := do
  if L.usingParticles ≠ 0 then
    let _ ← clEnqueueNDRangeKernel Queue.GPU Kernel.particle_fluid_forces_linear_stencil 1
      none [L.numSurfPoints] (some [L.pointWorkSize])
    let _ ← clFinish Queue.GPU
    let _ ← clEnqueueNDRangeKernel Queue.GPU Kernel.sum_particle_fluid_forces 3
      (some lattice_work_offset) L.global_work_size none
    pure ()

/-- The body of the rebuild branch: map the per-zone counts, zero them, unmap,
dispatch `update_particle_zones`, drain the CPU queue. -/
def rebuild_sequence (L : Locals) : Prog Unit := do
  let err_cl ← emit (Call.clEnqueueMapBuffer Queue.CPU Mem.numParInZone_cl
    (L.totalNumZones * 4 % 2 ^ 64))
  error_check err_cl Tag.clEnqueueMapBuffer
  emits ((List.range L.totalNumZones).map fun i => Call.host_store HostArr.numParInZone_h i 0)
  let _ ← emit (Call.clEnqueueUnmapMemObject Queue.CPU Mem.numParInZone_cl HostArr.numParInZone_h)
  let _ ← clEnqueueNDRangeKernel Queue.CPU Kernel.update_particle_zones 1
    none [L.numParThreads] none
  let _ ← clFinish Queue.CPU
  pure ()

/-- Rebuild neighbour lists every `RebuildFreq`: the condition
`usingParticles && t%hostDat->RebuildFreq == 0` evaluates its right operand
only when the left one is non-zero. -/
def rebuild_neighbour_lists (hostDat : host_param_struct) (L : Locals) (t : Int) : Prog Unit := do
  if L.usingParticles ≠ 0 then
    let r ← c_mod t hostDat.RebuildFreq
    if r = 0 then
      rebuild_sequence L

/-- The two drains closing the kernel part of the step. -/
def end_of_step (_L : Locals) : Prog Unit := do
  let _ ← clFinish Queue.GPU
  let _ ← clFinish Queue.CPU
  pure ()

/-- Produce video output: the branch `if (t%hostDat->VideoFreq == 0)`. -/
def video_output (hostDat : host_param_struct) (t : Int) : Prog Unit := do
  let rv ← c_mod t hostDat.VideoFreq
  if rv = 0 then
    let err_cl ← clEnqueueReadBuffer Mem.u_cl HostArr.u_h
    error_check err_cl Tag.clEnqueueReadBuffer_Video
    emits [Call.continuous_output HostArr.u_h HostArr.parKin_h t]

/-- Produce analysis: the branch `if (t%hostDat->ShearStressFreq == 0)`.  The
status of the first read-back is overwritten by that of the second. -/
def shear_output (hostDat : host_param_struct) (t : Int) : Prog Unit := do
  let rs ← c_mod t hostDat.ShearStressFreq
  if rs = 0 then
    let mut err_cl ← clEnqueueReadBuffer Mem.u_cl HostArr.u_h
    err_cl ← clEnqueueReadBuffer Mem.tau_lb_cl HostArr.tau_lb_h
    error_check err_cl Tag.clEnqueueReadBuffer_Shear_stress
    emits [Call.compute_shear_stress HostArr.u_h HostArr.tau_lb_h t]

/-- Produce video output and/or analysis. -/
def output (hostDat : host_param_struct) (t : Int) : Prog Unit := do
  video_output hostDat t
  shear_output hostDat t

/-- The body of `for (int t=1; t<=intDat.MaxIterations; t++)`. -/
def timestep (inp : Input) (L : Locals) (t : Int) : Prog Unit := do
  print_iteration inp.hostDat t
  switch_f_buffers t
  collide_and_stream L
  particle_update L
  periodic_stream L
  velocity_boundary inp L
  particle_fluid_forces L
  rebuild_neighbour_lists inp.hostDat L t
  end_of_step L
  output inp.hostDat t

/-- The loop `for (int t=...; t<=intDat.MaxIterations; t++)` with `n`
iterations left, the next one being step `t`. -/
def time_loop (inp : Input) (L : Locals) : Nat → Int → Prog Unit
  | 0, _ => pure ()
  | n + 1, t => do
    timestep inp L t
    time_loop inp L n (t + 1)

/-! ## `simulation_main` and `main` -/

/-- The function `simulation_main`. -/
def simulation_main (inp : Input) : Prog Int := do
  -- Assign data arrays, read input
  emits [Call.initialize_data, Call.parameter_checking]
  if inp.paramErrors > 0 then
    halt Halt.exit_failure
  emits [Call.sphere_discretization, Call.create_LB_kernels]
  emits [Call.initialize_lattice_fields, Call.initialize_particle_fields,
    Call.initialize_particle_zones, Call.create_periodic_stream_mapping]
  create_buffers
  write_buffers
  let L := locals inp
  fixed_kernel_args L
  emits [Call.fopen]
  time_loop inp L inp.intDat.MaxIterations.toNat 1
  let _ ← clFinish Queue.GPU
  let _ ← clFinish Queue.CPU
  if L.usingParticles ≠ 0 then
    let err_cl ← emit (Call.clEnqueueMapBuffer Queue.CPU Mem.parFluidForce_cl
      (size_t inp.intDat.NumParticles * 16 % 2 ^ 64 * size_t inp.intDat.NumForceArrays
        % 2 ^ 64 * 2 % 2 ^ 64))
    error_check err_cl Tag.clEnqueueMapBuffer
  let _ ← clFinish Queue.CPU
  pure 0

/-- The function `main`. -/
def main (inp : Input) : Prog Int := do
  emits [Call.analyse_platform]
  -- Create context and queues
  let mut error ← emit Call.clCreateContext
  error_check error Tag.clCreateContext
  error ← emit (Call.clCreateCommandQueue Queue.CPU)
  error_check error Tag.clCreateCommandQueue
  error ← emit (Call.clCreateCommandQueue Queue.GPU)
  error_check error Tag.clCreateCommandQueue
  -- Test devices
  emits [Call.vecadd_test Queue.CPU, Call.vecadd_test Queue.GPU]
  -- Run LB calculation
  let _returnLB ← simulation_main inp
  -- Clean-up
  emits [Call.clReleaseCommandQueue Queue.CPU, Call.clReleaseCommandQueue Queue.GPU]
  pure 0

/-- The state in which `main` starts: no call made yet. -/
def State.start (status : Nat → Call → Int) : State :=
  { clock := 0, status := status }

/-- The part of a step after the particle-fluid forces: rebuild, end-of-step
drains, output (the last three phases of `timestep`). -/
def step_tail (inp : Input) (L : Locals) (t : Int) : Prog Unit := do
  rebuild_neighbour_lists inp.hostDat L t
  end_of_step L
  output inp.hostDat t

/-! ## Notions used to state properties of a run -/

/-- The halt reason of an outcome, `none` when the computation returned. -/
def Outcome.halted {α : Type} : Outcome α → Option Halt
  | Outcome.ok _ _ => none
  | Outcome.halt h => some h

/-- A computation that, started in `s`, makes exactly the calls `l` and returns. -/
def Runs (m : Prog Unit) (s : State) (l : List Call) : Prop :=
  m.run s = (l, Outcome.ok () (s.tick l.length))

/-- Every call a computation can make, from any state, satisfies `p`. -/
def Prog.All {α : Type} (p : Call → Prop) (m : Prog α) : Prop :=
  ∀ s, ∀ c ∈ m.calls s, p c

/-- The calls whose status the timestep loop hands to `error_check`: the map of
a buffer and the read-back of a buffer. -/
def Call.checked : Call → Bool
  | Call.clEnqueueMapBuffer _ _ _ => true
  | Call.clEnqueueReadBuffer _ _ _ => true
  | _ => false

/-- An environment in which every map and every read-back reports success
(whatever the other calls report). -/
def State.checked_ok (s : State) : Prop :=
  ∀ n c, c.checked = true → s.status n c = CL_SUCCESS

/-- Is the call a `clFinish`? -/
def Call.isFinish : Call → Bool
  | Call.clFinish _ => true
  | _ => false

/-- Is the call a `clSetKernelArg`? -/
def Call.isSetArg : Call → Bool
  | Call.clSetKernelArg _ _ _ => true
  | _ => false

/-- The kernel a call launches, if it is a launch. -/
def Call.launched : Call → Option Kernel
  | Call.clEnqueueNDRangeKernel _ k _ _ _ _ => some k
  | _ => none

/-- Neither a `clSetKernelArg` nor a launch of a kernel other than
`update_particle_zones`. -/
def Call.quiet (c : Call) : Prop :=
  c.isSetArg = false ∧ (c.launched = none ∨ c.launched = some Kernel.update_particle_zones)

/-- A launch or a drain: the calls that order the work on the two queues. -/
inductive Sync
  | launch (k : Kernel)
  | finish (q : Queue)
  deriving DecidableEq, Repr

/-- The launch or drain a call stands for, if any. -/
def Call.sync : Call → Option Sync
  | Call.clEnqueueNDRangeKernel _ k _ _ _ _ => some (Sync.launch k)
  | Call.clFinish q => some (Sync.finish q)
  | _ => none

/-- The launches and drains of a run of calls, in order. -/
def skeleton (cs : List Call) : List Sync := cs.filterMap Call.sync

/-- The drains of a run of calls, in order. -/
def drains (cs : List Call) : List Call := cs.filter Call.isFinish

/-- The calls the output phase can make. -/
def Call.is_output : Call → Bool
  | Call.clEnqueueReadBuffer _ _ _ => true
  | Call.error_check _ _ => true
  | Call.continuous_output _ _ _ => true
  | Call.compute_shear_stress _ _ _ => true
  | _ => false

/-- The operations of the neighbour-list rebuild other than its drain: map of
the per-zone counts, a store to the mapped counts, unmap, launch of
`update_particle_zones`. -/
def Call.rebuild_op : Call → Bool
  | Call.clEnqueueMapBuffer _ Mem.numParInZone_cl _ => true
  | Call.host_store HostArr.numParInZone_h _ _ => true
  | Call.clEnqueueUnmapMemObject _ Mem.numParInZone_cl _ => true
  | Call.clEnqueueNDRangeKernel _ Kernel.update_particle_zones _ _ _ _ => true
  | _ => false

/-- The calls by which `simulation_main` builds or uses a device resource
of its own: kernel build, buffer creation, upload, kernel-argument binding,
launch, drain, map, unmap, read-back. -/
def Call.lb_resource : Call → Bool
  | Call.create_LB_kernels => true
  | Call.clCreateBuffer _ _ => true
  | Call.clEnqueueWriteBuffer _ _ _ => true
  | Call.clSetKernelArg _ _ _ => true
  | Call.clEnqueueNDRangeKernel _ _ _ _ _ _ => true
  | Call.clFinish _ => true
  | Call.clEnqueueMapBuffer _ _ _ => true
  | Call.clEnqueueUnmapMemObject _ _ _ => true
  | Call.clEnqueueReadBuffer _ _ _ => true
  | _ => false

/-- Is the call an `error_check`? -/
def Call.isErrorCheck : Call → Bool
  | Call.error_check _ _ => true
  | _ => false

/-- Is the call a `clEnqueueWriteBuffer`? -/
def Call.isUpload : Call → Bool
  | Call.clEnqueueWriteBuffer _ _ _ => true
  | _ => false

/-- The device calls that exist only for particles: a launch of one of the
particle kernels, and the map or unmap of the per-zone count buffer. -/
def Call.particle_op : Call → Bool
  | Call.clEnqueueNDRangeKernel _ Kernel.reset_particle_fluid_forces _ _ _ _ => true
  | Call.clEnqueueNDRangeKernel _ Kernel.particle_fluid_forces_linear_stencil _ _ _ _ => true
  | Call.clEnqueueNDRangeKernel _ Kernel.sum_particle_fluid_forces _ _ _ _ => true
  | Call.clEnqueueNDRangeKernel _ Kernel.update_particle_zones _ _ _ _ => true
  | Call.clEnqueueNDRangeKernel _ Kernel.particle_particle_forces _ _ _ _ => true
  | Call.clEnqueueNDRangeKernel _ Kernel.particle_dynamics _ _ _ _ => true
  | Call.clEnqueueMapBuffer _ Mem.numParInZone_cl _ => true
  | Call.clEnqueueUnmapMemObject _ Mem.numParInZone_cl _ => true
  | _ => false

/-- The axes flagged in `TangentialVelBC`, in loop order. -/
def tangential_axes (inp : Input) : List Nat :=
  [0, 1, 2].filter fun i => inp.hostDat.TangentialVelBC.idx i = 1

/-- The drains of the three barriers of a step (particle-reset barrier when
particles are present, cross-queue barrier, end-of-step barrier). -/
def barrier_drains (L : Locals) : List Call :=
  (if L.usingParticles ≠ 0 then [Call.clFinish Queue.CPU, Call.clFinish Queue.GPU] else []) ++
    [Call.clFinish Queue.GPU, Call.clFinish Queue.CPU,
     Call.clFinish Queue.GPU, Call.clFinish Queue.CPU]

/-- A kernel-argument table: `b k i` is the value last passed to
`clSetKernelArg` for slot `i` of kernel `k`. -/
abbrev Binding : Type := Kernel → Nat → Option ArgVal

/-- The table after `clSetKernelArg(k, i, v)`. -/
def Binding.set (b : Binding) (k : Kernel) (i : Nat) (v : ArgVal) : Binding :=
  fun k1 i1 => if k1 = k ∧ i1 = i then some v else b k1 i1

/-- The table after one call: only `clSetKernelArg` changes it. -/
def Binding.step (b : Binding) (c : Call) : Binding :=
  match c with
  | Call.clSetKernelArg k i v => b.set k i v
  | _ => b

/-- The table after a run of calls, started from table `b`. -/
def bound_after (b : Binding) : List Call → Binding
  | [] => b
  | c :: cs => bound_after (b.step c) cs

/-- The value of slot `i` of kernel `k` at each launch of `k` in a run of
calls started from table `b`, in launch order. -/
def launch_arg (k : Kernel) (i : Nat) (b : Binding) : List Call → List (Option ArgVal)
  | [] => []
  | c :: cs =>
    (if c.launched = some k then [b k i] else []) ++ launch_arg k i (b.step c) cs

/-! ## Index spaces, host arrays and the per-zone counts -/

/-- `INT_MAX`, the largest value of an `int` parameter. -/
def INT_MAX : Int := 2147483647

/-- The kernels launched over the interior of the lattice. -/
def Kernel.interior : Kernel → Bool
  | Kernel.collide_stream => true
  | Kernel.reset_particle_fluid_forces => true
  | Kernel.sum_particle_fluid_forces => true
  | _ => false

/-- Is the call a launch of a kernel that runs over the interior of the
lattice? -/
def Call.interior_launch (c : Call) : Bool :=
  match c.launched with
  | some k => k.interior
  | none => false

/-- The global ids a launch dispatches on axis `d`: from `offset[d]` (0 for a
`NULL` offset) up to `offset[d] + global[d] - 1`. -/
def Call.dispatched_ids (c : Call) (d : Nat) : List Nat :=
  match c with
  | Call.clEnqueueNDRangeKernel _ _ _ offset global _ =>
    List.range' ((offset.getD []).getD d 0) (global.getD d 0)
  | _ => []

/-- Modelled from the spec: `continuous_output` and `compute_shear_stress` are
called by the loop but their bodies are not among the sources.  The output
bridge consumes the arrays handed to it and feeds nothing back into the
simulation state, so the host arrays they overwrite are none. -/
def output_writes : List HostArr := []

/-- The host arrays a call of the loop overwrites: the destination of a
read-back, the array a host store goes to, the host pointer that receives
the result of a map, and what the two output routines overwrite. -/
def Call.host_writes : Call → List HostArr
  | Call.clEnqueueReadBuffer _ _ dst => [dst]
  | Call.host_store a _ _ => [a]
  | Call.clEnqueueMapBuffer _ Mem.numParInZone_cl _ => [HostArr.numParInZone_h]
  | Call.clEnqueueMapBuffer _ Mem.parFluidForce_cl _ => [HostArr.parFluidForce_h]
  | Call.continuous_output _ _ _ => output_writes
  | Call.compute_shear_stress _ _ _ => output_writes
  | _ => []

/-- What is known of the host arrays after one call: an array the call
overwrites no longer holds its earlier value (`none`). -/
def host_step {α : Type} (m : HostArr → Option α) (c : Call) : HostArr → Option α :=
  fun a => if a ∈ c.host_writes then none else m a

/-- What is known of the host arrays after a run of calls, started from `m`. -/
def host_after {α : Type} (m : HostArr → Option α) : List Call → HostArr → Option α
  | [] => m
  | c :: cs => host_after (host_step m c) cs

/-- The per-zone count buffer as the host leaves it: whether it is mapped,
and which entries are known to hold 0. -/
structure ZoneCounts where
  mapped : Bool
  zero : Nat → Bool

/-- The per-zone counts after one call: a map and an unmap of
`numParInZone_cl` switch `mapped`, a host store to the mapped counts sets one
entry, and `update_particle_zones` repopulates all of them. -/
def ZoneCounts.step (z : ZoneCounts) (c : Call) : ZoneCounts :=
  match c with
  | Call.clEnqueueMapBuffer _ Mem.numParInZone_cl _ => { z with mapped := true }
  | Call.clEnqueueUnmapMemObject _ Mem.numParInZone_cl _ => { z with mapped := false }
  | Call.host_store HostArr.numParInZone_h i v =>
    { z with zero := fun j => if j = i then decide (v = 0) else z.zero j }
  | Call.clEnqueueNDRangeKernel _ Kernel.update_particle_zones _ _ _ _ =>
    { z with zero := fun _ => false }
  | _ => z

/-- The per-zone counts after a run of calls. -/
def ZoneCounts.after (z : ZoneCounts) : List Call → ZoneCounts
  | [] => z
  | c :: cs => ZoneCounts.after (z.step c) cs

/-- The calls the part of step `t` after the particle-fluid forces can make. -/
def Call.in_tail (L : Locals) (t : Int) (c : Call) : Prop :=
  c = Call.clEnqueueMapBuffer Queue.CPU Mem.numParInZone_cl (L.totalNumZones * 4 % 2 ^ 64) ∨
  (∃ e tag, c = Call.error_check e tag) ∨
  (∃ i, i < L.totalNumZones ∧ c = Call.host_store HostArr.numParInZone_h i 0) ∨
  c = Call.clEnqueueUnmapMemObject Queue.CPU Mem.numParInZone_cl HostArr.numParInZone_h ∨
  c = Call.clEnqueueNDRangeKernel Queue.CPU Kernel.update_particle_zones 1 none
    [L.numParThreads] none ∨
  c = Call.clFinish Queue.GPU ∨
  c = Call.clFinish Queue.CPU ∨
  c = Call.clEnqueueReadBuffer Queue.GPU Mem.u_cl HostArr.u_h ∨
  c = Call.clEnqueueReadBuffer Queue.GPU Mem.tau_lb_cl HostArr.tau_lb_h ∨
  c = Call.continuous_output HostArr.u_h HostArr.parKin_h t ∨
  c = Call.compute_shear_stress HostArr.u_h HostArr.tau_lb_h t

/-- A computation that never evaluates a `%` with divisor zero, whatever the
calls report. -/
def Prog.Defined {α : Type} (m : Prog α) : Prop :=
  ∀ s, (m.outcome s).halted ≠ some Halt.undefined_behaviour

/-! ## Closed forms of the calls of a step -/

/-- The value returned by `set_args`: the statuses of its calls or-ed into
`err_cl`. -/
def set_args_result (k : Kernel) : List (Nat × ArgVal) → Int → State → Int
  | [], err_cl, _ => err_cl
  | (i, v) :: rest, err_cl, s =>
    set_args_result k rest (Int.lor err_cl (s.status s.clock (Call.clSetKernelArg k i v)))
      (s.tick 1)

/-- Calls of `print_iteration`. -/
def print_calls (hostDat : host_param_struct) (t : Int) : List Call :=
  if Int.tmod t hostDat.ConsolePrintFreq = 0 then [Call.printf_iteration t] else []

/-- Calls of `switch_f_buffers`. -/
def switch_calls (t : Int) : List Call :=
  if Int.tmod t 2 = 0 then
    [Call.clSetKernelArg Kernel.collide_stream 0 (ArgVal.mem Mem.fA_cl),
     Call.clSetKernelArg Kernel.collide_stream 1 (ArgVal.mem Mem.fB_cl),
     Call.clSetKernelArg Kernel.boundary_velocity 0 (ArgVal.mem Mem.fB_cl),
     Call.clSetKernelArg Kernel.boundary_periodic 0 (ArgVal.mem Mem.fB_cl)]
  else
    [Call.clSetKernelArg Kernel.collide_stream 0 (ArgVal.mem Mem.fB_cl),
     Call.clSetKernelArg Kernel.collide_stream 1 (ArgVal.mem Mem.fA_cl),
     Call.clSetKernelArg Kernel.boundary_velocity 0 (ArgVal.mem Mem.fA_cl),
     Call.clSetKernelArg Kernel.boundary_periodic 0 (ArgVal.mem Mem.fA_cl)]

/-- Calls of `collide_and_stream`. -/
def collide_calls (L : Locals) : List Call :=
  [Call.clEnqueueNDRangeKernel Queue.GPU Kernel.collide_stream 3
    (some lattice_work_offset) L.global_work_size none]

/-- Calls of `particle_update`. -/
def particle_update_calls (L : Locals) : List Call :=
  if L.usingParticles ≠ 0 then
    [Call.clFinish Queue.CPU, Call.clFinish Queue.GPU,
     Call.clEnqueueNDRangeKernel Queue.GPU Kernel.reset_particle_fluid_forces 3
       (some lattice_work_offset) L.global_work_size none]
  else []

/-- Calls of `periodic_stream`. -/
def periodic_calls (L : Locals) : List Call :=
  [Call.clEnqueueNDRangeKernel Queue.GPU Kernel.boundary_periodic 1
     none [L.periodic_work_size] none,
   Call.clFinish Queue.GPU, Call.clFinish Queue.CPU]

/-- The launch of the tangential pass on axis `i`. -/
def tangential_launch (inp : Input) (i : Nat) : Call :=
  Call.clEnqueueNDRangeKernel Queue.GPU Kernel.boundary_velocity 3 (some lattice_work_offset)
    ((([0, 0, 0].set i 2).set ((i + 1) % 3)
        (size_t (inp.intDat.LatticeSize.idx ((i + 1) % 3) - 2))).set ((i + 2) % 3)
        (size_t (inp.intDat.LatticeSize.idx ((i + 2) % 3) - 2))) none

/-- Calls of `tangential_pass`. -/
def tangential_calls (inp : Input) (i : Nat) : List Call :=
  if inp.hostDat.TangentialVelBC.idx i = 1 then
    [Call.clSetKernelArg Kernel.boundary_velocity 3 (ArgVal.int i),
     Call.clSetKernelArg Kernel.boundary_velocity 4 (ArgVal.int tanCalcRho),
     tangential_launch inp i]
  else []

/-- Calls of `velocity_boundary`. -/
def velocity_calls (inp : Input) (L : Locals) : List Call :=
  if L.velBoundary ≠ 0 then
    Call.clEnqueueNDRangeKernel Queue.GPU Kernel.boundary_velocity 3
        (some lattice_work_offset) L.velBC_work_size none ::
      (tangential_calls inp 0 ++ (tangential_calls inp 1 ++ (tangential_calls inp 2 ++
        [Call.clSetKernelArg Kernel.boundary_velocity 3 (ArgVal.int L.wallAxis),
         Call.clSetKernelArg Kernel.boundary_velocity 4 (ArgVal.int calcRho),
         Call.clFinish Queue.GPU])))
  else []

/-- Calls of `particle_fluid_forces`. -/
def particle_fluid_calls (L : Locals) : List Call :=
  if L.usingParticles ≠ 0 then
    [Call.clEnqueueNDRangeKernel Queue.GPU Kernel.particle_fluid_forces_linear_stencil 1
       none [L.numSurfPoints] (some [L.pointWorkSize]),
     Call.clFinish Queue.GPU,
     Call.clEnqueueNDRangeKernel Queue.GPU Kernel.sum_particle_fluid_forces 3
       (some lattice_work_offset) L.global_work_size none]
  else []

/-- Calls of a step from its start to the particle-fluid forces. -/
def front_calls (inp : Input) (L : Locals) (t : Int) : List Call :=
  print_calls inp.hostDat t ++ (switch_calls t ++ (collide_calls L ++
    (particle_update_calls L ++ (periodic_calls L ++
      (velocity_calls inp L ++ particle_fluid_calls L)))))

/-- Calls of `rebuild_sequence` when the map reports success. -/
def rebuild_block (L : Locals) : List Call :=
  Call.clEnqueueMapBuffer Queue.CPU Mem.numParInZone_cl (L.totalNumZones * 4 % 2 ^ 64) ::
    Call.error_check CL_SUCCESS Tag.clEnqueueMapBuffer ::
      ((List.range L.totalNumZones).map (fun i => Call.host_store HostArr.numParInZone_h i 0) ++
        [Call.clEnqueueUnmapMemObject Queue.CPU Mem.numParInZone_cl HostArr.numParInZone_h,
         Call.clEnqueueNDRangeKernel Queue.CPU Kernel.update_particle_zones 1
           none [L.numParThreads] none,
         Call.clFinish Queue.CPU])

/-- Calls of `rebuild_neighbour_lists` when the map reports success. -/
def rebuild_calls (hostDat : host_param_struct) (L : Locals) (t : Int) : List Call :=
  if L.usingParticles ≠ 0 ∧ Int.tmod t hostDat.RebuildFreq = 0 then rebuild_block L else []

/-- Calls of `end_of_step`. -/
def end_calls : List Call := [Call.clFinish Queue.GPU, Call.clFinish Queue.CPU]

/-- Calls of `output` when the read-backs report success. -/
def output_calls (hostDat : host_param_struct) (t : Int) : List Call :=
  (if Int.tmod t hostDat.VideoFreq = 0 then
    [Call.clEnqueueReadBuffer Queue.GPU Mem.u_cl HostArr.u_h,
     Call.error_check CL_SUCCESS Tag.clEnqueueReadBuffer_Video,
     Call.continuous_output HostArr.u_h HostArr.parKin_h t]
   else []) ++
  (if Int.tmod t hostDat.ShearStressFreq = 0 then
    [Call.clEnqueueReadBuffer Queue.GPU Mem.u_cl HostArr.u_h,
     Call.clEnqueueReadBuffer Queue.GPU Mem.tau_lb_cl HostArr.tau_lb_h,
     Call.error_check CL_SUCCESS Tag.clEnqueueReadBuffer_Shear_stress,
     Call.compute_shear_stress HostArr.u_h HostArr.tau_lb_h t]
   else [])

/-- Calls of a whole step when no call halts it. -/
def step_calls (inp : Input) (L : Locals) (t : Int) : List Call :=
  front_calls inp L t ++ (rebuild_calls inp.hostDat L t ++ (end_calls ++ output_calls inp.hostDat t))

/-- Calls of the loop with `n` iterations left, starting at step `t`, when no
call halts it. -/
def loop_calls (inp : Input) (L : Locals) : Nat → Int → List Call
  | 0, _ => []
  | n + 1, t => step_calls inp L t ++ loop_calls inp L n (t + 1)

/-! ## Concrete inputs -/

/-- A fluid-only 10x10x10 run, periodic on all axes. -/
def inp_fluid : Input :=
  { intDat :=
      { LatticeSize := ⟨10, 10, 10⟩, BoundaryConds := ⟨0, 0, 0⟩, NumParticles := 0,
        TotalSurfPoints := 0, PointsPerWorkGroup := 32, NumForceArrays := 1,
        MaxIterations := 20,
        NumZones := ⟨1, 1, 1⟩ }
    hostDat :=
      { DomainDecomp := ⟨1, 1, 1⟩, ConsolePrintFreq := 1000, RebuildFreq := 5,
        VideoFreq := 1000, ShearStressFreq := 1000, TangentialVelBC := ⟨0, 0, 0⟩ }
    paramErrors := 0
    create_periodic_stream_mapping := fun _ _ => 1800 }

/-- A fluid-only 10x10x10 run with walls normal to the x axis (selector 1 on
axis 0). -/
def inp_wall : Input :=
  { inp_fluid with
    intDat := { inp_fluid.intDat with BoundaryConds := ⟨1, 0, 0⟩ } }

/-- A fluid-only 10x10x10 run with walls normal to the y axis (selector 1 on
axis 1) and tangential passes flagged on the x and z axes. -/
def inp_tangential : Input :=
  { inp_fluid with
    intDat := { inp_fluid.intDat with BoundaryConds := ⟨0, 1, 0⟩ }
    hostDat := { inp_fluid.hostDat with TangentialVelBC := ⟨1, 0, 1⟩ } }

/-- A run with one particle of 32 surface points, walls normal to the x axis
and rebuild interval 5. -/
def inp_particle : Input :=
  { inp_wall with
    intDat := { inp_wall.intDat with NumParticles := 1, TotalSurfPoints := 32 } }

/-- The fluid-only input with other particle-only settings. -/
def inp_fluid_alt : Input :=
  { inp_fluid with
    intDat := { inp_fluid.intDat with
      TotalSurfPoints := 64, PointsPerWorkGroup := 16, NumZones := ⟨4, 4, 4⟩ }
    hostDat := { inp_fluid.hostDat with DomainDecomp := ⟨2, 2, 2⟩, RebuildFreq := 0 } }

/-- A 10x10x10 run whose x axis carries the selector `BC_VELOCITY` of the
header, the other two axes being periodic. -/
def inp_velocity : Input :=
  { inp_fluid with
    intDat := { inp_fluid.intDat with BoundaryConds := ⟨BC_VELOCITY, BC_PERIODIC, BC_PERIODIC⟩ } }

/-- The fluid-only input with one error reported by `parameter_checking`. -/
def inp_bad : Input := { inp_fluid with paramErrors := 1 }

/-- An environment in which every kernel launch and every drain reports
`CL_OUT_OF_RESOURCES` (-5) and every other call succeeds. -/
def launch_failure : State :=
  State.start fun _ c => if c.sync = none then CL_SUCCESS else -5

/-- An environment in which the allocation of `fA_cl` reports
`CL_MEM_OBJECT_ALLOCATION_FAILURE` (-4) and every other call succeeds. -/
def alloc_failure : State :=
  State.start fun _ c => if c = Call.clCreateBuffer Mem.fA_cl none then -4 else CL_SUCCESS

/-- An environment in which every call reports `CL_SUCCESS`. -/
def all_success : State := State.start fun _ _ => CL_SUCCESS

/-! ## Running a computation -/

theorem State.tick_zero (s : State) : s.tick 0 = s := rfl

theorem State.tick_tick (s : State) (a b : Nat) : (s.tick a).tick b = s.tick (a + b) := by
  simp [State.tick, Nat.add_assoc]

theorem State.tick_status (s : State) (n : Nat) : (s.tick n).status = s.status := rfl

theorem State.tick_clock (s : State) (n : Nat) : (s.tick n).clock = s.clock + n := rfl

theorem State.checked_ok_tick {s : State} (h : s.checked_ok) (n : Nat) : (s.tick n).checked_ok :=
  fun k c hc => h k c hc

theorem after_mk {β : Type} (l l1 : List Call) (o : Outcome β) :
    after l (l1, o) = (l ++ l1, o) := rfl

theorem after_nil {β : Type} (r : List Call × Outcome β) : after [] r = r := rfl

theorem after_after {β : Type} (l l1 : List Call) (r : List Call × Outcome β) :
    after l (after l1 r) = after (l ++ l1) r := by
  simp [after, List.append_assoc]

theorem run_pure {α : Type} (a : α) (s : State) :
    (pure a : Prog α).run s = ([], Outcome.ok a s) := rfl

theorem run_bind {α β : Type} (m : Prog α) (f : α → Prog β) (s : State) :
    (m >>= f).run s =
      match m.run s with
      | (l, Outcome.ok a s1) => after l ((f a).run s1)
      | (l, Outcome.halt h) => (l, Outcome.halt h) := rfl

theorem run_halt {α : Type} (h : Halt) (s : State) :
    (halt h : Prog α).run s = ([], Outcome.halt h) := rfl

theorem run_emit (c : Call) (s : State) :
    (emit c).run s = ([c], Outcome.ok (s.status s.clock c) (s.tick 1)) := rfl

theorem run_clFinish (q : Queue) (s : State) :
    (clFinish q).run s =
      ([Call.clFinish q], Outcome.ok (s.status s.clock (Call.clFinish q)) (s.tick 1)) := rfl

theorem run_clSetKernelArg (k : Kernel) (i : Nat) (v : ArgVal) (s : State) :
    (clSetKernelArg k i v).run s =
      ([Call.clSetKernelArg k i v],
        Outcome.ok (s.status s.clock (Call.clSetKernelArg k i v)) (s.tick 1)) := rfl

theorem run_clEnqueueNDRangeKernel (q : Queue) (k : Kernel) (d : Nat) (o : Option (List Nat))
    (g : List Nat) (l : Option (List Nat)) (s : State) :
    (clEnqueueNDRangeKernel q k d o g l).run s =
      ([Call.clEnqueueNDRangeKernel q k d o g l],
        Outcome.ok (s.status s.clock (Call.clEnqueueNDRangeKernel q k d o g l)) (s.tick 1)) := rfl

theorem run_clCreateBuffer (m : Mem) (h : Option HostArr) (s : State) :
    (clCreateBuffer m h).run s =
      ([Call.clCreateBuffer m h], Outcome.ok (s.status s.clock (Call.clCreateBuffer m h)) (s.tick 1)) := rfl

theorem run_clEnqueueWriteBuffer (m : Mem) (h : HostArr) (s : State) :
    (clEnqueueWriteBuffer m h).run s =
      ([Call.clEnqueueWriteBuffer Queue.GPU m h],
        Outcome.ok (s.status s.clock (Call.clEnqueueWriteBuffer Queue.GPU m h)) (s.tick 1)) := rfl

theorem run_clEnqueueReadBuffer (m : Mem) (h : HostArr) (s : State) :
    (clEnqueueReadBuffer m h).run s =
      ([Call.clEnqueueReadBuffer Queue.GPU m h],
        Outcome.ok (s.status s.clock (Call.clEnqueueReadBuffer Queue.GPU m h)) (s.tick 1)) := rfl

theorem run_ite {α : Type} (c : Prop) [Decidable c] (m1 m2 : Prog α) (s : State) :
    (if c then m1 else m2).run s = if c then m1.run s else m2.run s := by
  split <;> rfl

theorem run_emits (cs : List Call) (s : State) :
    (emits cs).run s = (cs, Outcome.ok () (s.tick cs.length)) := by
  induction cs generalizing s with
  | nil => rfl
  | cons c cs ih =>
    show (emit c >>= fun _ => emits cs).run s = _
    rw [run_bind, run_emit]
    simp only [ih, after_mk, State.tick_tick, List.length_cons, List.singleton_append]
    rw [Nat.add_comm]

theorem run_c_mod_ne (a b : Int) (h : b ≠ 0) (s : State) :
    (c_mod a b).run s = ([], Outcome.ok (Int.tmod a b) s) := by
  simp [c_mod, h, run_pure]

theorem run_c_mod_zero (a : Int) (s : State) :
    (c_mod a 0).run s = ([], Outcome.halt Halt.undefined_behaviour) := by
  simp [c_mod, run_halt]

theorem run_error_check_ok (tag : Tag) (s : State) :
    (error_check 0 tag).run s = ([Call.error_check 0 tag], Outcome.ok () (s.tick 1)) := by
  simp [error_check, run_bind, run_emit, run_pure, after_mk, CL_SUCCESS]

theorem run_error_check_ne (err : Int) (tag : Tag) (h : err ≠ 0) (s : State) :
    (error_check err tag).run s =
      ([Call.error_check err tag], Outcome.halt (Halt.error_abort tag err)) := by
  simp [error_check, run_bind, run_emit, run_halt, after_mk, CL_SUCCESS, h]

/-! ## Computations that make a fixed run of calls -/

theorem runs_pure (s : State) : Runs (pure ()) s [] := rfl

theorem runs_run_bind {β : Type} {m : Prog Unit} {s : State} {l : List Call} (h : Runs m s l)
    (f : Unit → Prog β) :
    (m >>= f).run s = after l ((f ()).run (s.tick l.length)) := by
  rw [run_bind, h]

theorem runs_bind {m n : Prog Unit} {s : State} {l1 l2 : List Call} (h1 : Runs m s l1)
    (h2 : Runs n (s.tick l1.length) l2) : Runs (m >>= fun _ => n) s (l1 ++ l2) := by
  unfold Runs at *
  rw [run_bind, h1]
  simp only [h2, after_mk, State.tick_tick, List.length_append]

theorem runs_calls {m : Prog Unit} {s : State} {l : List Call} (h : Runs m s l) :
    m.calls s = l := by
  unfold Prog.calls; rw [h]

theorem runs_outcome {m : Prog Unit} {s : State} {l : List Call} (h : Runs m s l) :
    m.outcome s = Outcome.ok () (s.tick l.length) := by
  unfold Prog.outcome; rw [h]

theorem calls_bind {α β : Type} (m : Prog α) (f : α → Prog β) (s : State) :
    (m >>= f).calls s =
      m.calls s ++
        (match m.outcome s with
          | Outcome.ok a s1 => (f a).calls s1
          | Outcome.halt _ => []) := by
  unfold Prog.calls Prog.outcome
  rw [run_bind]
  rcases m.run s with ⟨l, o⟩
  cases o with
  | ok a s1 => rfl
  | halt h => simp

theorem runs_print (hostDat : host_param_struct) (t : Int) (s : State)
    (h : hostDat.ConsolePrintFreq ≠ 0) : Runs (print_iteration hostDat t) s (print_calls hostDat t) := by
  unfold Runs print_iteration print_calls
  by_cases hp : t.tmod hostDat.ConsolePrintFreq = 0 <;>
  simp [run_bind, run_c_mod_ne, h, hp, after_mk, run_emits, run_pure, State.tick_zero]

theorem runs_switch (t : Int) (s : State) : Runs (switch_f_buffers t) s (switch_calls t) := by
  unfold Runs switch_f_buffers switch_calls
  by_cases hp : t.tmod 2 = 0 <;>
  simp [run_bind, hp, after_mk, run_clSetKernelArg, run_pure, State.tick_tick]

theorem runs_collide (L : Locals) (s : State) : Runs (collide_and_stream L) s (collide_calls L) := by
  unfold Runs collide_and_stream collide_calls
  simp [run_bind, after_mk, run_clEnqueueNDRangeKernel, run_pure]

theorem runs_particle_update (L : Locals) (s : State) :
    Runs (particle_update L) s (particle_update_calls L) := by
  unfold Runs particle_update particle_update_calls
  by_cases hp : L.usingParticles = 0 <;>
  simp [run_bind, hp, after_mk, run_clEnqueueNDRangeKernel, run_clFinish, run_pure,
    State.tick_tick, State.tick_zero]

theorem runs_periodic (L : Locals) (s : State) : Runs (periodic_stream L) s (periodic_calls L) := by
  unfold Runs periodic_stream periodic_calls
  simp [run_bind, after_mk, run_clEnqueueNDRangeKernel, run_clFinish, run_pure, State.tick_tick]

theorem runs_tangential (inp : Input) (i : Nat) (s : State) :
    Runs (tangential_pass inp i) s (tangential_calls inp i) := by
  unfold Runs tangential_pass tangential_calls tangential_launch
  by_cases hp : inp.hostDat.TangentialVelBC.idx i = 1 <;>
  simp [run_bind, hp, after_mk, run_clEnqueueNDRangeKernel, run_clSetKernelArg, run_pure,
    State.tick_tick, State.tick_zero]

theorem runs_velocity (inp : Input) (L : Locals) (s : State) :
    Runs (velocity_boundary inp L) s (velocity_calls inp L) := by
  unfold velocity_boundary velocity_calls
  by_cases hp : L.velBoundary = 0
  · simp [hp, Runs, run_pure, State.tick_zero]
  · simp only [hp, ne_eq, not_false_eq_true, if_true]
    unfold Runs
    rw [run_bind, run_clEnqueueNDRangeKernel]
    simp only [runs_run_bind (runs_tangential inp _ _), run_bind, run_clSetKernelArg, run_clFinish,
      run_pure, after_mk, after_after, State.tick_tick]
    simp only [List.cons_append, List.append_assoc, List.nil_append, List.length_cons,
      List.length_append, List.length_nil, List.singleton_append]
    congr 3
    omega

theorem runs_particle_fluid (L : Locals) (s : State) :
    Runs (particle_fluid_forces L) s (particle_fluid_calls L) := by
  unfold Runs particle_fluid_forces particle_fluid_calls
  by_cases hp : L.usingParticles = 0 <;>
  simp [run_bind, hp, after_mk, run_clEnqueueNDRangeKernel, run_clFinish, run_pure,
    State.tick_tick, State.tick_zero]

theorem runs_end (L : Locals) (s : State) : Runs (end_of_step L) s end_calls := by
  unfold Runs end_of_step end_calls
  simp [run_bind, after_mk, run_clFinish, run_pure, State.tick_tick]

theorem runs_rebuild_sequence (L : Locals) (s : State) (hs : s.checked_ok) :
    Runs (rebuild_sequence L) s (rebuild_block L) := by
  unfold Runs rebuild_sequence rebuild_block
  have h0 := hs s.clock (Call.clEnqueueMapBuffer Queue.CPU Mem.numParInZone_cl
    (L.totalNumZones * 4 % 2 ^ 64)) rfl
  simp only [CL_SUCCESS] at h0
  simp only [run_bind, run_emit, h0, run_error_check_ok, run_emits, run_clEnqueueNDRangeKernel,
    run_clFinish, run_pure, after_mk, State.tick_tick, CL_SUCCESS]
  simp only [List.cons_append, List.append_assoc, List.nil_append, List.length_cons,
    List.length_append, List.length_nil, List.singleton_append, List.append_nil]
  congr 3
  omega

theorem runs_rebuild (hostDat : host_param_struct) (L : Locals) (t : Int) (s : State)
    (hR : L.usingParticles = 0 ∨ hostDat.RebuildFreq ≠ 0) (hs : s.checked_ok) :
    Runs (rebuild_neighbour_lists hostDat L t) s (rebuild_calls hostDat L t) := by
  unfold rebuild_neighbour_lists rebuild_calls
  by_cases hp : L.usingParticles = 0
  · simp [hp, Runs, run_pure, State.tick_zero]
  · have hR1 : hostDat.RebuildFreq ≠ 0 := hR.resolve_left hp
    by_cases hr : t.tmod hostDat.RebuildFreq = 0
    · have := runs_rebuild_sequence L s hs
      unfold Runs at this ⊢
      simp [hp, hr, run_bind, run_c_mod_ne, hR1, this, after_mk]
    · simp [hp, hr, Runs, run_bind, run_c_mod_ne, hR1, run_pure, after_mk, State.tick_zero]

theorem runs_output (hostDat : host_param_struct) (t : Int) (s : State)
    (hV : hostDat.VideoFreq ≠ 0) (hS : hostDat.ShearStressFreq ≠ 0) (hs : s.checked_ok) :
    Runs (output hostDat t) s (output_calls hostDat t) := by
  unfold Runs output video_output shear_output output_calls
  have h1 : ∀ n, s.status n (Call.clEnqueueReadBuffer Queue.GPU Mem.u_cl HostArr.u_h) = 0 :=
    fun n => hs n _ rfl
  have h2 : ∀ n, s.status n (Call.clEnqueueReadBuffer Queue.GPU Mem.tau_lb_cl HostArr.tau_lb_h) = 0 :=
    fun n => hs n _ rfl
  by_cases hv : t.tmod hostDat.VideoFreq = 0 <;>
  by_cases hx : t.tmod hostDat.ShearStressFreq = 0 <;>
  simp [run_bind, run_c_mod_ne, hV, hS, hv, hx, h1, h2, run_clEnqueueReadBuffer,
    run_error_check_ok, run_emits, run_pure, after_mk, State.tick_tick, State.tick_status,
    State.tick_clock, State.tick_zero, CL_SUCCESS]

theorem timestep_run (inp : Input) (L : Locals) (t : Int) (s : State)
    (h : inp.hostDat.ConsolePrintFreq ≠ 0) :
    (timestep inp L t).run s =
      after (front_calls inp L t)
        ((step_tail inp L t).run (s.tick (front_calls inp L t).length)) := by
  unfold timestep front_calls step_tail
  rw [runs_run_bind (runs_print inp.hostDat t s h), runs_run_bind (runs_switch t _),
    runs_run_bind (runs_collide L _), runs_run_bind (runs_particle_update L _),
    runs_run_bind (runs_periodic L _), runs_run_bind (runs_velocity inp L _),
    runs_run_bind (runs_particle_fluid L _)]
  simp only [after_after, State.tick_tick, List.append_assoc, List.length_append, Nat.add_assoc]

theorem runs_tail (inp : Input) (L : Locals) (t : Int) (s : State)
    (hR : L.usingParticles = 0 ∨ inp.hostDat.RebuildFreq ≠ 0)
    (hV : inp.hostDat.VideoFreq ≠ 0) (hS : inp.hostDat.ShearStressFreq ≠ 0)
    (hs : s.checked_ok) :
    Runs (step_tail inp L t) s
      (rebuild_calls inp.hostDat L t ++ (end_calls ++ output_calls inp.hostDat t)) := by
  unfold step_tail
  exact runs_bind (runs_rebuild inp.hostDat L t s hR hs)
    (runs_bind (runs_end L _) (runs_output inp.hostDat t _ hV hS
      (State.checked_ok_tick (State.checked_ok_tick hs _) _)))

theorem runs_timestep (inp : Input) (L : Locals) (t : Int) (s : State)
    (hC : inp.hostDat.ConsolePrintFreq ≠ 0)
    (hR : L.usingParticles = 0 ∨ inp.hostDat.RebuildFreq ≠ 0)
    (hV : inp.hostDat.VideoFreq ≠ 0) (hS : inp.hostDat.ShearStressFreq ≠ 0)
    (hs : s.checked_ok) :
    Runs (timestep inp L t) s (step_calls inp L t) := by
  unfold Runs
  rw [timestep_run inp L t s hC,
    runs_tail inp L t _ hR hV hS (State.checked_ok_tick hs _)]
  simp only [after_mk, step_calls, State.tick_tick, List.length_append]

/-! ## Properties of every call of a computation -/

theorem all_pure {α : Type} (p : Call → Prop) (a : α) : Prog.All p (pure a : Prog α) := by
  intro s c hc
  simp [Prog.calls, run_pure] at hc

theorem all_halt {α : Type} (p : Call → Prop) (h : Halt) : Prog.All p (halt h : Prog α) := by
  intro s c hc
  simp [Prog.calls, run_halt] at hc

theorem all_emit (p : Call → Prop) (c : Call) (h : p c) : Prog.All p (emit c) := by
  intro s c1 hc
  simp [Prog.calls, run_emit] at hc
  exact hc ▸ h

theorem all_bind {α β : Type} (p : Call → Prop) (m : Prog α) (f : α → Prog β)
    (hm : Prog.All p m) (hf : ∀ a, Prog.All p (f a)) : Prog.All p (m >>= f) := by
  intro s c hc
  have hm1 := hm s
  unfold Prog.calls at hc hm1
  rw [run_bind] at hc
  rcases hrun : m.run s with ⟨l, o⟩
  rw [hrun] at hc hm1
  cases o with
  | ok a s1 =>
    simp only [after, List.mem_append] at hc
    rcases hc with hc | hc
    · exact hm1 c hc
    · exact hf a s1 c hc
  | halt h => exact hm1 c hc

theorem all_ite {α : Type} (p : Call → Prop) (c : Prop) [Decidable c] (m1 m2 : Prog α)
    (h1 : Prog.All p m1) (h2 : Prog.All p m2) : Prog.All p (if c then m1 else m2) := by
  split
  · exact h1
  · exact h2

theorem all_emits (p : Call → Prop) (cs : List Call) (h : ∀ c ∈ cs, p c) :
    Prog.All p (emits cs) := by
  intro s c hc
  simp only [Prog.calls, run_emits] at hc
  exact h c hc

theorem all_c_mod (p : Call → Prop) (a b : Int) : Prog.All p (c_mod a b) := by
  unfold c_mod
  exact all_ite p _ _ _ (all_halt p _) (all_pure p _)

theorem all_error_check (p : Call → Prop) (err : Int) (tag : Tag)
    (h : p (Call.error_check err tag)) : Prog.All p (error_check err tag) := by
  unfold error_check
  exact all_bind p _ _ (all_emit p _ h) (fun _ => all_ite p _ _ _ (all_halt p _) (all_pure p _))

theorem quiet_iff (c : Call) :
    c.quiet ↔ (c.isSetArg = false ∧
      (c.launched = none ∨ c.launched = some Kernel.update_particle_zones)) := Iff.rfl

theorem all_rebuild (hostDat : host_param_struct) (L : Locals) (t : Int) :
    Prog.All Call.quiet (rebuild_neighbour_lists hostDat L t) := by
  unfold rebuild_neighbour_lists rebuild_sequence clEnqueueNDRangeKernel clFinish
  refine all_ite _ _ _ _ ?_ (all_pure _ _)
  refine all_bind _ _ _ (all_c_mod _ _ _) (fun r => ?_)
  refine all_ite _ _ _ _ ?_ (all_pure _ _)
  refine all_bind _ _ _ (all_emit _ _ ?_) (fun e => ?_)
  · simp [quiet_iff, Call.isSetArg, Call.launched]
  refine all_bind _ _ _ (all_error_check _ _ _ ?_) (fun _ => ?_)
  · simp [quiet_iff, Call.isSetArg, Call.launched]
  refine all_bind _ _ _ (all_emits _ _ ?_) (fun _ => ?_)
  · intro c hc
    simp only [List.mem_map] at hc
    obtain ⟨i, _, rfl⟩ := hc
    simp [quiet_iff, Call.isSetArg, Call.launched]
  refine all_bind _ _ _ (all_emit _ _ ?_) (fun _ => ?_)
  · simp [quiet_iff, Call.isSetArg, Call.launched]
  refine all_bind _ _ _ (all_emit _ _ ?_) (fun _ => ?_)
  · simp [quiet_iff, Call.isSetArg, Call.launched]
  refine all_bind _ _ _ (all_emit _ _ ?_) (fun _ => all_pure _ _)
  simp [quiet_iff, Call.isSetArg, Call.launched]

theorem all_end (L : Locals) : Prog.All Call.quiet (end_of_step L) := by
  unfold end_of_step clFinish
  refine all_bind _ _ _ (all_emit _ _ ?_) (fun _ => ?_)
  · simp [quiet_iff, Call.isSetArg, Call.launched]
  refine all_bind _ _ _ (all_emit _ _ ?_) (fun _ => all_pure _ _)
  simp [quiet_iff, Call.isSetArg, Call.launched]

theorem all_output (hostDat : host_param_struct) (t : Int) :
    Prog.All Call.quiet (output hostDat t) := by
  unfold output video_output shear_output clEnqueueReadBuffer
  refine all_bind _ _ _ ?_ (fun _ => ?_)
  · refine all_bind _ _ _ (all_c_mod _ _ _) (fun rv => ?_)
    refine all_ite _ _ _ _ ?_ (all_pure _ _)
    refine all_bind _ _ _ (all_emit _ _ ?_) (fun e => ?_)
    · simp [quiet_iff, Call.isSetArg, Call.launched]
    refine all_bind _ _ _ (all_error_check _ _ _ ?_) (fun _ => ?_)
    · simp [quiet_iff, Call.isSetArg, Call.launched]
    refine all_emits _ _ ?_
    intro c hc
    simp only [List.mem_singleton] at hc
    subst hc
    simp [quiet_iff, Call.isSetArg, Call.launched]
  refine all_bind _ _ _ (all_c_mod _ _ _) (fun rs => ?_)
  refine all_ite _ _ _ _ ?_ (all_pure _ _)
  refine all_bind _ _ _ (all_emit _ _ ?_) (fun e => ?_)
  · simp [quiet_iff, Call.isSetArg, Call.launched]
  refine all_bind _ _ _ (all_emit _ _ ?_) (fun e => ?_)
  · simp [quiet_iff, Call.isSetArg, Call.launched]
  refine all_bind _ _ _ (all_error_check _ _ _ ?_) (fun _ => ?_)
  · simp [quiet_iff, Call.isSetArg, Call.launched]
  refine all_emits _ _ ?_
  intro c hc
  simp only [List.mem_singleton] at hc
  subst hc
  simp [quiet_iff, Call.isSetArg, Call.launched]

theorem all_tail (inp : Input) (L : Locals) (t : Int) :
    Prog.All Call.quiet (step_tail inp L t) := by
  unfold step_tail
  exact all_bind _ _ _ (all_rebuild _ _ _) (fun _ =>
    all_bind _ _ _ (all_end _) (fun _ => all_output _ _))

/-! ## Kernel arguments along a run of calls -/

theorem bound_after_append (b : Binding) (l1 l2 : List Call) :
    bound_after b (l1 ++ l2) = bound_after (bound_after b l1) l2 := by
  induction l1 generalizing b with
  | nil => rfl
  | cons c l1 ih => exact ih (b.step c)

theorem launch_arg_append (k : Kernel) (i : Nat) (b : Binding) (l1 l2 : List Call) :
    launch_arg k i b (l1 ++ l2) = launch_arg k i b l1 ++ launch_arg k i (bound_after b l1) l2 := by
  induction l1 generalizing b with
  | nil => rfl
  | cons c l1 ih =>
    show _ ++ launch_arg k i (b.step c) (l1 ++ l2) = _
    rw [ih (b.step c)]
    simp only [launch_arg, bound_after, List.append_assoc]

theorem step_quiet (b : Binding) (c : Call) (h : c.quiet) : b.step c = b := by
  cases c <;> first | rfl | (simp [Call.quiet, Call.isSetArg] at h)

theorem bound_after_quiet (b : Binding) (l : List Call) (h : ∀ c ∈ l, c.quiet) :
    bound_after b l = b := by
  induction l with
  | nil => rfl
  | cons c l ih =>
    have hc := h c (List.mem_cons_self _ _)
    have hl : ∀ c ∈ l, c.quiet := fun c hc => h c (List.mem_cons_of_mem _ hc)
    simp only [bound_after, step_quiet b c hc, ih hl]

theorem launch_arg_quiet (k : Kernel) (i : Nat) (b : Binding) (l : List Call)
    (h : ∀ c ∈ l, c.quiet) (hk : k ≠ Kernel.update_particle_zones) :
    launch_arg k i b l = [] := by
  induction l with
  | nil => rfl
  | cons c l ih =>
    have hc := h c (List.mem_cons_self _ _)
    have hl : ∀ c ∈ l, c.quiet := fun c hc => h c (List.mem_cons_of_mem _ hc)
    have hne : c.launched ≠ some k := by
      rcases hc.2 with h1 | h1
      · rw [h1]; exact fun h2 => Option.noConfusion h2
      · rw [h1]; intro h2; exact hk (Option.some.inj h2).symm
    simp only [launch_arg, step_quiet b c hc, ih hl, if_neg hne, List.append_nil]

/-- The calls of a step: the closed form of its first part, then calls that
neither set a kernel argument nor launch a fluid kernel. -/
theorem timestep_calls (inp : Input) (L : Locals) (t : Int) (s : State)
    (h : inp.hostDat.ConsolePrintFreq ≠ 0) :
    ∃ rest, (timestep inp L t).calls s = front_calls inp L t ++ rest ∧ ∀ c ∈ rest, c.quiet := by
  refine ⟨(step_tail inp L t).calls (s.tick (front_calls inp L t).length), ?_, ?_⟩
  · unfold Prog.calls
    rw [timestep_run inp L t s h]
    rfl
  · exact all_tail inp L t _

theorem tmod_eq_zero_iff (t d : Int) : t.tmod d = 0 ↔ t % d = 0 := by
  rw [← Int.dvd_iff_tmod_eq_zero, Int.dvd_iff_emod_eq_zero]

theorem print_quiet (hostDat : host_param_struct) (t : Int) :
    ∀ c ∈ print_calls hostDat t, c.quiet := by
  intro c hc
  unfold print_calls at hc
  split at hc
  · simp only [List.mem_singleton] at hc
    subst hc
    simp [Call.quiet, Call.isSetArg, Call.launched]
  · simp at hc

theorem front_roles (inp : Input) (L : Locals) (t : Int) (b : Binding) :
    launch_arg Kernel.collide_stream 0 b (front_calls inp L t) =
      [some (ArgVal.mem (if t.tmod 2 = 0 then Mem.fA_cl else Mem.fB_cl))] ∧
    launch_arg Kernel.collide_stream 1 b (front_calls inp L t) =
      [some (ArgVal.mem (if t.tmod 2 = 0 then Mem.fB_cl else Mem.fA_cl))] ∧
    launch_arg Kernel.boundary_periodic 0 b (front_calls inp L t) =
      [some (ArgVal.mem (if t.tmod 2 = 0 then Mem.fB_cl else Mem.fA_cl))] ∧
    (∀ a ∈ launch_arg Kernel.boundary_velocity 0 b (front_calls inp L t),
      a = some (ArgVal.mem (if t.tmod 2 = 0 then Mem.fB_cl else Mem.fA_cl))) ∧
    (L.velBoundary ≠ 0 → launch_arg Kernel.boundary_velocity 0 b (front_calls inp L t) ≠ []) := by
  have e : ∀ k i, k ≠ Kernel.update_particle_zones →
      launch_arg k i b (front_calls inp L t) =
        launch_arg k i b (switch_calls t ++ (collide_calls L ++ (particle_update_calls L ++
          (periodic_calls L ++ (velocity_calls inp L ++ particle_fluid_calls L))))) := by
    intro k i hk
    unfold front_calls
    rw [launch_arg_append, launch_arg_quiet _ _ _ _ (print_quiet inp.hostDat t) hk,
      bound_after_quiet _ _ (print_quiet inp.hostDat t), List.nil_append]
  rw [e _ _ (by decide), e _ _ (by decide), e _ _ (by decide), e _ _ (by decide)]
  unfold switch_calls collide_calls particle_update_calls periodic_calls
    velocity_calls tangential_calls tangential_launch particle_fluid_calls
  by_cases h2 : t.tmod 2 = 0 <;>
  by_cases hu : L.usingParticles = 0 <;>
  by_cases hv : L.velBoundary = 0 <;>
  first
  | (simp [h2, hu, hv, launch_arg, Binding.set, Binding.step, Call.launched]; done)
  | (by_cases h0 : inp.hostDat.TangentialVelBC.idx 0 = 1 <;>
     by_cases h1 : inp.hostDat.TangentialVelBC.idx 1 = 1 <;>
     by_cases h3 : inp.hostDat.TangentialVelBC.idx 2 = 1 <;>
     simp [h2, hu, hv, h0, h1, h3, launch_arg, Binding.set, Binding.step, Call.launched])

/-- The buffer slots bound by `switch_f_buffers` stay as bound to the end of
the first part of the step. -/
theorem front_bound (inp : Input) (L : Locals) (t : Int) (b : Binding) :
    bound_after b (front_calls inp L t) Kernel.collide_stream 0 =
      some (ArgVal.mem (if t.tmod 2 = 0 then Mem.fA_cl else Mem.fB_cl)) ∧
    bound_after b (front_calls inp L t) Kernel.collide_stream 1 =
      some (ArgVal.mem (if t.tmod 2 = 0 then Mem.fB_cl else Mem.fA_cl)) ∧
    bound_after b (front_calls inp L t) Kernel.boundary_velocity 0 =
      some (ArgVal.mem (if t.tmod 2 = 0 then Mem.fB_cl else Mem.fA_cl)) ∧
    bound_after b (front_calls inp L t) Kernel.boundary_periodic 0 =
      some (ArgVal.mem (if t.tmod 2 = 0 then Mem.fB_cl else Mem.fA_cl)) := by
  unfold front_calls
  rw [bound_after_append, bound_after_quiet _ _ (print_quiet inp.hostDat t)]
  unfold switch_calls collide_calls particle_update_calls periodic_calls
    velocity_calls tangential_calls tangential_launch particle_fluid_calls
  by_cases h2 : t.tmod 2 = 0 <;>
  by_cases hu : L.usingParticles = 0 <;>
  by_cases hv : L.velBoundary = 0 <;>
  first
  | (simp [h2, hu, hv, bound_after, Binding.set, Binding.step]; done)
  | (by_cases h0 : inp.hostDat.TangentialVelBC.idx 0 = 1 <;>
     by_cases h1 : inp.hostDat.TangentialVelBC.idx 1 = 1 <;>
     by_cases h3 : inp.hostDat.TangentialVelBC.idx 2 = 1 <;>
     simp [h2, hu, hv, h0, h1, h3, bound_after, Binding.set, Binding.step])

/-! ## The output phase -/

theorem all_is_output (hostDat : host_param_struct) (t : Int) :
    Prog.All (fun c => c.is_output = true) (output hostDat t) := by
  unfold output video_output shear_output clEnqueueReadBuffer
  refine all_bind _ _ _ ?_ (fun _ => ?_)
  · refine all_bind _ _ _ (all_c_mod _ _ _) (fun rv => ?_)
    refine all_ite _ _ _ _ ?_ (all_pure _ _)
    refine all_bind _ _ _ (all_emit _ _ rfl) (fun e => ?_)
    refine all_bind _ _ _ (all_error_check _ _ _ rfl) (fun _ => ?_)
    refine all_emits _ _ ?_
    intro c hc
    simp only [List.mem_singleton] at hc
    subst hc
    rfl
  refine all_bind _ _ _ (all_c_mod _ _ _) (fun rs => ?_)
  refine all_ite _ _ _ _ ?_ (all_pure _ _)
  refine all_bind _ _ _ (all_emit _ _ rfl) (fun e => ?_)
  refine all_bind _ _ _ (all_emit _ _ rfl) (fun e => ?_)
  refine all_bind _ _ _ (all_error_check _ _ _ rfl) (fun _ => ?_)
  refine all_emits _ _ ?_
  intro c hc
  simp only [List.mem_singleton] at hc
  subst hc
  rfl

theorem is_output_sync (c : Call) (h : c.is_output = true) : c.sync = none := by
  cases c <;> first | rfl | (simp [Call.is_output] at h)

theorem is_output_rebuild_op (c : Call) (h : c.is_output = true) : c.rebuild_op = false := by
  cases c <;> first | rfl | (simp [Call.is_output] at h)

theorem skeleton_append (l1 l2 : List Call) : skeleton (l1 ++ l2) = skeleton l1 ++ skeleton l2 := by
  simp [skeleton, List.filterMap_append]

theorem skeleton_is_output (l : List Call) (h : ∀ c ∈ l, c.is_output = true) : skeleton l = [] := by
  unfold skeleton
  rw [List.filterMap_eq_nil_iff]
  exact fun c hc => is_output_sync c (h c hc)

/-- The calls of a step up to the output phase, in closed form, when the `%`
operations before the output are defined and the map of the rebuild succeeds. -/
theorem timestep_calls_output (inp : Input) (L : Locals) (t : Int) (s : State)
    (hC : inp.hostDat.ConsolePrintFreq ≠ 0)
    (hR : L.usingParticles = 0 ∨ inp.hostDat.RebuildFreq ≠ 0) (hs : s.checked_ok) :
    ∃ rest, (timestep inp L t).calls s =
        front_calls inp L t ++ (rebuild_calls inp.hostDat L t ++ (end_calls ++ rest)) ∧
      ∀ c ∈ rest, c.is_output = true := by
  have h1 := runs_rebuild inp.hostDat L t (s.tick (front_calls inp L t).length) hR
    (State.checked_ok_tick hs _)
  refine ⟨(output inp.hostDat t).calls
    (((s.tick (front_calls inp L t).length).tick (rebuild_calls inp.hostDat L t).length).tick
      end_calls.length), ?_, all_is_output inp.hostDat t _⟩
  unfold Prog.calls
  rw [timestep_run inp L t s hC]
  unfold step_tail
  rw [runs_run_bind h1, runs_run_bind (runs_end L _)]
  rfl

/-! ## Launches and drains of the phases -/

theorem skeleton_print (hostDat : host_param_struct) (t : Int) :
    skeleton (print_calls hostDat t) = [] := by
  unfold print_calls
  split <;> rfl

theorem skeleton_switch (t : Int) : skeleton (switch_calls t) = [] := by
  unfold switch_calls
  split <;> rfl

theorem skeleton_particle_update (L : Locals) :
    skeleton (particle_update_calls L) =
      if L.usingParticles ≠ 0 then
        [Sync.finish Queue.CPU, Sync.finish Queue.GPU,
         Sync.launch Kernel.reset_particle_fluid_forces]
      else [] := by
  unfold particle_update_calls
  split <;> rfl

theorem skeleton_tangential (inp : Input) (i : Nat) :
    skeleton (tangential_calls inp i) =
      if inp.hostDat.TangentialVelBC.idx i = 1 then [Sync.launch Kernel.boundary_velocity]
      else [] := by
  unfold tangential_calls
  split <;> rfl

theorem skeleton_velocity (inp : Input) (L : Locals) :
    skeleton (velocity_calls inp L) =
      if L.velBoundary ≠ 0 then
        Sync.launch Kernel.boundary_velocity ::
          ((tangential_axes inp).map (fun _ => Sync.launch Kernel.boundary_velocity) ++
            [Sync.finish Queue.GPU])
      else [] := by
  unfold velocity_calls
  split
  · rw [show ∀ (c : Call) (l : List Call), skeleton (c :: l) = skeleton [c] ++ skeleton l from
      fun c l => skeleton_append [c] l]
    simp only [skeleton_append, skeleton_tangential, tangential_axes]
    by_cases h0 : inp.hostDat.TangentialVelBC.idx 0 = 1 <;>
    by_cases h1 : inp.hostDat.TangentialVelBC.idx 1 = 1 <;>
    by_cases h2 : inp.hostDat.TangentialVelBC.idx 2 = 1 <;>
    simp [h0, h1, h2, skeleton, Call.sync, List.filter]
  · rfl

theorem skeleton_particle_fluid (L : Locals) :
    skeleton (particle_fluid_calls L) =
      if L.usingParticles ≠ 0 then
        [Sync.launch Kernel.particle_fluid_forces_linear_stencil, Sync.finish Queue.GPU,
         Sync.launch Kernel.sum_particle_fluid_forces]
      else [] := by
  unfold particle_fluid_calls
  split <;> rfl

theorem skeleton_rebuild_block (L : Locals) :
    skeleton (rebuild_block L) =
      [Sync.launch Kernel.update_particle_zones, Sync.finish Queue.CPU] := by
  have h : skeleton ((List.range L.totalNumZones).map
      (fun i => Call.host_store HostArr.numParInZone_h i 0)) = [] := by
    unfold skeleton
    rw [List.filterMap_eq_nil_iff]
    intro c hc
    simp only [List.mem_map] at hc
    obtain ⟨i, -, rfl⟩ := hc
    rfl
  unfold rebuild_block
  rw [show ∀ (c d : Call) (l : List Call), skeleton (c :: d :: l) = skeleton [c, d] ++ skeleton l
    from fun c d l => skeleton_append [c, d] l, skeleton_append, h]
  rfl

theorem skeleton_rebuild (hostDat : host_param_struct) (L : Locals) (t : Int) :
    skeleton (rebuild_calls hostDat L t) =
      if L.usingParticles ≠ 0 ∧ t.tmod hostDat.RebuildFreq = 0 then
        [Sync.launch Kernel.update_particle_zones, Sync.finish Queue.CPU]
      else [] := by
  unfold rebuild_calls
  split
  · exact skeleton_rebuild_block L
  · rfl

theorem skeleton_front (inp : Input) (L : Locals) (t : Int) :
    skeleton (front_calls inp L t) =
      [Sync.launch Kernel.collide_stream] ++
      (if L.usingParticles ≠ 0 then
        [Sync.finish Queue.CPU, Sync.finish Queue.GPU,
         Sync.launch Kernel.reset_particle_fluid_forces]
       else []) ++
      [Sync.launch Kernel.boundary_periodic, Sync.finish Queue.GPU, Sync.finish Queue.CPU] ++
      (if L.velBoundary ≠ 0 then
        Sync.launch Kernel.boundary_velocity ::
          ((tangential_axes inp).map (fun _ => Sync.launch Kernel.boundary_velocity) ++
            [Sync.finish Queue.GPU])
       else []) ++
      (if L.usingParticles ≠ 0 then
        [Sync.launch Kernel.particle_fluid_forces_linear_stencil, Sync.finish Queue.GPU,
         Sync.launch Kernel.sum_particle_fluid_forces]
       else []) := by
  unfold front_calls
  simp only [skeleton_append, skeleton_print, skeleton_switch, skeleton_particle_update,
    skeleton_velocity, skeleton_particle_fluid, List.nil_append, List.append_assoc]
  rfl

/-- The launches and drains of a step, in order. -/
theorem timestep_skeleton (inp : Input) (L : Locals) (t : Int) (s : State)
    (hC : inp.hostDat.ConsolePrintFreq ≠ 0)
    (hR : L.usingParticles = 0 ∨ inp.hostDat.RebuildFreq ≠ 0) (hs : s.checked_ok) :
    skeleton ((timestep inp L t).calls s) =
      [Sync.launch Kernel.collide_stream] ++
      (if L.usingParticles ≠ 0 then
        [Sync.finish Queue.CPU, Sync.finish Queue.GPU,
         Sync.launch Kernel.reset_particle_fluid_forces]
       else []) ++
      [Sync.launch Kernel.boundary_periodic, Sync.finish Queue.GPU, Sync.finish Queue.CPU] ++
      (if L.velBoundary ≠ 0 then
        Sync.launch Kernel.boundary_velocity ::
          ((tangential_axes inp).map (fun _ => Sync.launch Kernel.boundary_velocity) ++
            [Sync.finish Queue.GPU])
       else []) ++
      (if L.usingParticles ≠ 0 then
        [Sync.launch Kernel.particle_fluid_forces_linear_stencil, Sync.finish Queue.GPU,
         Sync.launch Kernel.sum_particle_fluid_forces]
       else []) ++
      (if L.usingParticles ≠ 0 ∧ t % inp.hostDat.RebuildFreq = 0 then
        [Sync.launch Kernel.update_particle_zones, Sync.finish Queue.CPU]
       else []) ++
      [Sync.finish Queue.GPU, Sync.finish Queue.CPU] := by
  obtain ⟨rest, hcalls, hrest⟩ := timestep_calls_output inp L t s hC hR hs
  rw [hcalls]
  simp only [skeleton_append, skeleton_front, skeleton_rebuild, skeleton_is_output rest hrest,
    tmod_eq_zero_iff, List.append_nil, List.append_assoc]
  rfl

/-- CPU drains of a step. -/
theorem timestep_cpu_drains (inp : Input) (L : Locals) (t : Int) (s : State)
    (hC : inp.hostDat.ConsolePrintFreq ≠ 0)
    (hR : L.usingParticles = 0 ∨ inp.hostDat.RebuildFreq ≠ 0) (hs : s.checked_ok) :
    List.count (Sync.finish Queue.CPU) (skeleton ((timestep inp L t).calls s)) =
      (if L.usingParticles ≠ 0 then 3 else 2) +
      (if L.usingParticles ≠ 0 ∧ t % inp.hostDat.RebuildFreq = 0 then 1 else 0) := by
  rw [timestep_skeleton inp L t s hC hR hs]
  by_cases hu : L.usingParticles = 0 <;>
  by_cases hv : L.velBoundary = 0 <;>
  by_cases hr : t % inp.hostDat.RebuildFreq = 0 <;>
  simp [hu, hv, hr, List.count_cons, List.count_replicate]

/-- Launches of `update_particle_zones` in a step. -/
theorem timestep_rebuild_launches (inp : Input) (L : Locals) (t : Int) (s : State)
    (hC : inp.hostDat.ConsolePrintFreq ≠ 0)
    (hR : L.usingParticles = 0 ∨ inp.hostDat.RebuildFreq ≠ 0) (hs : s.checked_ok) :
    List.count (Sync.launch Kernel.update_particle_zones)
        (skeleton ((timestep inp L t).calls s)) =
      if L.usingParticles ≠ 0 ∧ t % inp.hostDat.RebuildFreq = 0 then 1 else 0 := by
  rw [timestep_skeleton inp L t s hC hR hs]
  by_cases hu : L.usingParticles = 0 <;>
  by_cases hv : L.velBoundary = 0 <;>
  by_cases hr : t % inp.hostDat.RebuildFreq = 0 <;>
  simp [hu, hv, hr, List.count_cons, List.count_replicate]

/-! ## Rebuild operations -/

theorem front_no_rebuild_op (inp : Input) (L : Locals) (t : Int) :
    ∀ c ∈ front_calls inp L t, c.rebuild_op = false := by
  unfold front_calls
  simp only [List.forall_mem_append]
  refine ⟨?_, ?_, ?_, ?_, ?_, ?_, ?_⟩
  · unfold print_calls; split <;> simp [Call.rebuild_op]
  · unfold switch_calls; split <;> simp [Call.rebuild_op]
  · unfold collide_calls; simp [Call.rebuild_op]
  · unfold particle_update_calls; split <;> simp [Call.rebuild_op]
  · unfold periodic_calls; simp [Call.rebuild_op]
  · have ht : ∀ i, ∀ c ∈ tangential_calls inp i, c.rebuild_op = false := by
      intro i
      unfold tangential_calls tangential_launch
      split <;> simp [Call.rebuild_op]
    unfold velocity_calls
    split
    · simp only [List.forall_mem_cons, List.forall_mem_append]
      exact ⟨rfl, ht 0, ht 1, ht 2, by simp [Call.rebuild_op]⟩
    · simp
  · unfold particle_fluid_calls; split <;> simp [Call.rebuild_op]

theorem end_no_rebuild_op : ∀ c ∈ end_calls, c.rebuild_op = false := by
  unfold end_calls; simp [Call.rebuild_op]

/-! ## The loop -/

theorem runs_time_loop (inp : Input) (L : Locals) (n : Nat) (t : Int) (s : State)
    (hC : inp.hostDat.ConsolePrintFreq ≠ 0)
    (hR : L.usingParticles = 0 ∨ inp.hostDat.RebuildFreq ≠ 0)
    (hV : inp.hostDat.VideoFreq ≠ 0) (hS : inp.hostDat.ShearStressFreq ≠ 0)
    (hs : s.checked_ok) :
    Runs (time_loop inp L n t) s (loop_calls inp L n t) := by
  induction n generalizing t s with
  | zero => exact runs_pure s
  | succ n ih =>
    exact runs_bind (runs_timestep inp L t s hC hR hV hS hs)
      (ih (t + 1) _ (State.checked_ok_tick hs _))

theorem loop_calls_succ (inp : Input) (L : Locals) (n : Nat) (t : Int) :
    loop_calls inp L (n + 1) t = loop_calls inp L n t ++ step_calls inp L (t + n) := by
  induction n generalizing t with
  | zero => simp [loop_calls]
  | succ n ih =>
    rw [show loop_calls inp L (n + 1 + 1) t =
      step_calls inp L t ++ loop_calls inp L (n + 1) (t + 1) from rfl, ih (t + 1),
      show loop_calls inp L (n + 1) t = step_calls inp L t ++ loop_calls inp L n (t + 1) from rfl,
      List.append_assoc]
    congr 3
    push_cast
    ring

theorem skeleton_step_calls_count (inp : Input) (L : Locals) (t : Int) :
    List.count (Sync.launch Kernel.update_particle_zones) (skeleton (step_calls inp L t)) =
      if L.usingParticles ≠ 0 ∧ t % inp.hostDat.RebuildFreq = 0 then 1 else 0 := by
  have ho : skeleton (output_calls inp.hostDat t) = [] := by
    unfold output_calls
    split <;> split <;> rfl
  unfold step_calls
  simp only [skeleton_append, skeleton_front, skeleton_rebuild, ho, tmod_eq_zero_iff,
    List.append_nil]
  by_cases hu : L.usingParticles = 0 <;>
  by_cases hv : L.velBoundary = 0 <;>
  by_cases hr : t % inp.hostDat.RebuildFreq = 0 <;>
  simp [hu, hv, hr, List.count_cons, List.count_replicate, end_calls, skeleton, Call.sync]

theorem loop_rebuild_count (inp : Input) (L : Locals) (n r : Nat)
    (hu : L.usingParticles ≠ 0) (hR : inp.hostDat.RebuildFreq = r) :
    List.count (Sync.launch Kernel.update_particle_zones) (skeleton (loop_calls inp L n 1)) =
      n / r := by
  induction n with
  | zero => simp [loop_calls, skeleton]
  | succ n ih =>
    rw [loop_calls_succ, skeleton_append, List.count_append, ih, skeleton_step_calls_count,
      Nat.succ_div, hR]
    congr 1
    have h1 : ((1 : Int) + (n : Int)) % (r : Int) = 0 ↔ r ∣ n + 1 := by
      rw [← Int.dvd_iff_emod_eq_zero, show (1 : Int) + (n : Int) = ((n + 1 : Nat) : Int) by
        push_cast; ring, Int.natCast_dvd_natCast]
    simp only [hu, ne_eq, not_false_eq_true, true_and, h1]

theorem usingParticles_ne_zero (inp : Input) :
    (locals inp).usingParticles ≠ 0 ↔ inp.intDat.NumParticles > 0 := by
  unfold locals
  by_cases h : inp.intDat.NumParticles > 0 <;> simp [h]

/-- The launch arguments of the fluid kernels in a whole step are those of its
first part. -/
theorem timestep_launch_arg (inp : Input) (L : Locals) (t : Int) (s : State) (b : Binding)
    (hC : inp.hostDat.ConsolePrintFreq ≠ 0) (k : Kernel) (i : Nat)
    (hk : k ≠ Kernel.update_particle_zones) :
    launch_arg k i b ((timestep inp L t).calls s) = launch_arg k i b (front_calls inp L t) := by
  obtain ⟨rest, hcalls, hq⟩ := timestep_calls inp L t s hC
  rw [hcalls, launch_arg_append, launch_arg_quiet _ _ _ _ hq hk, List.append_nil]

/-- C1: in every step, an even `t` makes `collide_stream` read buffer A
(slot 0) and write buffer B (slot 1) and has both boundary kernels work on B;
an odd `t` inverts the roles; in both cases the boundary kernels are bound to,
and every boundary launch of the step works on, the buffer `collide_stream`
writes in that step. -/
theorem C1_buffer_roles_by_parity (inp : Input) (L : Locals) (t : Int) (s : State) (b : Binding)
    (hC : inp.hostDat.ConsolePrintFreq ≠ 0) :
    (t % 2 = 0 →
      launch_arg Kernel.collide_stream 0 b ((timestep inp L t).calls s)
        = [some (ArgVal.mem Mem.fA_cl)] ∧
      launch_arg Kernel.collide_stream 1 b ((timestep inp L t).calls s)
        = [some (ArgVal.mem Mem.fB_cl)] ∧
      launch_arg Kernel.boundary_periodic 0 b ((timestep inp L t).calls s)
        = [some (ArgVal.mem Mem.fB_cl)] ∧
      ∀ a ∈ launch_arg Kernel.boundary_velocity 0 b ((timestep inp L t).calls s),
        a = some (ArgVal.mem Mem.fB_cl)) ∧
    (t % 2 ≠ 0 →
      launch_arg Kernel.collide_stream 0 b ((timestep inp L t).calls s)
        = [some (ArgVal.mem Mem.fB_cl)] ∧
      launch_arg Kernel.collide_stream 1 b ((timestep inp L t).calls s)
        = [some (ArgVal.mem Mem.fA_cl)] ∧
      launch_arg Kernel.boundary_periodic 0 b ((timestep inp L t).calls s)
        = [some (ArgVal.mem Mem.fA_cl)] ∧
      ∀ a ∈ launch_arg Kernel.boundary_velocity 0 b ((timestep inp L t).calls s),
        a = some (ArgVal.mem Mem.fA_cl)) ∧
    (launch_arg Kernel.boundary_periodic 0 b ((timestep inp L t).calls s)
        = launch_arg Kernel.collide_stream 1 b ((timestep inp L t).calls s) ∧
      (∀ a ∈ launch_arg Kernel.boundary_velocity 0 b ((timestep inp L t).calls s),
        [a] = launch_arg Kernel.collide_stream 1 b ((timestep inp L t).calls s)) ∧
      (L.velBoundary ≠ 0 →
        launch_arg Kernel.boundary_velocity 0 b ((timestep inp L t).calls s) ≠ []) ∧
      bound_after b ((timestep inp L t).calls s) Kernel.boundary_velocity 0
        = bound_after b ((timestep inp L t).calls s) Kernel.collide_stream 1 ∧
      bound_after b ((timestep inp L t).calls s) Kernel.boundary_periodic 0
        = bound_after b ((timestep inp L t).calls s) Kernel.collide_stream 1) := by
  obtain ⟨h0, h1, hp, hv, hne⟩ := front_roles inp L t b
  obtain ⟨-, g1, gv, gp⟩ := front_bound inp L t b
  obtain ⟨rest, hcalls, hq⟩ := timestep_calls inp L t s hC
  have hb : bound_after b ((timestep inp L t).calls s) = bound_after b (front_calls inp L t) := by
    rw [hcalls, bound_after_append, bound_after_quiet _ _ hq]
  simp only [timestep_launch_arg inp L t s b hC _ _ (show Kernel.collide_stream ≠ _ by decide),
    timestep_launch_arg inp L t s b hC _ _ (show Kernel.boundary_periodic ≠ _ by decide),
    timestep_launch_arg inp L t s b hC _ _ (show Kernel.boundary_velocity ≠ _ by decide), hb]
  refine ⟨fun ht => ?_, fun ht => ?_, ?_, ?_, hne, ?_, ?_⟩
  · have h2 : t.tmod 2 = 0 := (tmod_eq_zero_iff t 2).mpr ht
    simp only [h2, if_true] at h0 h1 hp hv
    exact ⟨h0, h1, hp, hv⟩
  · have h2 : ¬ t.tmod 2 = 0 := fun h => ht ((tmod_eq_zero_iff t 2).mp h)
    simp only [h2, if_false] at h0 h1 hp hv
    exact ⟨h0, h1, hp, hv⟩
  · rw [hp, h1]
  · intro a ha
    rw [hv a ha, h1]
  · rw [gv, g1]
  · rw [gp, g1]

theorem C1_witness :
    launch_arg Kernel.collide_stream 0 (fun _ _ => none)
        ((timestep inp_fluid (locals inp_fluid) 2).calls all_success)
      = [some (ArgVal.mem Mem.fA_cl)] :=
  ((C1_buffer_roles_by_parity inp_fluid (locals inp_fluid) 2 all_success
    (fun _ _ => none) (by decide)).1 (by decide)).1

/-- C2: the buffer `collide_stream` reads at step `t` is the one it wrote at
step `t - 1`, and at every step the buffer read and the buffer written are the
two different buffers A and B. -/
theorem C2_double_buffer_consistency (inp : Input) (L : Locals) (t : Int) (s s1 : State)
    (b b1 : Binding) (hC : inp.hostDat.ConsolePrintFreq ≠ 0) :
    launch_arg Kernel.collide_stream 0 b ((timestep inp L t).calls s)
      = launch_arg Kernel.collide_stream 1 b1 ((timestep inp L (t - 1)).calls s1) ∧
    ∃ r w, launch_arg Kernel.collide_stream 0 b ((timestep inp L t).calls s)
        = [some (ArgVal.mem r)] ∧
      launch_arg Kernel.collide_stream 1 b ((timestep inp L t).calls s)
        = [some (ArgVal.mem w)] ∧
      r ≠ w ∧ (r = Mem.fA_cl ∨ r = Mem.fB_cl) ∧ (w = Mem.fA_cl ∨ w = Mem.fB_cl) := by
  obtain ⟨h0, h1, -⟩ := front_roles inp L t b
  obtain ⟨-, h1p, -⟩ := front_roles inp L (t - 1) b1
  simp only [timestep_launch_arg inp L _ _ _ hC _ _ (show Kernel.collide_stream ≠ _ by decide)]
  rw [h0, h1, h1p]
  by_cases h2 : t.tmod 2 = 0
  · have h3 : ¬ (t - 1).tmod 2 = 0 := by
      rw [tmod_eq_zero_iff] at h2 ⊢
      omega
    simp only [h2, h3, if_true, if_false]
    exact ⟨trivial, Mem.fA_cl, Mem.fB_cl, rfl, rfl, by decide, Or.inl rfl, Or.inr rfl⟩
  · have h3 : (t - 1).tmod 2 = 0 := by
      rw [tmod_eq_zero_iff] at h2 ⊢
      omega
    simp only [h2, h3, if_true, if_false]
    exact ⟨trivial, Mem.fB_cl, Mem.fA_cl, rfl, rfl, by decide, Or.inr rfl, Or.inl rfl⟩

theorem C2_witness :
    launch_arg Kernel.collide_stream 0 (fun _ _ => none)
        ((timestep inp_fluid (locals inp_fluid) 3).calls all_success)
      = launch_arg Kernel.collide_stream 1 (fun _ _ => none)
        ((timestep inp_fluid (locals inp_fluid) (3 - 1)).calls all_success) :=
  (C2_double_buffer_consistency inp_fluid (locals inp_fluid) 3 all_success
    all_success (fun _ _ => none) (fun _ _ => none) (by decide)).1

/-- C3 (as stated, refuted): step 1 of a fluid-only run with a velocity
boundary on axis 0 makes five drains; the third one follows the
`boundary_velocity` pass, which is none of the three barriers. -/
theorem C3_counterexample :
    (timestep inp_wall (locals inp_wall) 1).calls all_success =
      [Call.clSetKernelArg Kernel.collide_stream 0 (ArgVal.mem Mem.fB_cl),
       Call.clSetKernelArg Kernel.collide_stream 1 (ArgVal.mem Mem.fA_cl),
       Call.clSetKernelArg Kernel.boundary_velocity 0 (ArgVal.mem Mem.fA_cl),
       Call.clSetKernelArg Kernel.boundary_periodic 0 (ArgVal.mem Mem.fA_cl),
       Call.clEnqueueNDRangeKernel Queue.GPU Kernel.collide_stream 3 (some [1, 1, 1]) [8, 8, 8] none,
       Call.clEnqueueNDRangeKernel Queue.GPU Kernel.boundary_periodic 1 none [1800] none,
       Call.clFinish Queue.GPU,
       Call.clFinish Queue.CPU,
       Call.clEnqueueNDRangeKernel Queue.GPU Kernel.boundary_velocity 3 (some [1, 1, 1]) [2, 8, 8] none,
       Call.clSetKernelArg Kernel.boundary_velocity 3 (ArgVal.int 0),
       Call.clSetKernelArg Kernel.boundary_velocity 4 (ArgVal.int 1),
       Call.clFinish Queue.GPU,
       Call.clFinish Queue.GPU,
       Call.clFinish Queue.CPU] ∧
    drains ((timestep inp_wall (locals inp_wall) 1).calls all_success) ≠
      barrier_drains (locals inp_wall) := by
  decide

/-- C3 (amended): the launches and drains of a step, in order.  Besides the
three barriers (both queues before the particle-fluid force reset when
particles are present, both queues after the periodic dispatch, both queues at
the end of the step) the GPU queue is drained at the end of the velocity
boundary pass, the GPU queue is drained between the particle-fluid force kernel
and its summation, and the CPU queue is drained at the end of a rebuild; there
is no other drain. -/
theorem C3_drains_of_a_step (inp : Input) (L : Locals) (t : Int) (s : State)
    (hC : inp.hostDat.ConsolePrintFreq ≠ 0)
    (hR : L.usingParticles = 0 ∨ inp.hostDat.RebuildFreq ≠ 0) (hs : s.checked_ok) :
    skeleton ((timestep inp L t).calls s) =
      [Sync.launch Kernel.collide_stream] ++
      (if L.usingParticles ≠ 0 then
        [Sync.finish Queue.CPU, Sync.finish Queue.GPU,
         Sync.launch Kernel.reset_particle_fluid_forces]
       else []) ++
      [Sync.launch Kernel.boundary_periodic, Sync.finish Queue.GPU, Sync.finish Queue.CPU] ++
      (if L.velBoundary ≠ 0 then
        Sync.launch Kernel.boundary_velocity ::
          ((tangential_axes inp).map (fun _ => Sync.launch Kernel.boundary_velocity) ++
            [Sync.finish Queue.GPU])
       else []) ++
      (if L.usingParticles ≠ 0 then
        [Sync.launch Kernel.particle_fluid_forces_linear_stencil, Sync.finish Queue.GPU,
         Sync.launch Kernel.sum_particle_fluid_forces]
       else []) ++
      (if L.usingParticles ≠ 0 ∧ t % inp.hostDat.RebuildFreq = 0 then
        [Sync.launch Kernel.update_particle_zones, Sync.finish Queue.CPU]
       else []) ++
      [Sync.finish Queue.GPU, Sync.finish Queue.CPU] := by
  obtain ⟨rest, hcalls, hrest⟩ := timestep_calls_output inp L t s hC hR hs
  rw [hcalls]
  simp only [skeleton_append, skeleton_front, skeleton_rebuild, skeleton_is_output rest hrest,
    tmod_eq_zero_iff, List.append_nil, List.append_assoc]
  rfl

theorem C3_witness :
    skeleton ((timestep inp_particle (locals inp_particle) 5).calls all_success) =
      [Sync.launch Kernel.collide_stream,
       Sync.finish Queue.CPU, Sync.finish Queue.GPU,
       Sync.launch Kernel.reset_particle_fluid_forces,
       Sync.launch Kernel.boundary_periodic, Sync.finish Queue.GPU, Sync.finish Queue.CPU,
       Sync.launch Kernel.boundary_velocity, Sync.finish Queue.GPU,
       Sync.launch Kernel.particle_fluid_forces_linear_stencil, Sync.finish Queue.GPU,
       Sync.launch Kernel.sum_particle_fluid_forces,
       Sync.launch Kernel.update_particle_zones, Sync.finish Queue.CPU,
       Sync.finish Queue.GPU, Sync.finish Queue.CPU] :=
  C3_drains_of_a_step inp_particle (locals inp_particle) 5 all_success (by decide)
    (Or.inr (by decide)) (fun _ _ _ => rfl)

/-- C5 (as stated, refuted): with one parameter error and every call
succeeding, the program exits with failure after the context and both queues
were created and `vecadd_test` ran on both devices. -/
theorem C5_counterexample :
    ((main inp_bad).outcome all_success).halted = some Halt.exit_failure ∧
    (main inp_bad).calls all_success =
      [Call.analyse_platform,
       Call.clCreateContext, Call.error_check 0 Tag.clCreateContext,
       Call.clCreateCommandQueue Queue.CPU, Call.error_check 0 Tag.clCreateCommandQueue,
       Call.clCreateCommandQueue Queue.GPU, Call.error_check 0 Tag.clCreateCommandQueue,
       Call.vecadd_test Queue.CPU, Call.vecadd_test Queue.GPU,
       Call.initialize_data, Call.parameter_checking] ∧
    Call.clCreateContext ∈ (main inp_bad).calls all_success ∧
    Call.clCreateCommandQueue Queue.CPU ∈ (main inp_bad).calls all_success ∧
    Call.clCreateCommandQueue Queue.GPU ∈ (main inp_bad).calls all_success ∧
    Call.vecadd_test Queue.CPU ∈ (main inp_bad).calls all_success ∧
    Call.vecadd_test Queue.GPU ∈ (main inp_bad).calls all_success := by
  decide

/-- Calls of `main` up to the parameter check of `simulation_main`, for given
statuses of the context and queue creations. -/
theorem main_run_bad (inp : Input) (s : State) (h : inp.paramErrors > 0) :
    (main inp).run s =
      if s.status (s.clock + 1) Call.clCreateContext = 0 then
        if s.status (s.clock + 3) (Call.clCreateCommandQueue Queue.CPU) = 0 then
          if s.status (s.clock + 5) (Call.clCreateCommandQueue Queue.GPU) = 0 then
            ([Call.analyse_platform,
              Call.clCreateContext, Call.error_check 0 Tag.clCreateContext,
              Call.clCreateCommandQueue Queue.CPU, Call.error_check 0 Tag.clCreateCommandQueue,
              Call.clCreateCommandQueue Queue.GPU, Call.error_check 0 Tag.clCreateCommandQueue,
              Call.vecadd_test Queue.CPU, Call.vecadd_test Queue.GPU,
              Call.initialize_data, Call.parameter_checking], Outcome.halt Halt.exit_failure)
          else
            ([Call.analyse_platform,
              Call.clCreateContext, Call.error_check 0 Tag.clCreateContext,
              Call.clCreateCommandQueue Queue.CPU, Call.error_check 0 Tag.clCreateCommandQueue,
              Call.clCreateCommandQueue Queue.GPU,
              Call.error_check (s.status (s.clock + 5) (Call.clCreateCommandQueue Queue.GPU))
                Tag.clCreateCommandQueue],
             Outcome.halt (Halt.error_abort Tag.clCreateCommandQueue
               (s.status (s.clock + 5) (Call.clCreateCommandQueue Queue.GPU))))
        else
          ([Call.analyse_platform,
            Call.clCreateContext, Call.error_check 0 Tag.clCreateContext,
            Call.clCreateCommandQueue Queue.CPU,
            Call.error_check (s.status (s.clock + 3) (Call.clCreateCommandQueue Queue.CPU))
              Tag.clCreateCommandQueue],
           Outcome.halt (Halt.error_abort Tag.clCreateCommandQueue
             (s.status (s.clock + 3) (Call.clCreateCommandQueue Queue.CPU))))
      else
        ([Call.analyse_platform, Call.clCreateContext,
          Call.error_check (s.status (s.clock + 1) Call.clCreateContext) Tag.clCreateContext],
         Outcome.halt (Halt.error_abort Tag.clCreateContext
           (s.status (s.clock + 1) Call.clCreateContext))) := by
  unfold main simulation_main
  by_cases h1 : s.status (s.clock + 1) Call.clCreateContext = 0
  · by_cases h2 : s.status (s.clock + 3) (Call.clCreateCommandQueue Queue.CPU) = 0
    · by_cases h3 : s.status (s.clock + 5) (Call.clCreateCommandQueue Queue.GPU) = 0
      · simp [run_bind, run_emits, run_emit, run_halt, after_mk, State.tick_tick, State.tick_clock,
          State.tick_status, h1, h2, h3, run_error_check_ok, h]
      · simp [run_bind, run_emits, run_emit, run_halt, after_mk, State.tick_tick, State.tick_clock,
          State.tick_status, h1, h2, h3, run_error_check_ok, run_error_check_ne]
    · simp [run_bind, run_emits, run_emit, run_halt, after_mk, State.tick_tick, State.tick_clock,
        State.tick_status, h1, h2, run_error_check_ok, run_error_check_ne]
  · simp [run_bind, run_emits, run_emit, run_halt, after_mk, State.tick_tick, State.tick_clock,
      State.tick_status, h1, run_error_check_ne]

/-- C5 (amended): when `parameter_checking` reports an error the program never
returns, and at the abort `simulation_main` has built no kernel, created no
buffer, bound no kernel argument and issued no upload, launch, drain, map or
read-back; when the context and the queues were created successfully the abort
is `exit(EXIT_FAILURE)`, reached after the context, both queues and both
`vecadd_test` runs. -/
theorem C5_abort_before_simulation_resources (inp : Input) (s : State)
    (h : inp.paramErrors > 0) :
    ((main inp).outcome s).halted ≠ none ∧
    (∀ c ∈ (main inp).calls s, c.lb_resource = false) ∧
    ((∀ n, s.status n Call.clCreateContext = CL_SUCCESS) →
      (∀ n q, s.status n (Call.clCreateCommandQueue q) = CL_SUCCESS) →
      ((main inp).outcome s).halted = some Halt.exit_failure ∧
      (main inp).calls s =
        [Call.analyse_platform,
         Call.clCreateContext, Call.error_check 0 Tag.clCreateContext,
         Call.clCreateCommandQueue Queue.CPU, Call.error_check 0 Tag.clCreateCommandQueue,
         Call.clCreateCommandQueue Queue.GPU, Call.error_check 0 Tag.clCreateCommandQueue,
         Call.vecadd_test Queue.CPU, Call.vecadd_test Queue.GPU,
         Call.initialize_data, Call.parameter_checking]) := by
  unfold Prog.outcome Prog.calls
  rw [main_run_bad inp s h]
  refine ⟨?_, ?_, ?_⟩
  · split_ifs <;> simp [Outcome.halted]
  · split_ifs <;> simp [Call.lb_resource]
  · intro hc hq
    simp [hc _, hq _ _, CL_SUCCESS, Outcome.halted]

theorem C5_witness :
    inp_bad.paramErrors > 0 ∧
    ((main inp_bad).outcome all_success).halted ≠ none :=
  ⟨by decide, (C5_abort_before_simulation_resources inp_bad all_success (by decide)).1⟩

/-- C6 (as stated, refuted): in step 1 of the fluid-only run every launch and
every drain reports `CL_OUT_OF_RESOURCES`; the step makes all its calls, none
of them an `error_check`, and returns. -/
theorem C6_counterexample :
    launch_failure.status 4
      (Call.clEnqueueNDRangeKernel Queue.GPU Kernel.collide_stream 3 (some [1, 1, 1])
        [8, 8, 8] none) = -5 ∧
    (timestep inp_fluid (locals inp_fluid) 1).calls launch_failure =
      [Call.clSetKernelArg Kernel.collide_stream 0 (ArgVal.mem Mem.fB_cl),
       Call.clSetKernelArg Kernel.collide_stream 1 (ArgVal.mem Mem.fA_cl),
       Call.clSetKernelArg Kernel.boundary_velocity 0 (ArgVal.mem Mem.fA_cl),
       Call.clSetKernelArg Kernel.boundary_periodic 0 (ArgVal.mem Mem.fA_cl),
       Call.clEnqueueNDRangeKernel Queue.GPU Kernel.collide_stream 3 (some [1, 1, 1]) [8, 8, 8] none,
       Call.clEnqueueNDRangeKernel Queue.GPU Kernel.boundary_periodic 1 none [1800] none,
       Call.clFinish Queue.GPU,
       Call.clFinish Queue.CPU,
       Call.clFinish Queue.GPU,
       Call.clFinish Queue.CPU] ∧
    ((timestep inp_fluid (locals inp_fluid) 1).outcome launch_failure).halted = none := by
  decide

theorem step_calls_error_checks (inp : Input) (L : Locals) (t : Int) :
    ∀ c ∈ step_calls inp L t, c.isErrorCheck = true →
      c = Call.error_check CL_SUCCESS Tag.clEnqueueMapBuffer ∨
      c = Call.error_check CL_SUCCESS Tag.clEnqueueReadBuffer_Video ∨
      c = Call.error_check CL_SUCCESS Tag.clEnqueueReadBuffer_Shear_stress := by
  have ht : ∀ i, ∀ c ∈ tangential_calls inp i, c.isErrorCheck = false := by
    intro i
    unfold tangential_calls tangential_launch
    split <;> simp [Call.isErrorCheck]
  unfold step_calls front_calls
  simp only [List.forall_mem_append]
  refine ⟨⟨?_, ?_, ?_, ?_, ?_, ?_, ?_⟩, ?_, ?_, ?_⟩
  · unfold print_calls; split <;> simp [Call.isErrorCheck]
  · unfold switch_calls; split <;> simp [Call.isErrorCheck]
  · unfold collide_calls; simp [Call.isErrorCheck]
  · unfold particle_update_calls; split <;> simp [Call.isErrorCheck]
  · unfold periodic_calls; simp [Call.isErrorCheck]
  · unfold velocity_calls
    split
    · simp only [List.forall_mem_cons, List.forall_mem_append]
      refine ⟨by simp [Call.isErrorCheck], ?_, ?_, ?_, by simp [Call.isErrorCheck]⟩ <;>
      · intro c hc h
        rw [ht _ c hc] at h
        exact absurd h (by decide)
    · simp
  · unfold particle_fluid_calls; split <;> simp [Call.isErrorCheck]
  · unfold rebuild_calls rebuild_block
    split
    · intro c hc h
      simp only [List.mem_cons, List.mem_append, List.mem_map, List.mem_singleton,
        List.not_mem_nil, or_false] at hc
      rcases hc with rfl | rfl | ⟨i, -, rfl⟩ | rfl | rfl | rfl
      · simp [Call.isErrorCheck] at h
      · exact Or.inl rfl
      · simp [Call.isErrorCheck] at h
      · simp [Call.isErrorCheck] at h
      · simp [Call.isErrorCheck] at h
      · simp [Call.isErrorCheck] at h
    · simp
  · unfold end_calls; simp [Call.isErrorCheck]
  · unfold output_calls
    simp only [List.forall_mem_append]
    constructor <;> split <;> simp [Call.isErrorCheck]

/-- C6 (amended): the statuses reported by `clEnqueueNDRangeKernel` and
`clFinish` in a step are discarded.  Whatever they are, a step whose map and
read-back calls succeed makes exactly the calls of the step in which every call
succeeds, and returns; `error_check` is invoked only after the map of the
rebuild and after the read-backs of the output, each time with `CL_SUCCESS`. -/
theorem C6_launch_status_discarded (inp : Input) (L : Locals) (t : Int) (s : State)
    (hC : inp.hostDat.ConsolePrintFreq ≠ 0)
    (hR : L.usingParticles = 0 ∨ inp.hostDat.RebuildFreq ≠ 0)
    (hV : inp.hostDat.VideoFreq ≠ 0) (hS : inp.hostDat.ShearStressFreq ≠ 0)
    (hs : s.checked_ok) :
    (timestep inp L t).calls s =
      (timestep inp L t).calls { s with status := fun _ _ => CL_SUCCESS } ∧
    ((timestep inp L t).outcome s).halted = none ∧
    (∀ c ∈ (timestep inp L t).calls s, c.isErrorCheck = true →
      c = Call.error_check CL_SUCCESS Tag.clEnqueueMapBuffer ∨
      c = Call.error_check CL_SUCCESS Tag.clEnqueueReadBuffer_Video ∨
      c = Call.error_check CL_SUCCESS Tag.clEnqueueReadBuffer_Shear_stress) := by
  have h1 := runs_timestep inp L t s hC hR hV hS hs
  have h2 := runs_timestep inp L t { s with status := fun _ _ => CL_SUCCESS } hC hR hV hS
    (fun _ _ _ => rfl)
  rw [runs_calls h1, runs_calls h2, runs_outcome h1]
  exact ⟨rfl, rfl, step_calls_error_checks inp L t⟩

theorem launch_failure_checked_ok : launch_failure.checked_ok := by
  intro n c hc
  cases c <;> first | rfl | (simp [Call.checked] at hc)

theorem C6_witness :
    inp_fluid.hostDat.ConsolePrintFreq ≠ 0 ∧
    ((timestep inp_fluid (locals inp_fluid) 1).outcome launch_failure).halted = none :=
  ⟨by decide,
    (C6_launch_status_discarded inp_fluid (locals inp_fluid) 1 launch_failure (by decide)
      (Or.inl (by decide)) (by decide) (by decide) launch_failure_checked_ok).2.1⟩

/-- C7 (the code at the failing input): the allocation of `fA_cl` reports
-4, the three `error_check` calls of the buffer creation all receive
`CL_SUCCESS`, the creation returns, and the uploads that follow it are
enqueued. -/
theorem C7_failed_allocation_unnoticed :
    alloc_failure.status 0 (Call.clCreateBuffer Mem.fA_cl none) = -4 ∧
    (create_buffers.calls alloc_failure).filter Call.isErrorCheck =
      [Call.error_check CL_SUCCESS Tag.clCreateBuffer_1,
       Call.error_check CL_SUCCESS Tag.clCreateBuffer_2,
       Call.error_check CL_SUCCESS Tag.clCreateBuffer_3] ∧
    (create_buffers.outcome alloc_failure).halted = none ∧
    ((create_buffers >>= fun _ => write_buffers).calls alloc_failure).filter Call.isUpload =
      [Call.clEnqueueWriteBuffer Queue.GPU Mem.fA_cl HostArr.f_h,
       Call.clEnqueueWriteBuffer Queue.GPU Mem.fB_cl HostArr.f_h,
       Call.clEnqueueWriteBuffer Queue.GPU Mem.u_cl HostArr.u_h,
       Call.clEnqueueWriteBuffer Queue.GPU Mem.gpf_cl HostArr.gpf_h,
       Call.clEnqueueWriteBuffer Queue.GPU Mem.countPoint_cl HostArr.countPoint_h,
       Call.clEnqueueWriteBuffer Queue.GPU Mem.tau_lb_cl HostArr.tau_lb_h,
       Call.clEnqueueWriteBuffer Queue.GPU Mem.parFluidForceSum_cl HostArr.parFluidForceSum_h,
       Call.clEnqueueWriteBuffer Queue.GPU Mem.spherePoints_cl HostArr.spherePoints,
       Call.clEnqueueWriteBuffer Queue.GPU Mem.strMap_cl HostArr.strMap,
       Call.clEnqueueWriteBuffer Queue.GPU Mem.intDat_cl HostArr.intDat,
       Call.clEnqueueWriteBuffer Queue.GPU Mem.flpDat_cl HostArr.flpDat] := by
  decide

theorem timestep_run_undefined (inp : Input) (L : Locals) (t : Int) (s : State)
    (h : inp.hostDat.ConsolePrintFreq = 0) :
    (timestep inp L t).run s = ([], Outcome.halt Halt.undefined_behaviour) := by
  unfold timestep print_iteration
  simp only [h, run_bind, run_c_mod_zero]

theorem is_output_particle_op (c : Call) (h : c.is_output = true) : c.particle_op = false := by
  cases c <;> first | rfl | (simp [Call.is_output] at h)

theorem front_no_particle_op (inp : Input) (L : Locals) (t : Int) (h : L.usingParticles = 0) :
    ∀ c ∈ front_calls inp L t, c.particle_op = false := by
  unfold front_calls
  simp only [List.forall_mem_append]
  refine ⟨?_, ?_, ?_, ?_, ?_, ?_, ?_⟩
  · unfold print_calls; split <;> simp [Call.particle_op]
  · unfold switch_calls; split <;> simp [Call.particle_op]
  · unfold collide_calls; simp [Call.particle_op]
  · unfold particle_update_calls; simp [h]
  · unfold periodic_calls; simp [Call.particle_op]
  · have ht : ∀ i, ∀ c ∈ tangential_calls inp i, c.particle_op = false := by
      intro i
      unfold tangential_calls tangential_launch
      split <;> simp [Call.particle_op]
    unfold velocity_calls
    split
    · simp only [List.forall_mem_cons, List.forall_mem_append]
      exact ⟨rfl, ht 0, ht 1, ht 2, by simp [Call.particle_op]⟩
    · simp
  · unfold particle_fluid_calls; simp [h]

theorem all_tail_fluid (inp : Input) (L : Locals) (t : Int) (h : L.usingParticles = 0) :
    Prog.All (fun c => c.particle_op = false) (step_tail inp L t) := by
  unfold step_tail rebuild_neighbour_lists end_of_step clFinish
  refine all_bind _ _ _ ?_ (fun _ => all_bind _ _ _ ?_ (fun _ => ?_))
  · rw [if_neg (not_not.mpr h)]
    exact all_pure _ _
  · exact all_bind _ _ _ (all_emit _ _ rfl) (fun _ =>
      all_bind _ _ _ (all_emit _ _ rfl) (fun _ => all_pure _ _))
  · intro s c hc
    exact is_output_particle_op c (all_is_output inp.hostDat t s c hc)

theorem timestep_no_particle_op (inp : Input) (L : Locals) (t : Int) (s : State)
    (h : L.usingParticles = 0) :
    ∀ c ∈ (timestep inp L t).calls s, c.particle_op = false := by
  by_cases hC : inp.hostDat.ConsolePrintFreq = 0
  · unfold Prog.calls
    rw [timestep_run_undefined inp L t s hC]
    simp
  · unfold Prog.calls
    rw [timestep_run inp L t s hC]
    simp only [after, List.forall_mem_append]
    exact ⟨front_no_particle_op inp L t h, all_tail_fluid inp L t h _⟩

theorem timestep_fluid_congr (inp1 inp2 : Input) (t : Int)
    (h1 : inp1.intDat.NumParticles = 0) (h2 : inp2.intDat.NumParticles = 0)
    (hL : inp1.intDat.LatticeSize = inp2.intDat.LatticeSize)
    (hB : inp1.intDat.BoundaryConds = inp2.intDat.BoundaryConds)
    (hT : inp1.hostDat.TangentialVelBC = inp2.hostDat.TangentialVelBC)
    (hC : inp1.hostDat.ConsolePrintFreq = inp2.hostDat.ConsolePrintFreq)
    (hV : inp1.hostDat.VideoFreq = inp2.hostDat.VideoFreq)
    (hS : inp1.hostDat.ShearStressFreq = inp2.hostDat.ShearStressFreq)
    (hM : inp1.create_periodic_stream_mapping = inp2.create_periodic_stream_mapping) :
    timestep inp1 (locals inp1) t = timestep inp2 (locals inp2) t := by
  have hk : kernel_range_settings inp1.intDat = kernel_range_settings inp2.intDat := by
    unfold kernel_range_settings kernel_range_dim
    simp only [hL, hB]
  have hu1 : (locals inp1).usingParticles = 0 := by simp [locals, h1]
  have hu2 : (locals inp2).usingParticles = 0 := by simp [locals, h2]
  have e1 : print_iteration inp1.hostDat t = print_iteration inp2.hostDat t := by
    unfold print_iteration; rw [hC]
  have e2 : collide_and_stream (locals inp1) = collide_and_stream (locals inp2) := by
    unfold collide_and_stream locals; simp only [hk]
  have e3 : particle_update (locals inp1) = particle_update (locals inp2) := by
    unfold particle_update; simp only [hu1, hu2, ne_eq, not_true_eq_false, if_false]
  have e4 : periodic_stream (locals inp1) = periodic_stream (locals inp2) := by
    unfold periodic_stream locals; simp only [hM, hL, hB]
  have e5 : velocity_boundary inp1 (locals inp1) = velocity_boundary inp2 (locals inp2) := by
    unfold velocity_boundary tangential_pass locals; simp only [hk, hT, hL]
  have e6 : particle_fluid_forces (locals inp1) = particle_fluid_forces (locals inp2) := by
    unfold particle_fluid_forces; simp only [hu1, hu2, ne_eq, not_true_eq_false, if_false]
  have e7 : rebuild_neighbour_lists inp1.hostDat (locals inp1) t =
      rebuild_neighbour_lists inp2.hostDat (locals inp2) t := by
    unfold rebuild_neighbour_lists; simp only [hu1, hu2, ne_eq, not_true_eq_false, if_false]
  have e8 : output inp1.hostDat t = output inp2.hostDat t := by
    unfold output video_output shear_output; rw [hV, hS]
  unfold timestep end_of_step
  rw [e1, e2, e3, e4, e5, e6, e7, e8]

/-- C8: with `NumParticles = 0` a step launches no particle kernel and neither
maps nor unmaps the per-zone count buffer, and two such configurations that
agree on lattice size, boundary flags, tangential flags and output frequencies
make the same calls with the same outcome at every step, whatever their
particle-only settings. -/
theorem C8_fluid_only_path (inp1 inp2 : Input) (t : Int) (s : State)
    (h1 : inp1.intDat.NumParticles = 0) (h2 : inp2.intDat.NumParticles = 0)
    (hL : inp1.intDat.LatticeSize = inp2.intDat.LatticeSize)
    (hB : inp1.intDat.BoundaryConds = inp2.intDat.BoundaryConds)
    (hT : inp1.hostDat.TangentialVelBC = inp2.hostDat.TangentialVelBC)
    (hC : inp1.hostDat.ConsolePrintFreq = inp2.hostDat.ConsolePrintFreq)
    (hV : inp1.hostDat.VideoFreq = inp2.hostDat.VideoFreq)
    (hS : inp1.hostDat.ShearStressFreq = inp2.hostDat.ShearStressFreq)
    (hM : inp1.create_periodic_stream_mapping = inp2.create_periodic_stream_mapping) :
    (∀ c ∈ (timestep inp1 (locals inp1) t).calls s, c.particle_op = false) ∧
    (timestep inp1 (locals inp1) t).calls s = (timestep inp2 (locals inp2) t).calls s ∧
    (timestep inp1 (locals inp1) t).outcome s = (timestep inp2 (locals inp2) t).outcome s := by
  have hu1 : (locals inp1).usingParticles = 0 := by simp [locals, h1]
  rw [timestep_fluid_congr inp1 inp2 t h1 h2 hL hB hT hC hV hS hM]
  refine ⟨?_, rfl, rfl⟩
  rw [← timestep_fluid_congr inp1 inp2 t h1 h2 hL hB hT hC hV hS hM]
  exact timestep_no_particle_op inp1 (locals inp1) t s hu1

theorem C8_witness :
    inp_fluid.intDat.NumParticles = 0 ∧
    (timestep inp_fluid (locals inp_fluid) 1).calls all_success =
      (timestep inp_fluid_alt (locals inp_fluid_alt) 1).calls all_success :=
  ⟨rfl, (C8_fluid_only_path inp_fluid inp_fluid_alt 1 all_success rfl rfl rfl rfl rfl rfl rfl rfl
    rfl).2.1⟩

theorem front_velocity_args (inp : Input) (L : Locals) (t : Int) (b : Binding) :
    launch_arg Kernel.boundary_velocity 3 b (front_calls inp L t) =
      (if L.velBoundary ≠ 0 then
        b Kernel.boundary_velocity 3 ::
          (tangential_axes inp).map (fun (i : Nat) => some (ArgVal.int (i : Int)))
       else []) ∧
    launch_arg Kernel.boundary_velocity 4 b (front_calls inp L t) =
      (if L.velBoundary ≠ 0 then
        b Kernel.boundary_velocity 4 ::
          (tangential_axes inp).map (fun _ => some (ArgVal.int tanCalcRho))
       else []) ∧
    bound_after b (front_calls inp L t) Kernel.boundary_velocity 3 =
      (if L.velBoundary ≠ 0 then some (ArgVal.int L.wallAxis)
       else b Kernel.boundary_velocity 3) ∧
    bound_after b (front_calls inp L t) Kernel.boundary_velocity 4 =
      (if L.velBoundary ≠ 0 then some (ArgVal.int calcRho)
       else b Kernel.boundary_velocity 4) := by
  unfold front_calls
  simp only [launch_arg_append _ _ _ (print_calls inp.hostDat t),
    bound_after_append _ (print_calls inp.hostDat t),
    launch_arg_quiet Kernel.boundary_velocity _ _ _ (print_quiet inp.hostDat t) (by decide),
    bound_after_quiet _ _ (print_quiet inp.hostDat t), List.nil_append]
  unfold switch_calls collide_calls particle_update_calls periodic_calls
    velocity_calls tangential_calls tangential_launch particle_fluid_calls tangential_axes
  by_cases h2 : t.tmod 2 = 0 <;>
  by_cases hu : L.usingParticles = 0 <;>
  by_cases hv : L.velBoundary = 0 <;>
  first
  | (simp [h2, hu, hv, launch_arg, bound_after, Binding.set, Binding.step, Call.launched]; done)
  | (by_cases h0 : inp.hostDat.TangentialVelBC.idx 0 = 1 <;>
     by_cases h1 : inp.hostDat.TangentialVelBC.idx 1 = 1 <;>
     by_cases h3 : inp.hostDat.TangentialVelBC.idx 2 = 1 <;>
     simp [h2, hu, hv, h0, h1, h3, launch_arg, bound_after, Binding.set, Binding.step,
       Call.launched, List.filter])

theorem calls_error_check (err : Int) (tag : Tag) (s : State) :
    ((error_check err tag).run s).1 = [Call.error_check err tag] := by
  by_cases h : err = 0
  · rw [h, run_error_check_ok]
  · rw [run_error_check_ne err tag h]

theorem run_set_args (k : Kernel) (l : List (Nat × ArgVal)) (e : Int) (s : State) :
    (set_args k l e).run s =
      (l.map (fun p => Call.clSetKernelArg k p.1 p.2),
        Outcome.ok (set_args_result k l e s) (s.tick l.length)) := by
  induction l generalizing e s with
  | nil => rfl
  | cons p l ih =>
    obtain ⟨i, v⟩ := p
    show (clSetKernelArg k i v >>= fun e0 => set_args k l (Int.lor e e0)).run s = _
    rw [run_bind, run_clSetKernelArg]
    simp only [ih, after_mk, State.tick_tick, List.map_cons, List.length_cons,
      List.singleton_append, set_args_result]
    rw [Nat.add_comm]

theorem after_fst {β : Type} (l : List Call) (r : List Call × Outcome β) :
    (after l r).1 = l ++ r.1 := rfl

theorem fixed_kernel_args_bound (L : Locals) (s : State) (b : Binding) :
    bound_after b ((fixed_kernel_args L).calls s) Kernel.boundary_velocity 3 =
      some (ArgVal.int L.wallAxis) ∧
    bound_after b ((fixed_kernel_args L).calls s) Kernel.boundary_velocity 4 =
      some (ArgVal.int calcRho) := by
  unfold Prog.calls fixed_kernel_args
  dsimp only
  simp only [run_bind]
  simp only [run_set_args]
  simp only [after_fst, calls_error_check, bound_after_append]
  simp [bound_after, Binding.step, Binding.set]

/-- A step keeps `boundary_velocity` arguments 3 and 4 at `(wallAxis, 1)`. -/
theorem timestep_keeps_velocity_args (inp : Input) (L : Locals) (t : Int) (s : State)
    (b : Binding) (hC : inp.hostDat.ConsolePrintFreq ≠ 0)
    (h3 : b Kernel.boundary_velocity 3 = some (ArgVal.int L.wallAxis))
    (h4 : b Kernel.boundary_velocity 4 = some (ArgVal.int 1)) :
    bound_after b ((timestep inp L t).calls s) Kernel.boundary_velocity 3 =
        some (ArgVal.int L.wallAxis) ∧
    bound_after b ((timestep inp L t).calls s) Kernel.boundary_velocity 4 =
        some (ArgVal.int 1) := by
  obtain ⟨rest, hcalls, hq⟩ := timestep_calls inp L t s hC
  obtain ⟨-, -, g3, g4⟩ := front_velocity_args inp L t b
  rw [hcalls, bound_after_append, bound_after_quiet _ _ hq, g3, g4]
  by_cases hv : L.velBoundary = 0
  · rw [if_neg (not_not.mpr hv), if_neg (not_not.mpr hv)]
    exact ⟨h3, h4⟩
  · rw [if_pos hv, if_pos hv]
    exact ⟨rfl, rfl⟩

/-- After any number of iterations of the loop the two arguments are
`(wallAxis, 1)`. -/
theorem loop_keeps_velocity_args (inp : Input) (L : Locals)
    (hC : inp.hostDat.ConsolePrintFreq ≠ 0) (n : Nat) :
    ∀ (t : Int) (s : State) (b : Binding),
      b Kernel.boundary_velocity 3 = some (ArgVal.int L.wallAxis) →
      b Kernel.boundary_velocity 4 = some (ArgVal.int 1) →
      bound_after b ((time_loop inp L n t).calls s) Kernel.boundary_velocity 3 =
          some (ArgVal.int L.wallAxis) ∧
      bound_after b ((time_loop inp L n t).calls s) Kernel.boundary_velocity 4 =
          some (ArgVal.int 1) := by
  induction n with
  | zero => exact fun t s b h3 h4 => ⟨h3, h4⟩
  | succ n ih =>
    intro t s b h3 h4
    obtain ⟨k3, k4⟩ := timestep_keeps_velocity_args inp L t s b hC h3 h4
    show bound_after b ((timestep inp L t >>= fun _ => time_loop inp L n (t + 1)).calls s) _ _ = _ ∧
      bound_after b ((timestep inp L t >>= fun _ => time_loop inp L n (t + 1)).calls s) _ _ = _
    rw [calls_bind, bound_after_append]
    cases (timestep inp L t).outcome s with
    | ok a s1 => exact ih (t + 1) s1 _ k3 k4
    | halt h => exact ⟨k3, k4⟩

/-- C10: started with `boundary_velocity` arguments 3 and 4 equal to
`(wallAxis, 1)`, a step with a velocity boundary issues its primary launch with
`(wallAxis, 1)`, each tangential launch of a flagged axis `i` with `(i, 0)`,
and ends with the two arguments again `(wallAxis, 1)`; the fixed kernel
arguments establish that binding before the loop and it holds after any number
of iterations, so it holds at the start of every iteration. -/
theorem C10_velocity_boundary_arguments (inp : Input) (L : Locals) (t : Int) (s : State)
    (b : Binding) (hC : inp.hostDat.ConsolePrintFreq ≠ 0)
    (h3 : b Kernel.boundary_velocity 3 = some (ArgVal.int L.wallAxis))
    (h4 : b Kernel.boundary_velocity 4 = some (ArgVal.int 1)) :
    (L.velBoundary ≠ 0 →
      launch_arg Kernel.boundary_velocity 3 b ((timestep inp L t).calls s) =
        some (ArgVal.int L.wallAxis) ::
          (tangential_axes inp).map (fun (i : Nat) => some (ArgVal.int (i : Int))) ∧
      launch_arg Kernel.boundary_velocity 4 b ((timestep inp L t).calls s) =
        some (ArgVal.int 1) :: (tangential_axes inp).map (fun _ => some (ArgVal.int 0))) ∧
    (bound_after b ((timestep inp L t).calls s) Kernel.boundary_velocity 3 =
        some (ArgVal.int L.wallAxis) ∧
      bound_after b ((timestep inp L t).calls s) Kernel.boundary_velocity 4 =
        some (ArgVal.int 1)) ∧
    (∀ (b0 : Binding) (s0 s1 : State) (n : Nat),
      bound_after (bound_after b0 ((fixed_kernel_args L).calls s0))
          ((time_loop inp L n 1).calls s1) Kernel.boundary_velocity 3 =
        some (ArgVal.int L.wallAxis) ∧
      bound_after (bound_after b0 ((fixed_kernel_args L).calls s0))
          ((time_loop inp L n 1).calls s1) Kernel.boundary_velocity 4 =
        some (ArgVal.int 1)) := by
  obtain ⟨rest, hcalls, hq⟩ := timestep_calls inp L t s hC
  obtain ⟨f3, f4, -, -⟩ := front_velocity_args inp L t b
  refine ⟨fun hv => ?_, timestep_keeps_velocity_args inp L t s b hC h3 h4, fun b0 s0 s1 n => ?_⟩
  · rw [hcalls, launch_arg_append, launch_arg_append,
      launch_arg_quiet _ _ _ _ hq (by decide), launch_arg_quiet _ _ _ _ hq (by decide),
      List.append_nil, List.append_nil, f3, f4, if_pos hv, if_pos hv, h3, h4]
    constructor <;> rfl
  · obtain ⟨e3, e4⟩ := fixed_kernel_args_bound L s0 b0
    exact loop_keeps_velocity_args inp L hC n 1 s1 _ e3 e4

theorem C10_witness :
    (inp_tangential.hostDat.ConsolePrintFreq ≠ 0 ∧
      (locals inp_tangential).velBoundary ≠ 0 ∧
      (locals inp_tangential).wallAxis = 1 ∧
      tangential_axes inp_tangential = [0, 2]) ∧
    (launch_arg Kernel.boundary_velocity 3 (fun _ _ => some (ArgVal.int 1))
        ((timestep inp_tangential (locals inp_tangential) 1).calls all_success) =
      [some (ArgVal.int 1), some (ArgVal.int 0), some (ArgVal.int 2)] ∧
    launch_arg Kernel.boundary_velocity 4 (fun _ _ => some (ArgVal.int 1))
        ((timestep inp_tangential (locals inp_tangential) 1).calls all_success) =
      [some (ArgVal.int 1), some (ArgVal.int 0), some (ArgVal.int 0)]) ∧
    (bound_after (fun _ _ => some (ArgVal.int 1))
        ((timestep inp_tangential (locals inp_tangential) 1).calls all_success)
        Kernel.boundary_velocity 3 = some (ArgVal.int 1) ∧
    bound_after (fun _ _ => some (ArgVal.int 1))
        ((timestep inp_tangential (locals inp_tangential) 1).calls all_success)
        Kernel.boundary_velocity 4 = some (ArgVal.int 1)) :=
  ⟨⟨by decide, by decide, by decide, by decide⟩,
    (C10_velocity_boundary_arguments inp_tangential (locals inp_tangential) 1 all_success
      (fun _ _ => some (ArgVal.int 1)) (by decide) rfl rfl).1 (by decide),
    (C10_velocity_boundary_arguments inp_tangential (locals inp_tangential) 1 all_success
      (fun _ _ => some (ArgVal.int 1)) (by decide) rfl rfl).2.1⟩

/-! ## The calls of the last three phases, whatever the calls report -/

theorem all_mono {α : Type} (p q : Call → Prop) (m : Prog α) (h : ∀ c, p c → q c)
    (hm : Prog.All p m) : Prog.All q m :=
  fun s c hc => h c (hm s c hc)

theorem all_in_tail (inp : Input) (L : Locals) (t : Int) :
    Prog.All (Call.in_tail L t) (step_tail inp L t) := by
  unfold step_tail rebuild_neighbour_lists rebuild_sequence end_of_step output video_output
    shear_output clEnqueueNDRangeKernel clFinish clEnqueueReadBuffer
  refine all_bind _ _ _ ?_ (fun _ => all_bind _ _ _ ?_ (fun _ => all_bind _ _ _ ?_ (fun _ => ?_)))
  · refine all_ite _ _ _ _ ?_ (all_pure _ _)
    refine all_bind _ _ _ (all_c_mod _ _ _) (fun r => ?_)
    refine all_ite _ _ _ _ ?_ (all_pure _ _)
    refine all_bind _ _ _ (all_emit _ _ ?_) (fun e => ?_)
    · exact Or.inl rfl
    refine all_bind _ _ _ (all_error_check _ _ _ ?_) (fun _ => ?_)
    · exact Or.inr (Or.inl ⟨_, _, rfl⟩)
    refine all_bind _ _ _ (all_emits _ _ ?_) (fun _ => ?_)
    · intro c hc
      simp only [List.mem_map, List.mem_range] at hc
      obtain ⟨i, hi, rfl⟩ := hc
      exact Or.inr (Or.inr (Or.inl ⟨i, hi, rfl⟩))
    refine all_bind _ _ _ (all_emit _ _ ?_) (fun _ => ?_)
    · simp [Call.in_tail]
    refine all_bind _ _ _ (all_emit _ _ ?_) (fun _ => ?_)
    · simp [Call.in_tail]
    refine all_bind _ _ _ (all_emit _ _ ?_) (fun _ => all_pure _ _)
    simp [Call.in_tail]
  · refine all_bind _ _ _ (all_emit _ _ ?_) (fun _ => ?_)
    · simp [Call.in_tail]
    refine all_bind _ _ _ (all_emit _ _ ?_) (fun _ => all_pure _ _)
    simp [Call.in_tail]
  · refine all_bind _ _ _ (all_c_mod _ _ _) (fun rv => ?_)
    refine all_ite _ _ _ _ ?_ (all_pure _ _)
    refine all_bind _ _ _ (all_emit _ _ ?_) (fun e => ?_)
    · simp [Call.in_tail]
    refine all_bind _ _ _ (all_error_check _ _ _ ?_) (fun _ => ?_)
    · exact Or.inr (Or.inl ⟨_, _, rfl⟩)
    refine all_emits _ _ ?_
    intro c hc
    simp only [List.mem_singleton] at hc
    subst hc
    simp [Call.in_tail]
  · refine all_bind _ _ _ (all_c_mod _ _ _) (fun rs => ?_)
    refine all_ite _ _ _ _ ?_ (all_pure _ _)
    refine all_bind _ _ _ (all_emit _ _ ?_) (fun e => ?_)
    · simp [Call.in_tail]
    refine all_bind _ _ _ (all_emit _ _ ?_) (fun e => ?_)
    · simp [Call.in_tail]
    refine all_bind _ _ _ (all_error_check _ _ _ ?_) (fun _ => ?_)
    · exact Or.inr (Or.inl ⟨_, _, rfl⟩)
    refine all_emits _ _ ?_
    intro c hc
    simp only [List.mem_singleton] at hc
    subst hc
    simp [Call.in_tail]

/-- Every call of a step is one of the closed form of its front part or one
the last three phases can make. -/
theorem all_timestep (inp : Input) (L : Locals) (t : Int) :
    Prog.All (fun c => c ∈ front_calls inp L t ∨ c.in_tail L t) (timestep inp L t) := by
  intro s c hc
  by_cases h : inp.hostDat.ConsolePrintFreq = 0
  · unfold Prog.calls at hc
    have e : (timestep inp L t).run s = ([], Outcome.halt Halt.undefined_behaviour) := by
      unfold timestep print_iteration
      simp only [h, run_bind, run_c_mod_zero]
    rw [e] at hc
    simp at hc
  · unfold Prog.calls at hc
    rw [timestep_run inp L t s h] at hc
    simp only [after, List.mem_append] at hc
    rcases hc with hc | hc
    · exact Or.inl hc
    · exact Or.inr (all_in_tail inp L t _ c hc)

/-- A property of the calls of every step is a property of the calls of the loop. -/
theorem all_time_loop (p : Call → Prop) (inp : Input) (L : Locals)
    (h : ∀ t, Prog.All p (timestep inp L t)) (n : Nat) (t : Int) :
    Prog.All p (time_loop inp L n t) := by
  induction n generalizing t with
  | zero => exact all_pure _ _
  | succ n ih => exact all_bind _ _ _ (h t) (fun _ => ih (t + 1))

/-! ## Computations in which every `%` is defined -/

theorem defined_pure {α : Type} (a : α) : Prog.Defined (pure a : Prog α) := by
  intro s
  simp [Prog.outcome, run_pure, Outcome.halted]

theorem defined_emit (c : Call) : Prog.Defined (emit c) := by
  intro s
  simp [Prog.outcome, run_emit, Outcome.halted]

theorem defined_halt {α : Type} (h : Halt) (hh : h ≠ Halt.undefined_behaviour) :
    Prog.Defined (halt h : Prog α) := by
  intro s
  simp [Prog.outcome, run_halt, Outcome.halted, hh]

theorem defined_bind {α β : Type} (m : Prog α) (f : α → Prog β)
    (hm : Prog.Defined m) (hf : ∀ a, Prog.Defined (f a)) : Prog.Defined (m >>= f) := by
  intro s
  have hm1 := hm s
  unfold Prog.outcome at hm1 ⊢
  rw [run_bind]
  rcases hrun : m.run s with ⟨l, o⟩
  rw [hrun] at hm1
  cases o with
  | ok a s1 => exact hf a s1
  | halt h => exact hm1

theorem defined_ite {α : Type} (c : Prop) [Decidable c] (m1 m2 : Prog α)
    (h1 : Prog.Defined m1) (h2 : Prog.Defined m2) : Prog.Defined (if c then m1 else m2) := by
  split
  · exact h1
  · exact h2

theorem defined_emits (cs : List Call) : Prog.Defined (emits cs) := by
  intro s
  simp [Prog.outcome, run_emits, Outcome.halted]

theorem defined_c_mod (a b : Int) (h : b ≠ 0) : Prog.Defined (c_mod a b) := by
  intro s
  simp [Prog.outcome, run_c_mod_ne, h, Outcome.halted]

theorem defined_error_check (err : Int) (tag : Tag) : Prog.Defined (error_check err tag) := by
  unfold error_check
  exact defined_bind _ _ (defined_emit _) (fun _ =>
    defined_ite _ _ _ (defined_halt _ (by simp)) (defined_pure _))

theorem defined_of_runs (m : Prog Unit) (l : State → List Call) (h : ∀ s, Runs m s (l s)) :
    Prog.Defined m := by
  intro s
  rw [runs_outcome (h s)]
  simp [Outcome.halted]

theorem defined_rebuild (hostDat : host_param_struct) (L : Locals) (t : Int)
    (hR : L.usingParticles = 0 ∨ hostDat.RebuildFreq ≠ 0) :
    Prog.Defined (rebuild_neighbour_lists hostDat L t) := by
  unfold rebuild_neighbour_lists
  by_cases hp : L.usingParticles = 0
  · rw [if_neg (not_not.mpr hp)]
    exact defined_pure _
  · rw [if_pos hp]
    unfold rebuild_sequence clEnqueueNDRangeKernel clFinish
    refine defined_bind _ _ (defined_c_mod _ _ (hR.resolve_left hp)) (fun r => ?_)
    refine defined_ite _ _ _ ?_ (defined_pure _)
    refine defined_bind _ _ (defined_emit _) (fun e => ?_)
    refine defined_bind _ _ (defined_error_check _ _) (fun _ => ?_)
    refine defined_bind _ _ (defined_emits _) (fun _ => ?_)
    refine defined_bind _ _ (defined_emit _) (fun _ => ?_)
    refine defined_bind _ _ (defined_emit _) (fun _ => ?_)
    exact defined_bind _ _ (defined_emit _) (fun _ => defined_pure _)

theorem defined_video (hostDat : host_param_struct) (t : Int) (hV : hostDat.VideoFreq ≠ 0) :
    Prog.Defined (video_output hostDat t) := by
  unfold video_output clEnqueueReadBuffer
  refine defined_bind _ _ (defined_c_mod _ _ hV) (fun rv => ?_)
  refine defined_ite _ _ _ ?_ (defined_pure _)
  refine defined_bind _ _ (defined_emit _) (fun e => ?_)
  exact defined_bind _ _ (defined_error_check _ _) (fun _ => defined_emits _)

theorem defined_shear (hostDat : host_param_struct) (t : Int)
    (hS : hostDat.ShearStressFreq ≠ 0) : Prog.Defined (shear_output hostDat t) := by
  unfold shear_output clEnqueueReadBuffer
  refine defined_bind _ _ (defined_c_mod _ _ hS) (fun rs => ?_)
  refine defined_ite _ _ _ ?_ (defined_pure _)
  refine defined_bind _ _ (defined_emit _) (fun e => ?_)
  refine defined_bind _ _ (defined_emit _) (fun e => ?_)
  exact defined_bind _ _ (defined_error_check _ _) (fun _ => defined_emits _)

theorem defined_timestep (inp : Input) (L : Locals) (t : Int)
    (hC : inp.hostDat.ConsolePrintFreq ≠ 0)
    (hR : L.usingParticles = 0 ∨ inp.hostDat.RebuildFreq ≠ 0)
    (hV : inp.hostDat.VideoFreq ≠ 0) (hS : inp.hostDat.ShearStressFreq ≠ 0) :
    Prog.Defined (timestep inp L t) := by
  unfold timestep output
  refine defined_bind _ _ (defined_of_runs _ _ (fun s => runs_print inp.hostDat t s hC)) (fun _ => ?_)
  refine defined_bind _ _ (defined_of_runs _ _ (fun s => runs_switch t s)) (fun _ => ?_)
  refine defined_bind _ _ (defined_of_runs _ _ (fun s => runs_collide L s)) (fun _ => ?_)
  refine defined_bind _ _ (defined_of_runs _ _ (fun s => runs_particle_update L s)) (fun _ => ?_)
  refine defined_bind _ _ (defined_of_runs _ _ (fun s => runs_periodic L s)) (fun _ => ?_)
  refine defined_bind _ _ (defined_of_runs _ _ (fun s => runs_velocity inp L s)) (fun _ => ?_)
  refine defined_bind _ _ (defined_of_runs _ _ (fun s => runs_particle_fluid L s)) (fun _ => ?_)
  refine defined_bind _ _ (defined_rebuild inp.hostDat L t hR) (fun _ => ?_)
  refine defined_bind _ _ (defined_of_runs _ _ (fun s => runs_end L s)) (fun _ => ?_)
  exact defined_bind _ _ (defined_video inp.hostDat t hV) (fun _ => defined_shear inp.hostDat t hS)

theorem defined_time_loop (inp : Input) (L : Locals) (n : Nat) (t : Int)
    (hC : inp.hostDat.ConsolePrintFreq ≠ 0)
    (hR : L.usingParticles = 0 ∨ inp.hostDat.RebuildFreq ≠ 0)
    (hV : inp.hostDat.VideoFreq ≠ 0) (hS : inp.hostDat.ShearStressFreq ≠ 0) :
    Prog.Defined (time_loop inp L n t) := by
  induction n generalizing t with
  | zero => exact defined_pure _
  | succ n ih => exact defined_bind _ _ (defined_timestep inp L t hC hR hV hS) (fun _ => ih (t + 1))

theorem usingParticles_eq_zero (inp : Input) :
    (locals inp).usingParticles = 0 ↔ inp.intDat.NumParticles ≤ 0 := by
  unfold locals
  by_cases h : inp.intDat.NumParticles > 0 <;> simp [h]
  omega

/-! ## Steps in which a `%` has divisor zero -/

theorem runs_video (hostDat : host_param_struct) (t : Int) (s : State)
    (hV : hostDat.VideoFreq ≠ 0) (hs : s.checked_ok) :
    ∃ l, Runs (video_output hostDat t) s l := by
  unfold Runs video_output
  have h1 : ∀ n, s.status n (Call.clEnqueueReadBuffer Queue.GPU Mem.u_cl HostArr.u_h) = 0 :=
    fun n => hs n _ rfl
  by_cases hv : t.tmod hostDat.VideoFreq = 0
  · refine ⟨[Call.clEnqueueReadBuffer Queue.GPU Mem.u_cl HostArr.u_h,
      Call.error_check CL_SUCCESS Tag.clEnqueueReadBuffer_Video,
      Call.continuous_output HostArr.u_h HostArr.parKin_h t], ?_⟩
    simp [run_bind, run_c_mod_ne, hV, hv, h1, run_clEnqueueReadBuffer,
      run_error_check_ok, run_emits, after_mk, State.tick_tick, CL_SUCCESS]
  · refine ⟨[], ?_⟩
    simp [run_bind, run_c_mod_ne, hV, hv, run_pure, after_mk, State.tick_zero]

theorem tail_video_undefined (inp : Input) (L : Locals) (t : Int) (s : State)
    (hR : L.usingParticles = 0 ∨ inp.hostDat.RebuildFreq ≠ 0) (hs : s.checked_ok)
    (hV : inp.hostDat.VideoFreq = 0) :
    ((step_tail inp L t).run s).2 = Outcome.halt Halt.undefined_behaviour := by
  unfold step_tail output video_output
  rw [runs_run_bind (runs_rebuild inp.hostDat L t s hR hs), runs_run_bind (runs_end L _)]
  simp only [hV, run_bind, run_c_mod_zero, after]

theorem tail_shear_undefined (inp : Input) (L : Locals) (t : Int) (s : State)
    (hR : L.usingParticles = 0 ∨ inp.hostDat.RebuildFreq ≠ 0) (hs : s.checked_ok)
    (hV : inp.hostDat.VideoFreq ≠ 0) (hS : inp.hostDat.ShearStressFreq = 0) :
    ((step_tail inp L t).run s).2 = Outcome.halt Halt.undefined_behaviour := by
  unfold step_tail output
  rw [runs_run_bind (runs_rebuild inp.hostDat L t s hR hs), runs_run_bind (runs_end L _)]
  obtain ⟨l, hl⟩ := runs_video inp.hostDat t
    (((s.tick (rebuild_calls inp.hostDat L t).length).tick end_calls.length)) hV
    (State.checked_ok_tick (State.checked_ok_tick hs _) _)
  rw [runs_run_bind hl]
  unfold shear_output
  simp only [hS, run_bind, run_c_mod_zero, after]

theorem tail_rebuild_undefined (inp : Input) (L : Locals) (t : Int) (s : State)
    (hP : L.usingParticles ≠ 0) (hR : inp.hostDat.RebuildFreq = 0) :
    ((step_tail inp L t).run s).2 = Outcome.halt Halt.undefined_behaviour := by
  unfold step_tail rebuild_neighbour_lists
  rw [if_pos hP]
  simp only [hR, run_bind, run_c_mod_zero]

/-! ## Host arrays overwritten by a step -/

theorem front_host_writes (inp : Input) (L : Locals) (t : Int) :
    ∀ c ∈ front_calls inp L t, c.host_writes = [] := by
  unfold front_calls
  simp only [List.forall_mem_append]
  refine ⟨?_, ?_, ?_, ?_, ?_, ?_, ?_⟩
  · unfold print_calls; split <;> simp [Call.host_writes]
  · unfold switch_calls; split <;> simp [Call.host_writes]
  · unfold collide_calls; simp [Call.host_writes]
  · unfold particle_update_calls; split <;> simp [Call.host_writes]
  · unfold periodic_calls; simp [Call.host_writes]
  · have ht : ∀ i, ∀ c ∈ tangential_calls inp i, c.host_writes = [] := by
      intro i
      unfold tangential_calls tangential_launch
      split <;> simp [Call.host_writes]
    unfold velocity_calls
    split
    · simp only [List.forall_mem_cons, List.forall_mem_append]
      exact ⟨rfl, ht 0, ht 1, ht 2, by simp [Call.host_writes]⟩
    · simp
  · unfold particle_fluid_calls; split <;> simp [Call.host_writes]

theorem in_tail_host_writes (L : Locals) (t : Int) (c : Call) (h : c.in_tail L t) :
    ∀ a ∈ c.host_writes,
      a = HostArr.u_h ∨ a = HostArr.tau_lb_h ∨ a = HostArr.numParInZone_h := by
  rcases h with h | ⟨e, tag, h⟩ | ⟨i, _, h⟩ | h | h | h | h | h | h | h | h <;>
  subst h <;> simp [Call.host_writes, output_writes]

theorem in_tail_handed (L : Locals) (t : Int) (c : Call) (h : c.in_tail L t)
    (u p : HostArr) (t1 : Int) (hc : c = Call.continuous_output u p t1) :
    u = HostArr.u_h ∧ p = HostArr.parKin_h ∧ t1 = t := by
  subst hc
  rcases h with h | ⟨e, tag, h⟩ | ⟨i, _, h⟩ | h | h | h | h | h | h | h | h <;>
  simp at h
  exact h

theorem front_no_output (inp : Input) (L : Locals) (t : Int) :
    ∀ c ∈ front_calls inp L t, c.is_output = false := by
  unfold front_calls
  simp only [List.forall_mem_append]
  refine ⟨?_, ?_, ?_, ?_, ?_, ?_, ?_⟩
  · unfold print_calls; split <;> simp [Call.is_output]
  · unfold switch_calls; split <;> simp [Call.is_output]
  · unfold collide_calls; simp [Call.is_output]
  · unfold particle_update_calls; split <;> simp [Call.is_output]
  · unfold periodic_calls; simp [Call.is_output]
  · have ht : ∀ i, ∀ c ∈ tangential_calls inp i, c.is_output = false := by
      intro i
      unfold tangential_calls tangential_launch
      split <;> simp [Call.is_output]
    unfold velocity_calls
    split
    · simp only [List.forall_mem_cons, List.forall_mem_append]
      exact ⟨rfl, ht 0, ht 1, ht 2, by simp [Call.is_output]⟩
    · simp
  · unfold particle_fluid_calls; split <;> simp [Call.is_output]

/-- The `continuous_output` calls of step `t` are handed `u_h`, `parKin_h` and `t`. -/
theorem all_handed (inp : Input) (L : Locals) (t : Int) :
    Prog.All (fun c => ∀ u p t1, c = Call.continuous_output u p t1 →
      u = HostArr.u_h ∧ p = HostArr.parKin_h ∧ t1 = t) (timestep inp L t) := by
  intro s c hc u p t1 he
  rcases all_timestep inp L t s c hc with hf | ht
  · have := front_no_output inp L t c hf
    rw [he] at this
    simp [Call.is_output] at this
  · exact in_tail_handed L t c ht u p t1 he

theorem all_host_writes (inp : Input) (L : Locals) (t : Int) :
    Prog.All (fun c => ∀ a ∈ c.host_writes,
      a = HostArr.u_h ∨ a = HostArr.tau_lb_h ∨ a = HostArr.numParInZone_h)
      (timestep inp L t) := by
  intro s c hc a ha
  rcases all_timestep inp L t s c hc with hf | ht
  · rw [front_host_writes inp L t c hf] at ha
    simp at ha
  · exact in_tail_host_writes L t c ht a ha

/-! ## The per-zone counts along a run of calls -/

theorem zone_after_append (z : ZoneCounts) (l1 l2 : List Call) :
    z.after (l1 ++ l2) = (z.after l1).after l2 := by
  induction l1 generalizing z with
  | nil => rfl
  | cons c l1 ih => exact ih (z.step c)

theorem zone_step_other (z : ZoneCounts) (c : Call) (h : c.rebuild_op = false) :
    z.step c = z := by
  unfold ZoneCounts.step
  split <;> first | rfl | simp [Call.rebuild_op] at h

theorem zone_after_other (z : ZoneCounts) (l : List Call) (h : ∀ c ∈ l, c.rebuild_op = false) :
    z.after l = z := by
  induction l generalizing z with
  | nil => rfl
  | cons c l ih =>
    show (z.step c).after l = z
    rw [zone_step_other z c (h c (List.mem_cons_self _ _))]
    exact ih z (fun d hd => h d (List.mem_cons_of_mem _ hd))

theorem zone_after_stores (z : ZoneCounts) (l : List Nat) :
    (z.after (l.map fun i => Call.host_store HostArr.numParInZone_h i 0)).mapped = z.mapped ∧
    ∀ j, (z.after (l.map fun i => Call.host_store HostArr.numParInZone_h i 0)).zero j =
      (decide (j ∈ l) || z.zero j) := by
  induction l generalizing z with
  | nil => simp [ZoneCounts.after]
  | cons i l ih =>
    simp only [List.map_cons, ZoneCounts.after]
    obtain ⟨h1, h2⟩ := ih (z.step (Call.host_store HostArr.numParInZone_h i 0))
    refine ⟨h1, fun j => ?_⟩
    rw [h2 j]
    by_cases hj : j = i
    · subst hj
      simp [ZoneCounts.step]
    · by_cases hl : j ∈ l <;> simp [ZoneCounts.step, hj, hl]

theorem size_t_of_int (x : Int) (h1 : 0 ≤ x) (h2 : x ≤ INT_MAX) : size_t x = x.toNat := by
  unfold size_t
  unfold INT_MAX at h2
  rw [Int.emod_eq_of_lt (by omega) (by omega)]

/-- C4: with a positive rebuild interval, the rebuild sequence (map and reset
of the per-zone counts, unmap, launch of `update_particle_zones`, drain of the
CPU queue) is part of step `t` exactly when particles are present and `t` is a
multiple of the interval: the step launches `update_particle_zones` once at
such a step and not at all otherwise, and where the products of `NumZones`
and of `DomainDecomp` are non-negative `int` values (so that `totalNumZones`
and `numParThreads` are those products) the calls of the step contain the
whole block; at every other step no map, reset, unmap or
`update_particle_zones` launch is made and the CPU queue is drained only at the
barriers (one more drain at a rebuild step); a run whose output phases are
defined makes `MaxIterations / RebuildFreq` rebuilds. -/
theorem C4_rebuild_schedule (inp : Input) (t : Int) (s : State)
    (hR : 0 < inp.hostDat.RebuildFreq)
    (hC : inp.hostDat.ConsolePrintFreq ≠ 0)
    (hs : s.checked_ok) :
    (inp.intDat.NumParticles > 0 ∧ t % inp.hostDat.RebuildFreq = 0 →
      (0 ≤ inp.intDat.NumZones.a0 * inp.intDat.NumZones.a1 * inp.intDat.NumZones.a2 ∧
        inp.intDat.NumZones.a0 * inp.intDat.NumZones.a1 * inp.intDat.NumZones.a2 ≤ INT_MAX) →
      (0 ≤ inp.hostDat.DomainDecomp.a0 * inp.hostDat.DomainDecomp.a1 *
          inp.hostDat.DomainDecomp.a2 ∧
        inp.hostDat.DomainDecomp.a0 * inp.hostDat.DomainDecomp.a1 *
          inp.hostDat.DomainDecomp.a2 ≤ INT_MAX) →
      (locals inp).totalNumZones =
        (inp.intDat.NumZones.a0 * inp.intDat.NumZones.a1 * inp.intDat.NumZones.a2).toNat ∧
      (locals inp).numParThreads =
        (inp.hostDat.DomainDecomp.a0 * inp.hostDat.DomainDecomp.a1 *
          inp.hostDat.DomainDecomp.a2).toNat ∧
      ∃ pre post,
        (timestep inp (locals inp) t).calls s = pre ++ (rebuild_block (locals inp) ++ post) ∧
        (∀ c ∈ pre, c.rebuild_op = false) ∧ (∀ c ∈ post, c.rebuild_op = false)) ∧
    List.count (Sync.launch Kernel.update_particle_zones)
        (skeleton ((timestep inp (locals inp) t).calls s)) =
      (if inp.intDat.NumParticles > 0 ∧ t % inp.hostDat.RebuildFreq = 0 then 1 else 0) ∧
    (¬ (inp.intDat.NumParticles > 0 ∧ t % inp.hostDat.RebuildFreq = 0) →
      ∀ c ∈ (timestep inp (locals inp) t).calls s, c.rebuild_op = false) ∧
    List.count (Sync.finish Queue.CPU) (skeleton ((timestep inp (locals inp) t).calls s)) =
      (if inp.intDat.NumParticles > 0 then 3 else 2) +
      (if inp.intDat.NumParticles > 0 ∧ t % inp.hostDat.RebuildFreq = 0 then 1 else 0) ∧
    (inp.intDat.NumParticles > 0 →
      inp.hostDat.VideoFreq ≠ 0 → inp.hostDat.ShearStressFreq ≠ 0 →
      List.count (Sync.launch Kernel.update_particle_zones)
          (skeleton ((time_loop inp (locals inp) inp.intDat.MaxIterations.toNat 1).calls s)) =
        inp.intDat.MaxIterations.toNat / inp.hostDat.RebuildFreq.toNat) := by
  have hR0 : inp.hostDat.RebuildFreq ≠ 0 := ne_of_gt hR
  have hR1 : (locals inp).usingParticles = 0 ∨ inp.hostDat.RebuildFreq ≠ 0 := Or.inr hR0
  obtain ⟨rest, hcalls, hrest⟩ := timestep_calls_output inp (locals inp) t s hC hR1 hs
  have hpost : ∀ c ∈ end_calls ++ rest, c.rebuild_op = false := by
    rw [List.forall_mem_append]
    exact ⟨end_no_rebuild_op, fun c hc => is_output_rebuild_op c (hrest c hc)⟩
  refine ⟨?_, ?_, ?_, ?_, ?_⟩
  · rintro ⟨hp, ht⟩ hZ hD
    refine ⟨size_t_of_int _ hZ.1 hZ.2, size_t_of_int _ hD.1 hD.2,
      front_calls inp (locals inp) t, end_calls ++ rest, ?_,
      front_no_rebuild_op inp (locals inp) t, hpost⟩
    rw [hcalls, rebuild_calls,
      if_pos ⟨(usingParticles_ne_zero inp).mpr hp, (tmod_eq_zero_iff _ _).mpr ht⟩]
  · rw [timestep_rebuild_launches inp (locals inp) t s hC hR1 hs]
    simp only [usingParticles_ne_zero]
  · intro hn
    have hno : rebuild_calls inp.hostDat (locals inp) t = [] := by
      rw [rebuild_calls, if_neg]
      rintro ⟨h1, h2⟩
      exact hn ⟨(usingParticles_ne_zero inp).mp h1, (tmod_eq_zero_iff _ _).mp h2⟩
    rw [hcalls, hno, List.nil_append, List.forall_mem_append]
    exact ⟨front_no_rebuild_op inp (locals inp) t, hpost⟩
  · rw [timestep_cpu_drains inp (locals inp) t s hC hR1 hs]
    simp only [usingParticles_ne_zero]
  · intro hp hV hS
    have hu := (usingParticles_ne_zero inp).mpr hp
    rw [runs_calls (runs_time_loop inp (locals inp) _ 1 s hC hR1 hV hS hs)]
    exact loop_rebuild_count inp (locals inp) _ _ hu (Int.toNat_of_nonneg (le_of_lt hR)).symm

theorem C4_witness :
    0 < inp_particle.hostDat.RebuildFreq ∧
    (List.count (Sync.launch Kernel.update_particle_zones)
        (skeleton ((timestep inp_particle (locals inp_particle) 5).calls all_success)) = 1 ∧
      List.count (Sync.launch Kernel.update_particle_zones)
        (skeleton ((timestep inp_particle (locals inp_particle) 6).calls all_success)) = 0) ∧
    List.count (Sync.launch Kernel.update_particle_zones)
        (skeleton ((time_loop inp_particle (locals inp_particle) 20 1).calls all_success)) =
      4 :=
  ⟨by decide,
    ⟨(C4_rebuild_schedule inp_particle 5 all_success (by decide) (by decide)
      (fun _ _ _ => rfl)).2.1,
     (C4_rebuild_schedule inp_particle 6 all_success (by decide) (by decide)
      (fun _ _ _ => rfl)).2.1⟩,
    (C4_rebuild_schedule inp_particle 5 all_success (by decide) (by decide)
      (fun _ _ _ => rfl)).2.2.2.2 (by decide) (by decide) (by decide)⟩

/-! ## The index space of the interior kernels -/

theorem global_work_size_eq (intDat : int_param_struct) :
    (kernel_range_settings intDat).global_work_size =
      [size_t (intDat.LatticeSize.a0 - 2), size_t (intDat.LatticeSize.a1 - 2),
       size_t (intDat.LatticeSize.a2 - 2)] := by
  unfold kernel_range_settings
  simp only [List.foldl_cons, List.foldl_nil]
  unfold kernel_range_dim
  by_cases h0 : intDat.BoundaryConds.a0 = 1 <;>
  by_cases h1 : intDat.BoundaryConds.a1 = 1 <;>
  by_cases h2 : intDat.BoundaryConds.a2 = 1 <;>
  simp [h0, h1, h2, Int3.idx]

theorem size_t_sub_two (x : Int) (h1 : 2 ≤ x) (h2 : x ≤ INT_MAX) :
    size_t (x - 2) = (x - 2).toNat := by
  unfold size_t
  unfold INT_MAX at h2
  rw [Int.emod_eq_of_lt (by omega) (by omega)]

theorem front_interior (inp : Input) (L : Locals) (t : Int) :
    ∀ c ∈ front_calls inp L t, c.interior_launch = true →
      ∃ k, c = Call.clEnqueueNDRangeKernel Queue.GPU k 3 (some [1, 1, 1])
        L.global_work_size none := by
  unfold front_calls
  simp only [List.forall_mem_append]
  refine ⟨?_, ?_, ?_, ?_, ?_, ?_, ?_⟩
  · unfold print_calls; split <;> simp [Call.interior_launch, Call.launched]
  · unfold switch_calls; split <;> simp [Call.interior_launch, Call.launched]
  · unfold collide_calls; simp [Call.interior_launch, Call.launched, lattice_work_offset]
  · unfold particle_update_calls
    split <;> simp [Call.interior_launch, Call.launched, lattice_work_offset]
  · unfold periodic_calls; simp [Call.interior_launch, Call.launched, Kernel.interior]
  · have ht : ∀ i, ∀ c ∈ tangential_calls inp i, c.interior_launch = false := by
      intro i
      unfold tangential_calls tangential_launch
      split <;> simp [Call.interior_launch, Call.launched, Kernel.interior]
    unfold velocity_calls
    split
    · simp only [List.forall_mem_cons, List.forall_mem_append]
      refine ⟨?_, ?_, ?_, ?_, ?_⟩
      · simp [Call.interior_launch, Call.launched, Kernel.interior]
      · intro c hc h; rw [ht 0 c hc] at h; exact absurd h (by decide)
      · intro c hc h; rw [ht 1 c hc] at h; exact absurd h (by decide)
      · intro c hc h; rw [ht 2 c hc] at h; exact absurd h (by decide)
      · simp [Call.interior_launch, Call.launched]
    · simp
  · unfold particle_fluid_calls
    split <;> simp [Call.interior_launch, Call.launched, Kernel.interior, lattice_work_offset]

theorem in_tail_not_interior (L : Locals) (t : Int) (c : Call) (h : c.in_tail L t) :
    c.interior_launch = false := by
  rcases h with h | ⟨e, tag, h⟩ | ⟨i, _, h⟩ | h | h | h | h | h | h | h | h <;>
  subst h <;> rfl

theorem collide_mem_front (inp : Input) (L : Locals) (t : Int) :
    Call.clEnqueueNDRangeKernel Queue.GPU Kernel.collide_stream 3 (some [1, 1, 1])
      L.global_work_size none ∈ front_calls inp L t := by
  unfold front_calls collide_calls lattice_work_offset
  simp

theorem particle_launches_mem_front (inp : Input) (L : Locals) (t : Int)
    (h : L.usingParticles ≠ 0) :
    Call.clEnqueueNDRangeKernel Queue.GPU Kernel.reset_particle_fluid_forces 3 (some [1, 1, 1])
      L.global_work_size none ∈ front_calls inp L t ∧
    Call.clEnqueueNDRangeKernel Queue.GPU Kernel.sum_particle_fluid_forces 3 (some [1, 1, 1])
      L.global_work_size none ∈ front_calls inp L t := by
  unfold front_calls particle_update_calls particle_fluid_calls lattice_work_offset
  simp [h]

theorem front_mem_timestep (inp : Input) (L : Locals) (t : Int) (s : State)
    (hC : inp.hostDat.ConsolePrintFreq ≠ 0) (c : Call) (hc : c ∈ front_calls inp L t) :
    c ∈ (timestep inp L t).calls s := by
  unfold Prog.calls
  rw [timestep_run inp L t s hC]
  simp only [after, List.mem_append]
  exact Or.inl hc

/-- C11: on a lattice whose extents are at least 2 (and within `int`), every
launch of `collide_stream`, `reset_particle_fluid_forces` and
`sum_particle_fluid_forces` made by a step is the 3D launch on the GPU queue
with global offset (1,1,1) and extents (Lx-2, Ly-2, Lz-2); every id `i` it
dispatches on axis `d` has `1 ≤ i ≤ L_d - 2`, so neither 0 nor `L_d - 1` is
dispatched.  The extents do not change with the boundary-condition flags.  A
step that gets past its first `%` launches `collide_stream` so, and with
particles also the other two kernels. -/
theorem C11_interior_index_space (inp : Input) (t : Int) (s : State)
    (h0 : 2 ≤ inp.intDat.LatticeSize.a0 ∧ inp.intDat.LatticeSize.a0 ≤ INT_MAX)
    (h1 : 2 ≤ inp.intDat.LatticeSize.a1 ∧ inp.intDat.LatticeSize.a1 ≤ INT_MAX)
    (h2 : 2 ≤ inp.intDat.LatticeSize.a2 ∧ inp.intDat.LatticeSize.a2 ≤ INT_MAX) :
    (∀ c ∈ (timestep inp (locals inp) t).calls s, c.interior_launch = true →
      (∃ k, c = Call.clEnqueueNDRangeKernel Queue.GPU k 3 (some [1, 1, 1])
        [(inp.intDat.LatticeSize.a0 - 2).toNat, (inp.intDat.LatticeSize.a1 - 2).toNat,
         (inp.intDat.LatticeSize.a2 - 2).toNat] none) ∧
      ∀ d, d < 3 → ∀ i ∈ c.dispatched_ids d,
        1 ≤ i ∧ (i : Int) ≤ inp.intDat.LatticeSize.idx d - 2 ∧
          i ≠ 0 ∧ (i : Int) ≠ inp.intDat.LatticeSize.idx d - 1) ∧
    (∀ bc : Int3,
      (locals { inp with intDat := { inp.intDat with BoundaryConds := bc } }).global_work_size =
        (locals inp).global_work_size) ∧
    (inp.hostDat.ConsolePrintFreq ≠ 0 →
      Call.clEnqueueNDRangeKernel Queue.GPU Kernel.collide_stream 3 (some [1, 1, 1])
        [(inp.intDat.LatticeSize.a0 - 2).toNat, (inp.intDat.LatticeSize.a1 - 2).toNat,
         (inp.intDat.LatticeSize.a2 - 2).toNat] none ∈ (timestep inp (locals inp) t).calls s) ∧
    (inp.hostDat.ConsolePrintFreq ≠ 0 → inp.intDat.NumParticles > 0 →
      Call.clEnqueueNDRangeKernel Queue.GPU Kernel.reset_particle_fluid_forces 3 (some [1, 1, 1])
        [(inp.intDat.LatticeSize.a0 - 2).toNat, (inp.intDat.LatticeSize.a1 - 2).toNat,
         (inp.intDat.LatticeSize.a2 - 2).toNat] none ∈ (timestep inp (locals inp) t).calls s ∧
      Call.clEnqueueNDRangeKernel Queue.GPU Kernel.sum_particle_fluid_forces 3 (some [1, 1, 1])
        [(inp.intDat.LatticeSize.a0 - 2).toNat, (inp.intDat.LatticeSize.a1 - 2).toNat,
         (inp.intDat.LatticeSize.a2 - 2).toNat] none ∈ (timestep inp (locals inp) t).calls s) := by
  have hg : (locals inp).global_work_size =
      [(inp.intDat.LatticeSize.a0 - 2).toNat, (inp.intDat.LatticeSize.a1 - 2).toNat,
       (inp.intDat.LatticeSize.a2 - 2).toNat] := by
    show (kernel_range_settings inp.intDat).global_work_size = _
    rw [global_work_size_eq, size_t_sub_two _ h0.1 h0.2, size_t_sub_two _ h1.1 h1.2,
      size_t_sub_two _ h2.1 h2.2]
  refine ⟨?_, ?_, ?_, ?_⟩
  · intro c hc hi
    have hk : ∃ k, c = Call.clEnqueueNDRangeKernel Queue.GPU k 3 (some [1, 1, 1])
        (locals inp).global_work_size none := by
      rcases all_timestep inp (locals inp) t s c hc with hf | ht
      · exact front_interior inp (locals inp) t c hf hi
      · rw [in_tail_not_interior _ _ _ ht] at hi
        exact absurd hi (by decide)
    rw [hg] at hk
    refine ⟨hk, ?_⟩
    obtain ⟨k, rfl⟩ := hk
    intro d hd i hmem
    have h0a := h0.1
    have h1a := h1.1
    have h2a := h2.1
    interval_cases d <;>
    · simp only [Call.dispatched_ids, Option.getD_some, List.getD_cons_zero,
        List.getD_cons_succ, List.mem_range', Int3.idx] at hmem ⊢
      obtain ⟨j, hj, rfl⟩ := hmem
      omega
  · intro bc
    show (kernel_range_settings _).global_work_size = (kernel_range_settings _).global_work_size
    rw [global_work_size_eq, global_work_size_eq]
  · intro hC
    rw [← hg]
    exact front_mem_timestep inp _ t s hC _ (collide_mem_front inp _ t)
  · intro hC hP
    rw [← hg]
    have hu := (usingParticles_ne_zero inp).mpr hP
    exact ⟨front_mem_timestep inp _ t s hC _ (particle_launches_mem_front inp _ t hu).1,
      front_mem_timestep inp _ t s hC _ (particle_launches_mem_front inp _ t hu).2⟩

theorem C11_witness :
    (2 ≤ inp_particle.intDat.LatticeSize.a0 ∧ inp_particle.intDat.LatticeSize.a0 ≤ INT_MAX) ∧
    Call.clEnqueueNDRangeKernel Queue.GPU Kernel.collide_stream 3 (some [1, 1, 1])
      [8, 8, 8] none ∈ (timestep inp_particle (locals inp_particle) 1).calls all_success ∧
    Call.clEnqueueNDRangeKernel Queue.GPU Kernel.reset_particle_fluid_forces 3 (some [1, 1, 1])
      [8, 8, 8] none ∈ (timestep inp_particle (locals inp_particle) 1).calls all_success ∧
    Call.clEnqueueNDRangeKernel Queue.GPU Kernel.sum_particle_fluid_forces 3 (some [1, 1, 1])
      [8, 8, 8] none ∈ (timestep inp_particle (locals inp_particle) 1).calls all_success :=
  ⟨by decide,
    (C11_interior_index_space inp_particle 1 all_success (by decide) (by decide)
      (by decide)).2.2.1 (by decide),
    (C11_interior_index_space inp_particle 1 all_success (by decide) (by decide)
      (by decide)).2.2.2 (by decide) (by decide)⟩

/-! ## The selector of the velocity boundary -/

theorem front_no_velocity_launch (inp : Input) (L : Locals) (t : Int)
    (hv : L.velBoundary = 0) :
    ∀ c ∈ front_calls inp L t, c.launched ≠ some Kernel.boundary_velocity := by
  unfold front_calls
  simp only [List.forall_mem_append]
  refine ⟨?_, ?_, ?_, ?_, ?_, ?_, ?_⟩
  · unfold print_calls; split <;> simp [Call.launched]
  · unfold switch_calls; split <;> simp [Call.launched]
  · unfold collide_calls; simp [Call.launched]
  · unfold particle_update_calls; split <;> simp [Call.launched]
  · unfold periodic_calls; simp [Call.launched]
  · unfold velocity_calls; simp [hv]
  · unfold particle_fluid_calls; split <;> simp [Call.launched]

theorem in_tail_no_velocity_launch (L : Locals) (t : Int) (c : Call) (h : c.in_tail L t) :
    c.launched ≠ some Kernel.boundary_velocity := by
  rcases h with h | ⟨e, tag, h⟩ | ⟨i, _, h⟩ | h | h | h | h | h | h | h | h <;>
  subst h <;> simp [Call.launched]

theorem velocity_launch_mem_front (inp : Input) (L : Locals) (t : Int)
    (hv : L.velBoundary ≠ 0) :
    Call.clEnqueueNDRangeKernel Queue.GPU Kernel.boundary_velocity 3 (some [1, 1, 1])
      L.velBC_work_size none ∈ front_calls inp L t := by
  unfold front_calls velocity_calls lattice_work_offset
  simp [hv]

/-- The kernel-range settings when no axis carries selector 1. -/
theorem kernel_range_no_selector (intDat : int_param_struct)
    (h : ∀ e, e < 3 → intDat.BoundaryConds.idx e ≠ 1) :
    (kernel_range_settings intDat).velBoundary = 0 := by
  have h0 : intDat.BoundaryConds.a0 ≠ 1 := h 0 (by decide)
  have h1 : intDat.BoundaryConds.a1 ≠ 1 := h 1 (by decide)
  have h2 : intDat.BoundaryConds.a2 ≠ 1 := h 2 (by decide)
  unfold kernel_range_settings
  simp only [List.foldl_cons, List.foldl_nil]
  unfold kernel_range_dim
  simp [h0, h1, h2, Int3.idx]

/-- The kernel-range settings when axis `d` alone carries selector 1. -/
theorem kernel_range_one_selector (intDat : int_param_struct) (d : Nat) (hd : d < 3)
    (hsel : intDat.BoundaryConds.idx d = 1)
    (hoth : ∀ e, e < 3 → e ≠ d → intDat.BoundaryConds.idx e ≠ 1) :
    (kernel_range_settings intDat).velBoundary = 1 ∧
    (kernel_range_settings intDat).wallAxis = d ∧
    (kernel_range_settings intDat).velBC_work_size =
      [size_t (intDat.LatticeSize.a0 - 2), size_t (intDat.LatticeSize.a1 - 2),
       size_t (intDat.LatticeSize.a2 - 2)].set d 2 := by
  unfold kernel_range_settings
  simp only [List.foldl_cons, List.foldl_nil]
  unfold kernel_range_dim
  interval_cases d
  · have h0 : intDat.BoundaryConds.a0 = 1 := hsel
    have h1 : intDat.BoundaryConds.a1 ≠ 1 := hoth 1 (by decide) (by decide)
    have h2 : intDat.BoundaryConds.a2 ≠ 1 := hoth 2 (by decide) (by decide)
    simp [h0, h1, h2, Int3.idx]
  · have h0 : intDat.BoundaryConds.a0 ≠ 1 := hoth 0 (by decide) (by decide)
    have h1 : intDat.BoundaryConds.a1 = 1 := hsel
    have h2 : intDat.BoundaryConds.a2 ≠ 1 := hoth 2 (by decide) (by decide)
    simp [h0, h1, h2, Int3.idx]
  · have h0 : intDat.BoundaryConds.a0 ≠ 1 := hoth 0 (by decide) (by decide)
    have h1 : intDat.BoundaryConds.a1 ≠ 1 := hoth 1 (by decide) (by decide)
    have h2 : intDat.BoundaryConds.a2 = 1 := hsel
    simp [h0, h1, h2, Int3.idx]

/-- C9 (as stated, refuted): on a 10x10x10 lattice whose x axis alone carries
the third selector (2, `BC_VELOCITY` of the header) the kernel-range setup
leaves `velBoundary = 0` and `wallAxis = 0`, and step 1 launches no
`boundary_velocity`; with selector 1 on the x axis the pass is enabled with
`wallAxis = 0` and a slab of thickness 2 along x whose extent on the other
two axes is 8, the interior extent, not the lattice extent 10. -/
theorem C9_counterexample :
    (inp_velocity.intDat.LatticeSize = ⟨10, 10, 10⟩ ∧
      inp_velocity.intDat.BoundaryConds = ⟨2, 0, 0⟩ ∧
      BC_VELOCITY = 2) ∧
    kernel_range_settings inp_velocity.intDat =
      { global_work_size := [8, 8, 8], velBC_work_size := [8, 8, 8],
        wallAxis := 0, velBoundary := 0 } ∧
    skeleton ((timestep inp_velocity (locals inp_velocity) 1).calls all_success) =
      [Sync.launch Kernel.collide_stream, Sync.launch Kernel.boundary_periodic,
       Sync.finish Queue.GPU, Sync.finish Queue.CPU,
       Sync.finish Queue.GPU, Sync.finish Queue.CPU] ∧
    inp_wall.intDat.BoundaryConds = ⟨1, 0, 0⟩ ∧
    kernel_range_settings inp_wall.intDat =
      { global_work_size := [8, 8, 8], velBC_work_size := [2, 8, 8],
        wallAxis := 0, velBoundary := 1 } := by
  decide

/-- C9 (amended): on a lattice whose extents are at least 2 (and within
`int`), when axis `d` alone carries selector 1 the kernel-range setup enables
the velocity-boundary pass (`velBoundary = 1`), selects `wallAxis = d` and
gives `boundary_velocity` the work size 2 along `d` and `L_e - 2` on the
other two axes; a step that gets past its first `%` launches
`boundary_velocity` on the GPU queue in 3D with global offset (1,1,1) and
that work size.  When no axis carries selector 1 (whatever else the
selectors are, 2 included) the pass is disabled and no step launches
`boundary_velocity`. -/
theorem C9_velocity_boundary_selector (inp : Input) (d : Nat) (t : Int) (s : State)
    (hd : d < 3)
    (h0 : 2 ≤ inp.intDat.LatticeSize.a0 ∧ inp.intDat.LatticeSize.a0 ≤ INT_MAX)
    (h1 : 2 ≤ inp.intDat.LatticeSize.a1 ∧ inp.intDat.LatticeSize.a1 ≤ INT_MAX)
    (h2 : 2 ≤ inp.intDat.LatticeSize.a2 ∧ inp.intDat.LatticeSize.a2 ≤ INT_MAX) :
    (inp.intDat.BoundaryConds.idx d = 1 →
      (∀ e, e < 3 → e ≠ d → inp.intDat.BoundaryConds.idx e ≠ 1) →
      (locals inp).velBoundary = 1 ∧ (locals inp).wallAxis = d ∧
      (locals inp).velBC_work_size =
        [(inp.intDat.LatticeSize.a0 - 2).toNat, (inp.intDat.LatticeSize.a1 - 2).toNat,
         (inp.intDat.LatticeSize.a2 - 2).toNat].set d 2 ∧
      (inp.hostDat.ConsolePrintFreq ≠ 0 →
        Call.clEnqueueNDRangeKernel Queue.GPU Kernel.boundary_velocity 3 (some [1, 1, 1])
          ([(inp.intDat.LatticeSize.a0 - 2).toNat, (inp.intDat.LatticeSize.a1 - 2).toNat,
            (inp.intDat.LatticeSize.a2 - 2).toNat].set d 2) none ∈
          (timestep inp (locals inp) t).calls s)) ∧
    ((∀ e, e < 3 → inp.intDat.BoundaryConds.idx e ≠ 1) →
      (locals inp).velBoundary = 0 ∧
      ∀ c ∈ (timestep inp (locals inp) t).calls s,
        c.launched ≠ some Kernel.boundary_velocity) := by
  constructor
  · intro hsel hoth
    obtain ⟨k1, k2, k3⟩ := kernel_range_one_selector inp.intDat d hd hsel hoth
    rw [size_t_sub_two _ h0.1 h0.2, size_t_sub_two _ h1.1 h1.2,
      size_t_sub_two _ h2.1 h2.2] at k3
    have e1 : (locals inp).velBoundary = 1 := k1
    have e3 : (locals inp).velBC_work_size = _ := k3
    refine ⟨e1, k2, e3, fun hC => ?_⟩
    rw [← e3]
    exact front_mem_timestep inp _ t s hC _
      (velocity_launch_mem_front inp _ t (by rw [e1]; decide))
  · intro hno
    have e0 : (locals inp).velBoundary = 0 := kernel_range_no_selector inp.intDat hno
    refine ⟨e0, fun c hc => ?_⟩
    rcases all_timestep inp (locals inp) t s c hc with hf | ht
    · exact front_no_velocity_launch inp _ t e0 c hf
    · exact in_tail_no_velocity_launch _ t c ht

theorem C9_witness :
    ((1 : Nat) < 3 ∧ inp_tangential.intDat.BoundaryConds.idx 1 = 1) ∧
    (locals inp_tangential).velBoundary = 1 ∧ (locals inp_tangential).wallAxis = 1 ∧
    (locals inp_tangential).velBC_work_size = [8, 2, 8] ∧
    Call.clEnqueueNDRangeKernel Queue.GPU Kernel.boundary_velocity 3 (some [1, 1, 1])
      [8, 2, 8] none ∈ (timestep inp_tangential (locals inp_tangential) 1).calls all_success :=
  ⟨⟨by decide, by decide⟩,
    ((C9_velocity_boundary_selector inp_tangential 1 1 all_success (by decide) (by decide)
      (by decide) (by decide)).1 (by decide) (by decide)).1,
    ((C9_velocity_boundary_selector inp_tangential 1 1 all_success (by decide) (by decide)
      (by decide) (by decide)).1 (by decide) (by decide)).2.1,
    ((C9_velocity_boundary_selector inp_tangential 1 1 all_success (by decide) (by decide)
      (by decide) (by decide)).1 (by decide) (by decide)).2.2.1,
    ((C9_velocity_boundary_selector inp_tangential 1 1 all_success (by decide) (by decide)
      (by decide) (by decide)).1 (by decide) (by decide)).2.2.2 (by decide)⟩

/-- The calls of the rebuild up to the unmap. -/
theorem zone_after_rebuild_prefix (z : ZoneCounts) (pre : List Call) (bytes n : Nat)
    (hpre : ∀ c ∈ pre, c.rebuild_op = false) :
    (z.after (pre ++ (Call.clEnqueueMapBuffer Queue.CPU Mem.numParInZone_cl bytes ::
        Call.error_check CL_SUCCESS Tag.clEnqueueMapBuffer ::
        ((List.range n).map (fun i => Call.host_store HostArr.numParInZone_h i 0) ++
          [Call.clEnqueueUnmapMemObject Queue.CPU Mem.numParInZone_cl
            HostArr.numParInZone_h])))).mapped = false ∧
    ∀ i, i < n →
      (z.after (pre ++ (Call.clEnqueueMapBuffer Queue.CPU Mem.numParInZone_cl bytes ::
        Call.error_check CL_SUCCESS Tag.clEnqueueMapBuffer ::
        ((List.range n).map (fun i => Call.host_store HostArr.numParInZone_h i 0) ++
          [Call.clEnqueueUnmapMemObject Queue.CPU Mem.numParInZone_cl
            HostArr.numParInZone_h])))).zero i = true := by
  rw [zone_after_append, zone_after_other z pre hpre]
  simp only [ZoneCounts.after]
  rw [zone_after_append]
  constructor
  · simp [ZoneCounts.after, ZoneCounts.step]
  · intro i hi
    simp only [ZoneCounts.after, ZoneCounts.step]
    rw [(zone_after_stores _ _).2 i]
    simp [List.mem_range, hi]

/-- C12: at a rebuild step (particles present, `t` a multiple of a non-zero
`RebuildFreq`, the map reporting success, the products of `NumZones` and of
`DomainDecomp` non-negative `int` values) the step makes, in this order and
next to each other: the map of `numParInZone_cl` (followed by the check of
its status), a store of 0 to each of the
`NumZones[0]*NumZones[1]*NumZones[2]` entries, the unmap, the launch of
`update_particle_zones` over `DomainDecomp[0]*DomainDecomp[1]*DomainDecomp[2]`
work items on the CPU queue, and the drain of that queue; the step makes no
other such operation.  Wherever `update_particle_zones` is launched in the
step the buffer is unmapped and every count is 0, and no call of the step
writes `zoneMembers_h`. -/
theorem C12_rebuild_sequence (inp : Input) (t : Int) (s : State) (z : ZoneCounts)
    (hP : inp.intDat.NumParticles > 0) (hR : inp.hostDat.RebuildFreq ≠ 0)
    (ht : t % inp.hostDat.RebuildFreq = 0)
    (hC : inp.hostDat.ConsolePrintFreq ≠ 0) (hs : s.checked_ok)
    (hZ : 0 ≤ inp.intDat.NumZones.a0 * inp.intDat.NumZones.a1 * inp.intDat.NumZones.a2 ∧
      inp.intDat.NumZones.a0 * inp.intDat.NumZones.a1 * inp.intDat.NumZones.a2 ≤ INT_MAX)
    (hD : 0 ≤ inp.hostDat.DomainDecomp.a0 * inp.hostDat.DomainDecomp.a1 *
        inp.hostDat.DomainDecomp.a2 ∧
      inp.hostDat.DomainDecomp.a0 * inp.hostDat.DomainDecomp.a1 *
        inp.hostDat.DomainDecomp.a2 ≤ INT_MAX) :
    (∃ pre post,
      (timestep inp (locals inp) t).calls s =
        pre ++ (Call.clEnqueueMapBuffer Queue.CPU Mem.numParInZone_cl
            ((inp.intDat.NumZones.a0 * inp.intDat.NumZones.a1 *
              inp.intDat.NumZones.a2).toNat * 4) ::
          Call.error_check CL_SUCCESS Tag.clEnqueueMapBuffer ::
          ((List.range (inp.intDat.NumZones.a0 * inp.intDat.NumZones.a1 *
              inp.intDat.NumZones.a2).toNat).map
              (fun i => Call.host_store HostArr.numParInZone_h i 0) ++
            [Call.clEnqueueUnmapMemObject Queue.CPU Mem.numParInZone_cl HostArr.numParInZone_h,
             Call.clEnqueueNDRangeKernel Queue.CPU Kernel.update_particle_zones 1 none
               [(inp.hostDat.DomainDecomp.a0 * inp.hostDat.DomainDecomp.a1 *
                  inp.hostDat.DomainDecomp.a2).toNat] none,
             Call.clFinish Queue.CPU])) ++ post ∧
      (∀ c ∈ pre, c.rebuild_op = false) ∧ (∀ c ∈ post, c.rebuild_op = false)) ∧
    (∀ before rest,
      (timestep inp (locals inp) t).calls s =
        before ++ Call.clEnqueueNDRangeKernel Queue.CPU Kernel.update_particle_zones 1 none
          [(inp.hostDat.DomainDecomp.a0 * inp.hostDat.DomainDecomp.a1 *
            inp.hostDat.DomainDecomp.a2).toNat] none :: rest →
      (z.after before).mapped = false ∧
      ∀ i, i < (inp.intDat.NumZones.a0 * inp.intDat.NumZones.a1 *
          inp.intDat.NumZones.a2).toNat → (z.after before).zero i = true) ∧
    (∀ c ∈ (timestep inp (locals inp) t).calls s, HostArr.zoneMembers_h ∉ c.host_writes) := by
  have hN : (locals inp).totalNumZones =
      (inp.intDat.NumZones.a0 * inp.intDat.NumZones.a1 * inp.intDat.NumZones.a2).toNat :=
    size_t_of_int _ hZ.1 hZ.2
  have hT : (locals inp).numParThreads =
      (inp.hostDat.DomainDecomp.a0 * inp.hostDat.DomainDecomp.a1 *
        inp.hostDat.DomainDecomp.a2).toNat :=
    size_t_of_int _ hD.1 hD.2
  have hB : (locals inp).totalNumZones * 4 % 2 ^ 64 =
      (inp.intDat.NumZones.a0 * inp.intDat.NumZones.a1 * inp.intDat.NumZones.a2).toNat * 4 := by
    rw [hN]
    apply Nat.mod_eq_of_lt
    have := hZ.2
    unfold INT_MAX at this
    omega
  have hR1 : (locals inp).usingParticles = 0 ∨ inp.hostDat.RebuildFreq ≠ 0 := Or.inr hR
  obtain ⟨rest, hcalls, hrest⟩ := timestep_calls_output inp (locals inp) t s hC hR1 hs
  have hpost : ∀ c ∈ end_calls ++ rest, c.rebuild_op = false := by
    rw [List.forall_mem_append]
    exact ⟨end_no_rebuild_op, fun c hc => is_output_rebuild_op c (hrest c hc)⟩
  rw [rebuild_calls, if_pos ⟨(usingParticles_ne_zero inp).mpr hP, (tmod_eq_zero_iff _ _).mpr ht⟩,
    rebuild_block, hB, hN, hT] at hcalls
  have hpre := front_no_rebuild_op inp (locals inp) t
  refine ⟨⟨front_calls inp (locals inp) t, end_calls ++ rest, ?_, hpre, hpost⟩, ?_, ?_⟩
  · rw [hcalls]
    simp only [List.append_assoc, List.cons_append]
  · intro before rest1 hsplit
    have hform : (timestep inp (locals inp) t).calls s =
        (front_calls inp (locals inp) t ++
          (Call.clEnqueueMapBuffer Queue.CPU Mem.numParInZone_cl
            ((inp.intDat.NumZones.a0 * inp.intDat.NumZones.a1 *
              inp.intDat.NumZones.a2).toNat * 4) ::
          Call.error_check CL_SUCCESS Tag.clEnqueueMapBuffer ::
          ((List.range (inp.intDat.NumZones.a0 * inp.intDat.NumZones.a1 *
              inp.intDat.NumZones.a2).toNat).map
              (fun i => Call.host_store HostArr.numParInZone_h i 0) ++
            [Call.clEnqueueUnmapMemObject Queue.CPU Mem.numParInZone_cl
              HostArr.numParInZone_h]))) ++
        Call.clEnqueueNDRangeKernel Queue.CPU Kernel.update_particle_zones 1 none
          [(inp.hostDat.DomainDecomp.a0 * inp.hostDat.DomainDecomp.a1 *
            inp.hostDat.DomainDecomp.a2).toNat] none ::
          (Call.clFinish Queue.CPU :: (end_calls ++ rest)) := by
      rw [hcalls]
      simp only [List.append_assoc, List.cons_append, List.nil_append]
    rw [hform] at hsplit
    have hnot1 : Call.clEnqueueNDRangeKernel Queue.CPU Kernel.update_particle_zones 1 none
          [(inp.hostDat.DomainDecomp.a0 * inp.hostDat.DomainDecomp.a1 *
            inp.hostDat.DomainDecomp.a2).toNat] none ∉
        (front_calls inp (locals inp) t ++
          (Call.clEnqueueMapBuffer Queue.CPU Mem.numParInZone_cl
            ((inp.intDat.NumZones.a0 * inp.intDat.NumZones.a1 *
              inp.intDat.NumZones.a2).toNat * 4) ::
          Call.error_check CL_SUCCESS Tag.clEnqueueMapBuffer ::
          ((List.range (inp.intDat.NumZones.a0 * inp.intDat.NumZones.a1 *
              inp.intDat.NumZones.a2).toNat).map
              (fun i => Call.host_store HostArr.numParInZone_h i 0) ++
            [Call.clEnqueueUnmapMemObject Queue.CPU Mem.numParInZone_cl
              HostArr.numParInZone_h]))) := by
      intro hmem
      simp only [List.mem_append, List.mem_cons, List.mem_map, List.mem_singleton,
        List.not_mem_nil, or_false] at hmem
      rcases hmem with h | h | h | ⟨i, _, h⟩ | h
      · have := hpre _ h
        simp [Call.rebuild_op] at this
      · exact Call.noConfusion h
      · exact Call.noConfusion h
      · exact Call.noConfusion h
      · exact Call.noConfusion h
    have hnot2 : Call.clEnqueueNDRangeKernel Queue.CPU Kernel.update_particle_zones 1 none
          [(inp.hostDat.DomainDecomp.a0 * inp.hostDat.DomainDecomp.a1 *
            inp.hostDat.DomainDecomp.a2).toNat] none ∉
        (Call.clFinish Queue.CPU :: (end_calls ++ rest)) := by
      intro hmem
      simp only [List.mem_cons] at hmem
      rcases hmem with h | h
      · exact Call.noConfusion h
      · have := hpost _ h
        simp [Call.rebuild_op] at this
    obtain ⟨hb, _, _⟩ := (List.append_cons_inj_of_not_mem hnot1 hnot2).mp hsplit
    rw [← hb]
    exact zone_after_rebuild_prefix z _ _ _ hpre
  · intro c hc hmem
    have := all_host_writes inp (locals inp) t s c hc _ hmem
    simp at this

theorem C12_witness :
    (inp_particle.intDat.NumParticles > 0 ∧ (5 : Int) % inp_particle.hostDat.RebuildFreq = 0) ∧
    ∃ pre post,
      (timestep inp_particle (locals inp_particle) 5).calls all_success =
        pre ++ (Call.clEnqueueMapBuffer Queue.CPU Mem.numParInZone_cl 4 ::
          Call.error_check CL_SUCCESS Tag.clEnqueueMapBuffer ::
          ([Call.host_store HostArr.numParInZone_h 0 0] ++
            [Call.clEnqueueUnmapMemObject Queue.CPU Mem.numParInZone_cl HostArr.numParInZone_h,
             Call.clEnqueueNDRangeKernel Queue.CPU Kernel.update_particle_zones 1 none [1] none,
             Call.clFinish Queue.CPU])) ++ post ∧
      (∀ c ∈ pre, c.rebuild_op = false) ∧ (∀ c ∈ post, c.rebuild_op = false) :=
  ⟨⟨by decide, by decide⟩,
    (C12_rebuild_sequence inp_particle 5 all_success ⟨false, fun _ => false⟩ (by decide)
      (by decide) (by decide) (by decide) (fun _ _ _ => rfl) (by decide) (by decide)).1⟩

/-- C13: division safety of the loop step.  With `ConsolePrintFreq`,
`VideoFreq` and `ShearStressFreq` non-zero and either `NumParticles = 0` or
`RebuildFreq` non-zero, no step (and no run of the loop from step 1) ends in
a `%` with divisor zero, whatever the calls report; in particular a zero
`RebuildFreq` is harmless without particles, since `t % RebuildFreq` is then
not evaluated.  The other three are evaluated in every configuration: a zero
`ConsolePrintFreq` makes the step undefined at once, and a zero `VideoFreq`
or `ShearStressFreq` makes it undefined as soon as the step gets there; with
particles a zero `RebuildFreq` does so too. -/
theorem C13_division_safety (inp : Input) (t : Int) (s : State) :
    (inp.hostDat.ConsolePrintFreq ≠ 0 → inp.hostDat.VideoFreq ≠ 0 →
      inp.hostDat.ShearStressFreq ≠ 0 →
      (inp.intDat.NumParticles = 0 ∨ inp.hostDat.RebuildFreq ≠ 0) →
        ((timestep inp (locals inp) t).outcome s).halted ≠ some Halt.undefined_behaviour ∧
        ∀ n, ((time_loop inp (locals inp) n 1).outcome s).halted ≠
          some Halt.undefined_behaviour) ∧
    (inp.hostDat.ConsolePrintFreq = 0 →
      ((timestep inp (locals inp) t).outcome s).halted = some Halt.undefined_behaviour) ∧
    (inp.hostDat.ConsolePrintFreq ≠ 0 →
      (inp.intDat.NumParticles ≤ 0 ∨ inp.hostDat.RebuildFreq ≠ 0) → s.checked_ok →
      inp.hostDat.VideoFreq = 0 →
      ((timestep inp (locals inp) t).outcome s).halted = some Halt.undefined_behaviour) ∧
    (inp.hostDat.ConsolePrintFreq ≠ 0 →
      (inp.intDat.NumParticles ≤ 0 ∨ inp.hostDat.RebuildFreq ≠ 0) → s.checked_ok →
      inp.hostDat.VideoFreq ≠ 0 → inp.hostDat.ShearStressFreq = 0 →
      ((timestep inp (locals inp) t).outcome s).halted = some Halt.undefined_behaviour) ∧
    (inp.hostDat.ConsolePrintFreq ≠ 0 → inp.intDat.NumParticles > 0 →
      inp.hostDat.RebuildFreq = 0 →
      ((timestep inp (locals inp) t).outcome s).halted = some Halt.undefined_behaviour) := by
  refine ⟨?_, ?_, ?_, ?_, ?_⟩
  · intro hC hV hS hR
    have hR1 : (locals inp).usingParticles = 0 ∨ inp.hostDat.RebuildFreq ≠ 0 :=
      hR.imp (fun h => (usingParticles_eq_zero inp).mpr (le_of_eq h)) id
    exact ⟨defined_timestep inp _ t hC hR1 hV hS s,
      fun n => defined_time_loop inp _ n 1 hC hR1 hV hS s⟩
  · intro hC
    unfold Prog.outcome
    have e : (timestep inp (locals inp) t).run s = ([], Outcome.halt Halt.undefined_behaviour) := by
      unfold timestep print_iteration
      simp only [hC, run_bind, run_c_mod_zero]
    rw [e]
    rfl
  · intro hC hR hs hV
    have hR1 : (locals inp).usingParticles = 0 ∨ inp.hostDat.RebuildFreq ≠ 0 :=
      hR.imp (usingParticles_eq_zero inp).mpr id
    unfold Prog.outcome
    rw [timestep_run inp _ t s hC]
    show (((step_tail inp (locals inp) t).run _).2).halted = _
    rw [tail_video_undefined inp _ t _ hR1 (State.checked_ok_tick hs _) hV]
    rfl
  · intro hC hR hs hV hS
    have hR1 : (locals inp).usingParticles = 0 ∨ inp.hostDat.RebuildFreq ≠ 0 :=
      hR.imp (usingParticles_eq_zero inp).mpr id
    unfold Prog.outcome
    rw [timestep_run inp _ t s hC]
    show (((step_tail inp (locals inp) t).run _).2).halted = _
    rw [tail_shear_undefined inp _ t _ hR1 (State.checked_ok_tick hs _) hV hS]
    rfl
  · intro hC hP hR
    unfold Prog.outcome
    rw [timestep_run inp _ t s hC]
    show (((step_tail inp (locals inp) t).run _).2).halted = _
    rw [tail_rebuild_undefined inp _ t _ ((usingParticles_ne_zero inp).mpr hP) hR]
    rfl

theorem C13_witness :
    (inp_fluid_alt.intDat.NumParticles = 0 ∧ inp_fluid_alt.hostDat.RebuildFreq = 0) ∧
    ((timestep inp_fluid_alt (locals inp_fluid_alt) 5).outcome all_success).halted ≠
      some Halt.undefined_behaviour :=
  ⟨⟨rfl, rfl⟩, ((C13_division_safety inp_fluid_alt 5 all_success).1 (by decide) (by decide)
    (by decide) (Or.inl rfl)).1⟩

/-! ## The host arrays along the loop -/

theorem host_after_keep {α : Type} (m : HostArr → Option α) (l : List Call) (a : HostArr)
    (h : ∀ c ∈ l, a ∉ c.host_writes) : host_after m l a = m a := by
  induction l generalizing m with
  | nil => rfl
  | cons c l ih =>
    show host_after (host_step m c) l a = m a
    rw [ih (host_step m c) (fun d hd => h d (List.mem_cons_of_mem _ hd))]
    unfold host_step
    rw [if_neg (h c (List.mem_cons_self _ _))]

theorem all_loop_host_writes (inp : Input) (L : Locals) (n : Nat) (t : Int) :
    Prog.All (fun c => ∀ a ∈ c.host_writes,
      a = HostArr.u_h ∨ a = HostArr.tau_lb_h ∨ a = HostArr.numParInZone_h)
      (time_loop inp L n t) :=
  all_time_loop _ inp L (fun t1 => all_host_writes inp L t1) n t

theorem all_loop_handed (inp : Input) (L : Locals) (n : Nat) (t : Int) :
    Prog.All (fun c => ∀ u p t1, c = Call.continuous_output u p t1 →
      u = HostArr.u_h ∧ p = HostArr.parKin_h) (time_loop inp L n t) :=
  all_time_loop _ inp L (fun t1 => all_mono _ _ _
    (fun _ h u p t2 he => ⟨(h u p t2 he).1, (h u p t2 he).2.1⟩) (all_handed inp L t1)) n t

theorem sampled_step_output (inp : Input) (L : Locals) (t : Int) (s : State)
    (hC : inp.hostDat.ConsolePrintFreq ≠ 0)
    (hR : L.usingParticles = 0 ∨ inp.hostDat.RebuildFreq ≠ 0)
    (hV : inp.hostDat.VideoFreq ≠ 0) (hS : inp.hostDat.ShearStressFreq ≠ 0)
    (hs : s.checked_ok) (ht : t % inp.hostDat.VideoFreq = 0) :
    Call.continuous_output HostArr.u_h HostArr.parKin_h t ∈ (timestep inp L t).calls s := by
  rw [runs_calls (runs_timestep inp L t s hC hR hV hS hs)]
  unfold step_calls output_calls
  rw [if_pos ((tmod_eq_zero_iff _ _).mpr ht)]
  simp

/-- C14: frame property of the timestep loop on the host arrays.  No call of
the loop (any number of steps, any first step, whatever the calls report)
overwrites `parKin_h`; the arrays a call of the loop overwrites are among
`u_h`, `tau_lb_h` and the mapped per-zone counts `numParInZone_h`.  Hence
wherever the loop calls `continuous_output` it hands it `parKin_h`, and that
array still holds what it held when the loop was entered, whatever was
launched on the device in between.  A sampled step that no call halts does
make that call. -/
theorem C14_host_frame (inp : Input) (n : Nat) (t0 : Int) (s : State) (α : Type)
    (m : HostArr → Option α) :
    (∀ c ∈ (time_loop inp (locals inp) n t0).calls s,
      HostArr.parKin_h ∉ c.host_writes ∧
      ∀ a ∈ c.host_writes,
        a = HostArr.u_h ∨ a = HostArr.tau_lb_h ∨ a = HostArr.numParInZone_h) ∧
    (∀ before u p t rest,
      (time_loop inp (locals inp) n t0).calls s =
        before ++ Call.continuous_output u p t :: rest →
      p = HostArr.parKin_h ∧
      host_after m before HostArr.parKin_h = m HostArr.parKin_h) ∧
    (inp.hostDat.ConsolePrintFreq ≠ 0 →
      (inp.intDat.NumParticles ≤ 0 ∨ inp.hostDat.RebuildFreq ≠ 0) →
      inp.hostDat.VideoFreq ≠ 0 → inp.hostDat.ShearStressFreq ≠ 0 → s.checked_ok →
      t0 % inp.hostDat.VideoFreq = 0 →
      Call.continuous_output HostArr.u_h HostArr.parKin_h t0 ∈
        (timestep inp (locals inp) t0).calls s) := by
  have hw : ∀ c ∈ (time_loop inp (locals inp) n t0).calls s,
      HostArr.parKin_h ∉ c.host_writes ∧
      ∀ a ∈ c.host_writes,
        a = HostArr.u_h ∨ a = HostArr.tau_lb_h ∨ a = HostArr.numParInZone_h := by
    intro c hc
    have h := all_loop_host_writes inp (locals inp) n t0 s c hc
    refine ⟨fun hmem => ?_, h⟩
    have := h _ hmem
    simp at this
  refine ⟨hw, ?_, ?_⟩
  · intro before u p t rest hsplit
    constructor
    · have hmem : Call.continuous_output u p t ∈ (time_loop inp (locals inp) n t0).calls s := by
        rw [hsplit]
        simp
      exact (all_loop_handed inp (locals inp) n t0 s _ hmem u p t rfl).2
    · apply host_after_keep
      intro c hc
      apply (hw c _).1
      rw [hsplit]
      exact List.mem_append_left _ hc
  · intro hC hR hV hS hs ht
    exact sampled_step_output inp (locals inp) t0 s hC
      (hR.imp (usingParticles_eq_zero inp).mpr id) hV hS hs ht

theorem C14_witness :
    Call.continuous_output HostArr.u_h HostArr.parKin_h 1000 ∈
      (timestep inp_particle (locals inp_particle) 1000).calls all_success :=
  (C14_host_frame inp_particle 1 1000 all_success Nat (fun _ => some 0)).2.2 (by decide)
    (by decide) (by decide) (by decide) (fun _ _ _ => rfl) (by decide)

end D3Q19
